import Mathlib

/-!
Shallow embedding of the Chronobotanica simulation engine
(`src/classes/Garden.ts`, with constants from `src/constants.ts` and record
shapes from `src/types.ts`), together with theorems settling the claims about
its natural-language specification.

Modelling conventions:
* JavaScript numbers are modelled as `ℚ` (coordinates, grid keys and counters
  that the source only ever uses as integers are modelled as `Int`/`Nat`).
* `Math.random()` is modelled as an oracle stream `rng : Nat → ℚ` together with
  a cursor `rngIdx` carried in the state; theorems quantify over the stream.
* The floating-point vector math of tropism scoring (`grow3D` lines 607-637)
  and of direction normalisation (`reconstructTipsForGrowth`) uses `Math.sqrt`,
  which has no exact rational counterpart; it is modelled by the oracles
  `tropism` and `vnorm`, which receive exactly the data the source expressions
  read.  All theorems are universally quantified over these oracles.
* `JavaScript Map`s are modelled as association lists preserving insertion
  order (`Map.set` updates in place, else appends); the sparse voxel grid is
  never iterated by the engine, so its `Map` is modelled with a
  prepend-on-set association list, which keeps keys duplicate-free.
* Database and DOM calls (`supabase`, `Date.now()`, `console`) are external:
  writes are either dropped (fire-and-forget inserts) or reflected in the
  buffered `pending` fields exactly as the source does; `Date.now()` is the
  oracle field `dateNow`.
-/

namespace Chrono

/-- Grid width from `src/constants.ts` (`GRID_WIDTH = 100`). -/
def GRID_WIDTH : Int := 100

/-- Grid height from `src/constants.ts` (`GRID_HEIGHT = 100`). -/
def GRID_HEIGHT : Int := 100

/-- Grid depth from `src/constants.ts` (`GRID_DEPTH = 100`). -/
def GRID_DEPTH : Int := 100

/-- Energy threshold to grow, from `src/constants.ts` (`ENERGY_TO_GROW = 40`). -/
def ENERGY_TO_GROW : ℚ := 40

/-- Stem max age from `src/constants.ts` (`MAX_AGE_STEM = 60000`). -/
def MAX_AGE_STEM : ℚ := 60000

/-- Seeding probability per slow tick, `Garden.ts` line 7 (`SEED_CHANCE = 0.05`). -/
def SEED_CHANCE : ℚ := 5/100

/-- Rebirth probability per slow tick, `Garden.ts` line 8 (`REBIRTH_CHANCE = 0.08`). -/
def REBIRTH_CHANCE : ℚ := 8/100

/-- Cell types from `src/types.ts` (`CellType` enum, codes 0-7). -/
inductive CellType where
  | empty
  | stem
  | leaf
  | flower
  | crystal
  | ash
  | petal
  | sun
deriving DecidableEq

/-- Decoded genotype, from `src/types.ts` restricted to the numeric traits.
The three derived display colors (`stemColor`, `leafColor`, `flowerColor`,
computed with `THREE.Color` HSL math) are read by no simulation rule and are
not modelled. -/
structure Genotype where
  branchBias : ℚ
  sunSensitivity : ℚ
  maxHeight : ℚ
  leafDensity : ℚ
  leafSize : Int
deriving DecidableEq

/-- One occupied voxel, from `src/types.ts` (`GridCell`).  The source stores a
formatted display string in `birthTime`; we keep the raw timestamp it was
formatted from. -/
structure GridCell where
  type : CellType
  x : Int
  y : Int
  z : Int
  age : ℚ
  maxAge : ℚ
  energy : ℚ
  plantId : Option Nat
  dnaHash : String
  genotype : Genotype
  isTip : Bool
  birthTime : ℚ
deriving DecidableEq

/-- Growth-tip cursor, `Garden.ts` lines 10-16 (`TipState`). -/
structure TipState where
  idx : Int
  dir : ℚ × ℚ × ℚ
  level : Nat
  length : Nat
  maxLength : ℚ
deriving DecidableEq

/-- Neighbor candidate record, `Garden.ts` lines 18-24 (`NeighborInfo`,
without the scratch `weight` field which only lives inside the
oracle-modelled scoring). -/
structure NeighborInfo where
  x : Int
  y : Int
  z : Int
  idx : Int
deriving DecidableEq

/-- Lifecycle phases, `Garden.ts` line 29. -/
inductive Phase where
  | growing
  | mature
  | crystallizing
  | dissolving
  | legacy
deriving DecidableEq

/-- Per-organism registry entry, `Garden.ts` lines 26-38 (`PlantState`). -/
structure PlantState where
  id : Nat
  indices : List Int
  phase : Phase
  individualMaxHeight : ℚ
  crystallizationDelay : ℚ
  vigor : ℚ
  dna : String
  genotype : Genotype
  center : ℚ × ℚ × ℚ
  energy : ℚ
  age : ℚ
deriving DecidableEq

/-- Per-type cell counters, `Garden.ts` lines 60-66 (`cellCounts`). -/
structure CellCounts where
  stem : Int
  leaf : Int
  flower : Int
  crystal : Int
  ash : Int
deriving DecidableEq

/-- A persisted plant row, `src/types.ts` (`PlantRecord`); `created_at` is the
parsed timestamp in milliseconds, `isAsh` models `status === 'ash'`. -/
structure PlantRecord where
  id : Nat
  created_at : ℚ
  dna : String
  x : Int
  z : Int
  isAsh : Bool
deriving DecidableEq

/-- A persisted cell row as consumed by `loadFromDatabase` (the source types
it `any`); `created_at` is the parsed timestamp. -/
structure CellRecord where
  plant_id : Option Nat
  x : Int
  y : Int
  z : Int
  type : CellType
  created_at : ℚ
deriving DecidableEq

/-- Association-list lookup, modelling `Map.get` (first entry with the key). -/
def alGet {K V : Type} [DecidableEq K] (m : List (K × V)) (k : K) : Option V :=
  (m.find? (fun e => e.1 = k)).map (fun e => e.2)

/-- Modelling `Map.has`. -/
def alHas {K V : Type} [DecidableEq K] (m : List (K × V)) (k : K) : Bool :=
  (alGet m k).isSome

/-- Modelling `Map.set`: update in place when the key is present (JS `Map`
keeps the insertion position), otherwise append. -/
def alSet {K V : Type} [DecidableEq K] : List (K × V) → K → V → List (K × V)
  | [], k, v => [(k, v)]
  | e :: rest, k, v => if e.1 = k then (k, v) :: rest else e :: alSet rest k v

/-- Modelling `Map.delete`. -/
def alDelete {K V : Type} [DecidableEq K] (m : List (K × V)) (k : K) : List (K × V) :=
  m.filter (fun e => ¬ e.1 = k)

/-- Grid store: the engine never iterates the voxel `Map`, so its `Map.set`
is modelled by delete-then-prepend, which keeps the key list duplicate-free. -/
def gridSet (m : List (Int × GridCell)) (k : Int) (v : GridCell) : List (Int × GridCell) :=
  (k, v) :: alDelete m k

/-- JS truthiness of a nullable numeric plant id (`null` and `0` are falsy). -/
def idTruthy : Option Nat → Bool
  | some n => n != 0
  | none => false

/-- Hex digit value, modelling a `parseInt(-, 16)` digit (case-insensitive). -/
def hexDigitVal (c : Char) : Option Nat :=
  if '0' ≤ c ∧ c ≤ '9' then some (c.toNat - '0'.toNat)
  else if 'a' ≤ c ∧ c ≤ 'f' then some (c.toNat - 'a'.toNat + 10)
  else if 'A' ≤ c ∧ c ≤ 'F' then some (c.toNat - 'A'.toNat + 10)
  else none

/-- Accumulate hex digits, most significant first. -/
def hexFold : List Char → Nat → Nat
  | [], acc => acc
  | c :: rest, acc => hexFold rest (acc * 16 + (hexDigitVal c).getD 0)

/-- Modelling `parseInt(s, 16)`: parse the longest prefix of hex digits,
`none` when there is none (JS `NaN`).  The source only feeds it short ASCII
slices of genome strings, so radix prefixes and whitespace never arise. -/
def parseIntHex (str : List Char) : Option Nat :=
  let pfx := str.takeWhile (fun c => (hexDigitVal c).isSome)
  if pfx.isEmpty then none else some (hexFold pfx 0)

/-- Modelling `hash.replace('0x', '')`: JS string-pattern `replace` removes
only the first occurrence. -/
def removeFirst0x : List Char → List Char
  | [] => []
  | '0' :: 'x' :: rest => rest
  | c :: rest => c :: removeFirst0x rest

/-- Genome decoding, `Garden.ts` lines 232-277 (`parseDNA`), restricted to the
numeric traits; the color computation (lines 239-266) drives display colors
only and is not modelled.  `|| 0` on an unparsable pair is `getD 0`. -/
def parseDNA (hash : String) : Genotype :=
  let cleanHash := removeFirst0x hash.toList
  let valBranch := (parseIntHex (cleanHash.take 2)).getD 0
  let valSun := (parseIntHex ((cleanHash.drop 2).take 2)).getD 0
  let valLeafD := (parseIntHex ((cleanHash.drop 4).take 2)).getD 0
  let valLeafS := (parseIntHex ((cleanHash.drop 6).take 2)).getD 0
  { branchBias := 2/10 + ((valBranch : ℚ) / 255) * (3/10),
    maxHeight := 4/10 + ((valSun : ℚ) / 255) * (14/10),
    sunSensitivity := 3/10 + ((valSun : ℚ) / 255) * (7/10),
    leafDensity := 15/100 + ((valLeafD : ℚ) / 255) * (25/100),
    leafSize := 2 + Int.floor (((valLeafS : ℚ) / 255) * 4) }

/-- The integer value of `dna.slice(-3)` parsed as hex, `Garden.ts` line 287
(`registerPlant`); JS `slice(-3)` takes the last three characters. -/
def dnaVigorVal (dna : String) : Option Nat :=
  parseIntHex (dna.toList.drop (dna.toList.length - 3))

/-- The vigor multiplier the source computes (and then never uses) at
`Garden.ts` line 288: `0.5 + vigorVal / 4095.0`. -/
def dnaVigorMultiplier (dna : String) : ℚ :=
  1/2 + ((dnaVigorVal dna).getD 0 : ℚ) / 4095

/-- The value of the `i`-th hex pair of a genome string (the
`parseInt(cleanHash.substring(i, i+2), 16) || 0` pattern of `parseDNA`). -/
def hexPair (hash : String) (i : Nat) : Nat :=
  (parseIntHex (((removeFirst0x hash.toList).drop i).take 2)).getD 0

/-- The whole mutable state of a `Garden` instance (`Garden.ts` lines 40-78).
`config` is reduced to `growthRate`, the only config field the engine reads. -/
structure GardenState where
  grid : List (Int × GridCell)
  growthRate : ℚ
  sunPosition : ℚ × ℚ × ℚ
  playbackTime : ℚ
  plantCounter : Nat
  realPlantCount : Nat
  activeTips : List (Int × TipState)
  plantRegistry : List (Nat × PlantState)
  uniqueSpecies : List String
  isCatchingUp : Bool
  globalLastTickTime : Option ℚ
  pendingPlants : List (Nat × String × Int × Int)
  pendingCells : List (Option Nat × Int × Int × Int × CellType)
  simulationTime : Option ℚ
  cellCounts : CellCounts
  rngIdx : Nat
deriving DecidableEq

/-- External inputs of the engine: the `Math.random()` stream, `Date.now()`,
and the floating-point vector math abstracted away (see the header).
`tropism` returns the updated direction vector and an arbitrary choice index
into the candidate list (taken modulo its length); `vnorm` models float
normalisation of a direction vector; `sunFromTime` models the trigonometric
sun position of `updateSunFromTime`; `msPerUpdate` models the irrational
`(2.0 / (2π)) * 86400000`; `jsSortTips` models `Array.sort` with the random
comparator of `update` (an implementation-defined permutation). -/
structure Oracles where
  rng : Nat → ℚ
  dateNow : ℚ
  tropism : GridCell → TipState → (ℚ × ℚ × ℚ) → List NeighborInfo → (ℚ × ℚ × ℚ) × Nat
  vnorm : ℚ × ℚ × ℚ → ℚ × ℚ × ℚ
  sunFromTime : ℚ → ℚ × ℚ × ℚ
  msPerUpdate : ℚ
  jsSortTips : List TipState → List TipState

/-- Draw the next `Math.random()` value. -/
def draw (O : Oracles) (s : GardenState) : ℚ × GardenState :=
  (O.rng s.rngIdx, { s with rngIdx := s.rngIdx + 1 })

/-- The random stream produces values in `[0, 1)`, as `Math.random()` does. -/
def RngOk (O : Oracles) : Prop :=
  ∀ n, 0 ≤ O.rng n ∧ O.rng n < 1

/-- Modelling the `timeNow` getter (`Garden.ts` lines 80-82):
`this.simulationTime || Date.now()` — note JS `||` also rejects `0`. -/
def timeNow (O : Oracles) (s : GardenState) : ℚ :=
  match s.simulationTime with
  | some t => if t = 0 then O.dateNow else t
  | none => O.dateNow

/-- Coordinate-to-key encoding, `Garden.ts` lines 84-87 (`getIndex`):
`-1` for out-of-bounds coordinates. -/
def getIndex (x y z : Int) : Int :=
  if x < 0 ∨ x ≥ GRID_WIDTH ∨ y < 0 ∨ y ≥ GRID_HEIGHT ∨ z < 0 ∨ z ≥ GRID_DEPTH then -1
  else x + y * GRID_WIDTH + z * GRID_WIDTH * GRID_HEIGHT

/-- Stats counter update, `Garden.ts` lines 159-169 (`updateCellCount`); the
`ASH` counter is clamped at `0`, and untracked types are ignored. -/
def updateCellCount (c : CellCounts) (t : CellType) (delta : Int) : CellCounts :=
  match t with
  | .stem => { c with stem := c.stem + delta }
  | .leaf => { c with leaf := c.leaf + delta }
  | .flower => { c with flower := c.flower + delta }
  | .crystal => { c with crystal := c.crystal + delta }
  | .ash => { c with ash := max 0 (c.ash + delta) }
  | _ => c

/-- Cell creation, `Garden.ts` lines 171-207 (`createCell`): decrement the
overwritten cell's type counter first, store the new cell, increment its type
counter, append the key to the owner's index list, and either buffer the cell
for the catch-up batch write or (live) fire the `saveNewCell` DB insert,
which is external and leaves the engine state unchanged. -/
def createCell (O : Oracles) (s : GardenState) (index : Int) (x y z : Int)
    (type : CellType) (plantId : Option Nat) (dna : String) (genotype : Genotype)
    (birthTime : Option ℚ) : GardenState :=
  let counts := match alGet s.grid index with
    | some old => updateCellCount s.cellCounts old.type (-1)
    | none => s.cellCounts
  let cell : GridCell :=
    { type := type, x := x, y := y, z := z, plantId := plantId, dnaHash := dna,
      genotype := genotype, age := 0, maxAge := MAX_AGE_STEM, energy := 0,
      isTip := false, birthTime := birthTime.getD (timeNow O s) }
  let s := { s with grid := gridSet s.grid index cell,
                    cellCounts := updateCellCount counts type 1 }
  match plantId with
  | some pid =>
    match alGet s.plantRegistry pid with
    | some p =>
      let s := { s with plantRegistry :=
          (alSet s.plantRegistry pid { p with indices := p.indices ++ [index] }) }
      if s.isCatchingUp then
        { s with pendingCells := s.pendingCells ++ [(plantId, x, y, z, type)] }
      else s
    | none => s
  | none => s

/-- Direct cell creation during DB hydration, `Garden.ts` lines 878-904
(`createCellDirect`): like `createCell` but with no tip/persistence logic. -/
def createCellDirect (s : GardenState) (O : Oracles) (index : Int) (x y z : Int)
    (type : CellType) (plantId : Option Nat) (dna : String) (genotype : Genotype)
    (birthTime : Option ℚ) : GardenState :=
  let counts := match alGet s.grid index with
    | some old => updateCellCount s.cellCounts old.type (-1)
    | none => s.cellCounts
  let cell : GridCell :=
    { type := type, x := x, y := y, z := z, plantId := plantId, dnaHash := dna,
      genotype := genotype, age := 0, maxAge := MAX_AGE_STEM, energy := 0,
      isTip := false, birthTime := birthTime.getD (timeNow O s) }
  let s := { s with grid := gridSet s.grid index cell,
                    cellCounts := updateCellCount counts type 1 }
  match plantId with
  | some pid =>
    match alGet s.plantRegistry pid with
    | some p =>
      { s with plantRegistry :=
          (alSet s.plantRegistry pid { p with indices := p.indices ++ [index] }) }
    | none => s
  | none => s

/-- Organism registration, `Garden.ts` lines 285-303 (`registerPlant`).  The
source computes `vigorMultiplier = 0.5 + vigorVal/4095` from the DNA's last
three hex digits here (see `dnaVigorMultiplier`) but never stores or uses it:
the stored `vigor` is `0.8 + Math.random() * 0.4`.  The three random draws
are, in evaluation order: height jitter, crystallization delay, vigor. -/
def registerPlant (O : Oracles) (s : GardenState) (id : Nat) (genotype : Genotype)
    (dna : String) : GardenState :=
  let (r1, s) := draw O s
  let (r2, s) := draw O s
  let (r3, s) := draw O s
  { s with plantRegistry := (alSet s.plantRegistry id
    { id := id, indices := [], phase := .growing,
      individualMaxHeight :=
        max 15 (genotype.maxHeight * (GRID_HEIGHT : ℚ) * (8/10 + r1 * (4/10))),
      crystallizationDelay := 40 + r2 * 30,
      vigor := 8/10 + r3 * (4/10),
      dna := dna, genotype := genotype, center := (0, 0, 0),
      energy := 100, age := 0 }) }

/-- Modelling `uniqueSpeciesSet.add`. -/
def addUnique (l : List String) (dna : String) : List String :=
  if dna ∈ l then l else l ++ [dna]

/-- Plant initialisation, `Garden.ts` lines 305-343 (`initializePlantAt`).
With no `forcedId` a fresh id `plantCounter + 1` is allocated; with one, the
counter is raised to at least the forced id.  New births are buffered while
catching up, else reported through the external `onPlantBorn` DB callback.
The founding stem is marked as a tip with a double energy buffer and an
upward initial direction. -/
def initializePlantAt (O : Oracles) (s : GardenState) (index : Int) (x y z : Int)
    (dna : String) (birthTime : Option ℚ) (forcedId : Option Nat) : GardenState :=
  let idAndS : Nat × GardenState := match forcedId with
    | some fid => (fid, { s with plantCounter := max s.plantCounter fid })
    | none => (s.plantCounter + 1,
        { s with plantCounter := s.plantCounter + 1,
                 realPlantCount := s.realPlantCount + 1 })
  let id := idAndS.1
  let s := idAndS.2
  let s := { s with uniqueSpecies := addUnique s.uniqueSpecies dna }
  let genotype := parseDNA dna
  let s := registerPlant O s id genotype dna
  let s :=
    if forcedId = none then
      if s.isCatchingUp then
        { s with pendingPlants := s.pendingPlants ++ [(id, dna, x, z)] }
      else s
    else s
  let s := createCell O s index x y z .stem (some id) dna genotype birthTime
  let s := match alGet s.grid index with
    | some cell =>
      { s with grid :=
          (gridSet s.grid index { cell with isTip := true, energy := ENERGY_TO_GROW * 2 }) }
    | none => s
  let (r, s) := draw O s
  { s with activeTips := (alSet s.activeTips index
    { idx := index, dir := (0, 1, 0), level := 0, length := 0,
      maxLength := 40 + r * 50 }) }

/-- Uppercase hex digits of a natural number, modelling
`n.toString(16).toUpperCase()`. -/
def toHexUpper (n : Nat) : List Char :=
  (Nat.toDigits 16 n).map Char.toUpper

/-- Modelling `padStart(6, '0')`. -/
def padStart6 (l : List Char) : List Char :=
  List.replicate (6 - l.length) '0' ++ l

/-- One random 6-hex-digit block of `generateDNA`:
`Math.floor(Math.random() * 0xFFFFFF).toString(16).padStart(6,'0').toUpperCase()`. -/
def randHex6 (r : ℚ) : List Char :=
  padStart6 (toHexUpper (Int.toNat (Int.floor (r * 0xFFFFFF))))

/-- Random genome generation, `Garden.ts` lines 227-230 (`generateDNA`). -/
def generateDNA (O : Oracles) (s : GardenState) : String × GardenState :=
  let (r1, s) := draw O s
  let (r2, s) := draw O s
  (String.mk ('0' :: 'x' :: (randHex6 r1 ++ randHex6 r2)), s)

/-- Spontaneous seeding, `Garden.ts` lines 345-359 (`spawnNewPlant`): up to
ten attempts to find an empty ground cell at a random `(x, 0, z)`. -/
def spawnNewPlant (O : Oracles) : Nat → GardenState → GardenState
  | 0, s => s
  | attempts + 1, s =>
    let (r1, s) := draw O s
    let (r2, s) := draw O s
    let rx := Int.floor (r1 * (GRID_WIDTH : ℚ))
    let rz := Int.floor (r2 * (GRID_DEPTH : ℚ))
    let idx := getIndex rx 0 rz
    if idx ≠ -1 ∧ ¬ alHas s.grid idx then
      let (dna, s) := generateDNA O s
      initializePlantAt O s idx rx 0 rz dna none none
    else
      spawnNewPlant O attempts s

/-- Public seeding entry point, `Garden.ts` lines 281-283 (`seed`). -/
def seed (O : Oracles) : Nat → GardenState → GardenState
  | 0, s => s
  | n + 1, s => seed O n (spawnNewPlant O 10 s)

/-- In-bounds 26-neighborhood, `Garden.ts` lines 748-765 (`getNeighbors3D`);
the source loops `z`, then `y`, then `x`, each from `-1` to `1`, skipping the
centre and out-of-bounds coordinates. -/
def getNeighbors3D (cx cy cz : Int) : List NeighborInfo :=
  (List.range 3).flatMap (fun dz =>
    (List.range 3).flatMap (fun dy =>
      (List.range 3).filterMap (fun dx =>
        let x : Int := (dx : Int) - 1
        let y : Int := (dy : Int) - 1
        let z : Int := (dz : Int) - 1
        if x = 0 ∧ y = 0 ∧ z = 0 then none
        else
          let nx := cx + x
          let ny := cy + y
          let nz := cz + z
          let idx := getIndex nx ny nz
          if idx ≠ -1 then some { x := nx, y := ny, z := nz, idx := idx }
          else none)))

/-- Maturity transition, `Garden.ts` lines 413-427 (`triggerMaturity`): a
Growing organism becomes Mature and all of its remaining active tips are
deleted; organisms in any other phase are untouched. -/
def triggerMaturity (s : GardenState) (plantId : Nat) : GardenState :=
  match alGet s.plantRegistry plantId with
  | none => s
  | some st =>
    if st.phase = .growing then
      let s := { s with plantRegistry :=
          (alSet s.plantRegistry plantId { st with phase := .mature }) }
      { s with activeTips := s.activeTips.filter (fun e =>
          match alGet s.grid e.2.idx with
          | some cell => ¬ cell.plantId = some plantId
          | none => true) }
    else s

/-- Stem spawning, `Garden.ts` lines 673-679 (`spawnStem`): skip silently when
the target is occupied, otherwise create the stem, flag it as a tip and
register the new tip state. -/
def spawnStem (O : Oracles) (s : GardenState) (idx : Int) (x y z : Int)
    (parent : GridCell) (newState : TipState) : GardenState :=
  if alHas s.grid idx then s
  else
    let s := createCell O s idx x y z .stem parent.plantId parent.dnaHash parent.genotype none
    let s := match alGet s.grid idx with
      | some cell => { s with grid := (gridSet s.grid idx { cell with isTip := true }) }
      | none => s
    { s with activeTips := (alSet s.activeTips idx { newState with idx := idx }) }

/-- The loop body of `spawnLeaf3D`, `Garden.ts` lines 684-697: each iteration
draws a random jitter offset and places a leaf if the offset is nonzero,
in bounds and unoccupied. -/
def leafLoop (O : Oracles) (parent : GridCell) : Nat → GardenState → GardenState
  | 0, s => s
  | n + 1, s =>
    let range : ℚ := 2
    let (r1, s) := draw O s
    let (r2, s) := draw O s
    let (r3, s) := draw O s
    let dx := Int.floor ((r1 - 1/2) * range * 2)
    let dy := Int.floor ((r2 - 1/2) * range)
    let dz := Int.floor ((r3 - 1/2) * range * 2)
    let s :=
      if dx = 0 ∧ dy = 0 ∧ dz = 0 then s
      else
        let nx := parent.x + dx
        let ny := parent.y + dy
        let nz := parent.z + dz
        let idx := getIndex nx ny nz
        if idx ≠ -1 ∧ ¬ alHas s.grid idx then
          createCell O s idx nx ny nz .leaf parent.plantId parent.dnaHash parent.genotype none
        else s
    leafLoop O parent n s

/-- Leaf emission, `Garden.ts` lines 681-698 (`spawnLeaf3D`): `leafSize * 3`
jittered placement attempts around the parent. -/
def spawnLeaf3D (O : Oracles) (s : GardenState) (parent : GridCell) : GardenState :=
  leafLoop O parent (Int.toNat (parent.genotype.leafSize * 3)) s

/-- The six axis directions of the flower flood-fill, `Garden.ts` line 725. -/
def flowerDirs : List (Int × Int × Int) :=
  [(1, 0, 0), (-1, 0, 0), (0, 1, 0), (0, -1, 0), (0, 0, 1), (0, 0, -1)]

/-- One per-axis half-extent of the flower volume, `Garden.ts` lines 710-712:
`Math.floor(2 + Math.random() * 4)`. -/
def flowerRange (r : ℚ) : Int :=
  Int.floor (2 + r * 4)

/-- The `while` loop of `spawnOrganicFlower`, `Garden.ts` lines 721-745.  The
fuel parameter is the remaining iteration budget of the `safety < 500` cap;
every iteration (including skipped ones) consumes one unit, exactly as
`safety++` runs on every iteration.  `openSet`/`placedSet` hold coordinates
(the source keys `placedSet` by the coordinate string). -/
def flowerLoop (O : Oracles) (center : Int × Int × Int) (pid : Option Nat)
    (dna : String) (genotype : Genotype) (ranges : Int × Int × Int) (target : Int) :
    Nat → GardenState → List (Int × Int × Int) → List (Int × Int × Int) → Int → GardenState
  | 0, s, _, _, _ => s
  | fuel + 1, s, openSet, placedSet, count =>
    if count < target ∧ ¬ openSet.isEmpty then
      let (r1, s) := draw O s
      let origin := openSet.getD (Int.toNat (Int.floor (r1 * openSet.length))) (0, 0, 0)
      let (r2, s) := draw O s
      let d := (flowerDirs.getD (Int.toNat (Int.floor (r2 * 6))) (0, 0, 0))
      let nx := origin.1 + d.1
      let ny := origin.2.1 + d.2.1
      let nz := origin.2.2 + d.2.2
      if ((nx - center.1).natAbs : Int) > ranges.1 ∨
         ((ny - center.2.1).natAbs : Int) > ranges.2.1 ∨
         ((nz - center.2.2).natAbs : Int) > ranges.2.2 then
        flowerLoop O center pid dna genotype ranges target fuel s openSet placedSet count
      else if (nx, ny, nz) ∈ placedSet then
        flowerLoop O center pid dna genotype ranges target fuel s openSet placedSet count
      else
        let nIdx := getIndex nx ny nz
        if nIdx ≠ -1 ∧ ¬ alHas s.grid nIdx then
          let s := createCell O s nIdx nx ny nz .flower pid dna genotype none
          flowerLoop O center pid dna genotype ranges target fuel s
            (openSet ++ [(nx, ny, nz)]) (placedSet ++ [(nx, ny, nz)]) (count + 1)
        else
          flowerLoop O center pid dna genotype ranges target fuel s openSet placedSet count
    else s

/-- Flowering, `Garden.ts` lines 700-746 (`spawnOrganicFlower`).  The guard on
line 701 returns immediately when the tip has a (truthy) owner whose registry
entry is missing or not in the Growing phase.  Otherwise the tip cell itself
is retyped to Flower (the source mutates the aliased grid object; we write the
updated cell back to the grid entry `idx`, which the caller guarantees holds
`cell`), its tip state is dropped, and a flood fill bounded by randomized
half-extents and a 40% target volume runs under a 500-iteration safety cap. -/
def spawnOrganicFlower (O : Oracles) (s : GardenState) (cell : GridCell) (idx : Int) :
    GardenState :=
  let blocked : Bool := match cell.plantId with
    | some pid =>
      (pid != 0) && (match alGet s.plantRegistry pid with
        | some p => ¬ p.phase = .growing
        | none => true)
    | none => false
  if blocked then s
  else
    let s := { s with cellCounts :=
        (updateCellCount (updateCellCount s.cellCounts cell.type (-1)) .flower 1) }
    let cell := { cell with type := .flower, isTip := false }
    let s := { s with grid := gridSet s.grid idx cell,
                      activeTips := alDelete s.activeTips idx }
    let (r1, s) := draw O s
    let (r2, s) := draw O s
    let (r3, s) := draw O s
    let rangeX := flowerRange r1
    let rangeY := flowerRange r2
    let rangeZ := flowerRange r3
    let targetVolume := Int.floor (((rangeX * rangeY * rangeZ : Int) : ℚ) * (4/10))
    flowerLoop O (cell.x, cell.y, cell.z) cell.plantId cell.dnaHash cell.genotype
      (rangeX, rangeY, rangeZ) targetVolume 500 s
      [(cell.x, cell.y, cell.z)] [(cell.x, cell.y, cell.z)] 0

/-- The `parent.isTip = false` write-back of `grow3D` (`Garden.ts` line 646):
the source mutates the aliased grid object; we store the cleared flag back
into the grid entry. -/
def markNotTip (s : GardenState) (idx : Int) : GardenState :=
  match alGet s.grid idx with
  | some pc => { s with grid := (gridSet s.grid idx { pc with isTip := false }) }
  | none => s

/-- Growth step, `Garden.ts` lines 595-671 (`grow3D`).  Candidates are the
unoccupied in-bounds neighbors at or above the parent's height; when none
exist the tip is silently deleted and nothing else changes.  The tropism
direction/scoring block (lines 607-637, floating-point `sqrt` math) is the
`tropism` oracle, whose returned index picks the winner from the candidate
list.  A leaf roll, the two-level branching rule and the branch spawn follow
the source line by line; the branch lateral vector draws `bx` and `bz`
before the candidate check, as the source does. -/
def grow3D (O : Oracles) (s : GardenState) (parent : GridCell) (state : TipState)
    (limit : ℚ) : GardenState :=
  let neighbors := getNeighbors3D parent.x parent.y parent.z
  let candidates := neighbors.filter (fun n => ¬ alHas s.grid n.idx ∧ n.y ≥ parent.y)
  if candidates.isEmpty then
    { s with activeTips := alDelete s.activeTips state.idx }
  else
    let dirWin := O.tropism parent state s.sunPosition candidates
    let newDir := dirWin.1
    let winner := candidates.getD (dirWin.2 % candidates.length) { x := 0, y := 0, z := 0, idx := -1 }
    let (rLeaf, s) := draw O s
    let s := if rLeaf < parent.genotype.leafDensity then spawnLeaf3D O s parent else s
    let branchInterval : Nat := if state.level = 0 then 12 else 8
    let s := markNotTip s state.idx
    let s := { s with activeTips := alDelete s.activeTips state.idx }
    let s := spawnStem O s winner.idx winner.x winner.y winner.z parent
      { state with dir := newDir, length := state.length + 1 }
    -- `shouldBranch` of the source, line 644
    if state.level < 2 ∧ state.length % branchInterval = 0 ∧ state.length > 5 then
      let (rbx, s) := draw O s
      let (rbz, s) := draw O s
      let bx := (rbx - 1/2) * 2
      let by0 : ℚ := 1/2
      let bz := (rbz - 1/2) * 2
      let branchCands := candidates.filter (fun c => ¬ c.idx = winner.idx)
      if ¬ branchCands.isEmpty then
        let (rb, s) := draw O s
        let bStart := branchCands.getD (Int.toNat (Int.floor (rb * branchCands.length)))
          { x := 0, y := 0, z := 0, idx := -1 }
        let (rml, s) := draw O s
        spawnStem O s bStart.idx bStart.x bStart.y bStart.z parent
          { idx := bStart.idx, dir := (bx, by0, bz), level := state.level + 1,
            length := 0, maxLength := 15 + rml * 15 }
      else s
    else s

/-- Tip processing, `Garden.ts` lines 564-593 (`processTip`): drop orphaned
tips; mature the organism at its height limit; accrue `25 * vigor` energy and
age to the tip cell; flower-and-mature at segment max length or near the
ceiling; otherwise grow once the energy threshold is met and reset the tip
cell's energy to zero. -/
def processTip (O : Oracles) (s : GardenState) (idx : Int) : GardenState :=
  match alGet s.grid idx with
  | none => { s with activeTips := alDelete s.activeTips idx }
  | some cell =>
    if ¬ idTruthy cell.plantId then { s with activeTips := alDelete s.activeTips idx }
    else
      match alGet s.activeTips idx with
      | none => s
      | some tipState =>
        match cell.plantId with
        | none => s
        | some pid =>
          match alGet s.plantRegistry pid with
          | none => s
          | some plantState =>
            if (cell.y : ℚ) ≥ plantState.individualMaxHeight then
              triggerMaturity s pid
            else
              let metabolism := 25 * plantState.vigor
              let cell := { cell with age := cell.age + 1, energy := cell.energy + metabolism }
              let s := { s with grid := gridSet s.grid idx cell }
              if (tipState.length : ℚ) ≥ tipState.maxLength ∨ cell.y ≥ GRID_HEIGHT - 5 then
                let s := spawnOrganicFlower O s cell idx
                triggerMaturity s pid
              else if cell.energy ≥ ENERGY_TO_GROW then
                let s := grow3D O s cell tipState plantState.individualMaxHeight
                match alGet s.grid idx with
                | some c2 => { s with grid := (gridSet s.grid idx { c2 with energy := 0 }) }
                | none => s
              else s

/-- The crystallization conversion loop, `Garden.ts` lines 464-479: each
iteration picks a uniformly random remaining candidate, removes it from the
list by swap-pop, and retypes its cell to Crystal (adjusting both counters). -/
def crystLoop (O : Oracles) : Nat → GardenState → List Int → GardenState × List Int
  | 0, s, cands => (s, cands)
  | n + 1, s, cands =>
    let (r, s) := draw O s
    let ri := Int.toNat (Int.floor (r * cands.length))
    let idx := cands.getD ri 0
    let cands := (cands.set ri (cands.getLastD 0)).dropLast
    let s := match alGet s.grid idx with
      | some cell =>
        let counts := updateCellCount (updateCellCount s.cellCounts cell.type (-1)) .crystal 1
        { s with cellCounts := counts, grid := (gridSet s.grid idx { cell with type := .crystal }) }
      | none => s
    crystLoop O n s cands

/-- Crystallizing phase step, `Garden.ts` lines 451-481: when no convertible
(non-Crystal, non-Ash) owned cell remains, move to Dissolving; otherwise
convert `ceil(40%)` of the candidates. -/
def crystallizeStep (O : Oracles) (s : GardenState) (pid : Nat) (st : PlantState) :
    GardenState :=
  let candidates := st.indices.filter (fun idx =>
    match alGet s.grid idx with
    | some c => ¬ c.type = .crystal ∧ ¬ c.type = .ash
    | none => false)
  if candidates.isEmpty then
    { s with plantRegistry := (alSet s.plantRegistry pid { st with phase := .dissolving }) }
  else
    let changeCount := Int.toNat (Int.ceil ((candidates.length : ℚ) * (4/10)))
    let res := crystLoop O changeCount s candidates
    { res.1 with plantRegistry := (alSet res.1.plantRegistry pid st) }

/-- Stable insertion of a key into a list sorted by descending cell height,
modelling the comparator `cb.y - ca.y` of `Garden.ts` lines 485-490 under a
stable `Array.sort`: an element moves past another only when the comparator
is strictly positive, and the comparator treats missing cells as ties. -/
def dissolveInsert (grid : List (Int × GridCell)) (x : Int) : List Int → List Int
  | [] => [x]
  | e :: rest =>
    match alGet grid x, alGet grid e with
    | some a, some b =>
      if b.y > a.y then e :: dissolveInsert grid x rest else x :: e :: rest
    | _, _ => x :: e :: rest

/-- Stable sort by descending cell height (see `dissolveInsert`). -/
def dissolveSort (grid : List (Int × GridCell)) : List Int → List Int
  | [] => []
  | x :: rest => dissolveInsert grid x (dissolveSort grid rest)

/-- The dissolving removal loop, `Garden.ts` lines 497-517: walk the first
`removeCount` sorted indices; delete cells above ground (collecting their
keys), retype ground-level non-Ash cells to Ash, and collect keys whose cells
are already gone. -/
def dissolveRemoveLoop : Nat → GardenState → List Int → List Int → GardenState × List Int
  | 0, s, _, acc => (s, acc)
  | _ + 1, s, [], acc => (s, acc)
  | n + 1, s, idx :: rest, acc =>
    let next : GardenState × List Int :=
      match alGet s.grid idx with
      | some cell =>
        if cell.y > 0 then
          ({ s with cellCounts := updateCellCount s.cellCounts cell.type (-1),
                    grid := alDelete s.grid idx }, acc ++ [idx])
        else if cell.y = 0 ∧ ¬ cell.type = .ash then
          let counts := updateCellCount (updateCellCount s.cellCounts cell.type (-1)) .ash 1
          ({ s with cellCounts := counts,
                    grid := (gridSet s.grid idx { cell with type := .ash }) }, acc)
        else (s, acc)
      | none => (s, acc ++ [idx])
    dissolveRemoveLoop n next.1 rest next.2

/-- The final sweep, `Garden.ts` lines 527-558: the first surviving ground
cell becomes the preserved Ash seed (`seedIdx`); every other surviving owned
cell (extra ground cells and floating remnants) is deleted. -/
def finalSweep : GardenState → List Int → Option Int → GardenState × Option Int
  | s, [], seedIdx => (s, seedIdx)
  | s, idx :: rest, seedIdx =>
    match alGet s.grid idx with
    | none => finalSweep s rest seedIdx
    | some cell =>
      if cell.y = 0 then
        match seedIdx with
        | none =>
          let s :=
            if ¬ cell.type = .ash then
              let counts := updateCellCount (updateCellCount s.cellCounts cell.type (-1)) .ash 1
              { s with cellCounts := counts,
                       grid := (gridSet s.grid idx { cell with type := .ash }) }
            else s
          finalSweep s rest (some idx)
        | some _ =>
          finalSweep { s with cellCounts := updateCellCount s.cellCounts cell.type (-1),
                              grid := alDelete s.grid idx } rest seedIdx
      else
        finalSweep { s with cellCounts := updateCellCount s.cellCounts cell.type (-1),
                            grid := alDelete s.grid idx } rest seedIdx

/-- Dissolving phase step, `Garden.ts` lines 483-560: sort owned cells
top-down, remove `max(1, ceil(25%))` of them, and once nothing above ground
remains run the final sweep, keep only the seed index and become Legacy. -/
def dissolveStep (O : Oracles) (s : GardenState) (pid : Nat) (st : PlantState) :
    GardenState :=
  let sorted := dissolveSort s.grid st.indices
  let removeCount := max 1 (Int.toNat (Int.ceil ((sorted.length : ℚ) * (25/100))))
  let res := dissolveRemoveLoop removeCount s sorted []
  let s := res.1
  let indices := sorted.filter (fun idx => ¬ idx ∈ res.2)
  let remainingAboveGround := indices.any (fun idx =>
    match alGet s.grid idx with
    | some c => c.y > 0
    | none => false)
  if remainingAboveGround then
    { s with plantRegistry := (alSet s.plantRegistry pid { st with indices := indices }) }
  else
    let swept := finalSweep s indices none
    let newIndices := match swept.2 with
      | some i => [i]
      | none => []
    { swept.1 with plantRegistry :=
        (alSet swept.1.plantRegistry pid { st with indices := newIndices, phase := .legacy }) }

/-- The per-organism body of `updateLifecycle`, `Garden.ts` lines 430-561:
Growing and Legacy organisms are skipped; Mature organisms count down to
Crystallizing; for the two decaying phases the owned list is first pruned to
cells still on the grid, an empty list short-circuits to Legacy, and
otherwise the phase-specific step runs. -/
def lifecycleStep (O : Oracles) (s : GardenState) (pid : Nat) : GardenState :=
  match alGet s.plantRegistry pid with
  | none => s
  | some st =>
    if st.phase = .legacy ∨ st.phase = .growing then s
    else if st.phase = .mature then
      let st := { st with crystallizationDelay := st.crystallizationDelay - 1 }
      let st := if st.crystallizationDelay ≤ 0 then { st with phase := .crystallizing } else st
      { s with plantRegistry := (alSet s.plantRegistry pid st) }
    else
      let st := { st with indices := st.indices.filter (fun idx => alHas s.grid idx) }
      if st.indices.isEmpty then
        { s with plantRegistry := (alSet s.plantRegistry pid { st with phase := .legacy }) }
      else if st.phase = .crystallizing then crystallizeStep O s pid st
      else dissolveStep O s pid st

/-- Lifecycle pass, `Garden.ts` lines 429-562 (`updateLifecycle`): the source
iterates the registry `Map` (which gains no entries during this pass) and
mutates each organism's own entry in place. -/
def updateLifecycle (O : Oracles) (s : GardenState) : GardenState :=
  (s.plantRegistry.map (fun e => e.1)).foldl (fun s pid => lifecycleStep O s pid) s

/-- Rebirth pass, identical in `update` (lines 370-386) and `performTick`
(lines 116-132): every Legacy organism with a surviving owned index rolls
`REBIRTH_CHANCE`; if its root cell is still Ash, its owned list is cleared
and a brand-new organism is initialised at the same coordinate with the same
genome.  The JS `Map` iteration also visits entries appended during the loop,
but those are newborn Growing organisms for which the body does nothing, so
folding over the initial key list is behaviourally identical. -/
def rebirthStep (O : Oracles) (s : GardenState) : GardenState :=
  (s.plantRegistry.map (fun e => e.1)).foldl (fun s pid =>
    match alGet s.plantRegistry pid with
    | none => s
    | some st =>
      if st.phase = .legacy then
        if ¬ st.indices.isEmpty then
          let (r, s) := draw O s
          if r < REBIRTH_CHANCE then
            let rootIdx := st.indices.headD 0
            match alGet s.grid rootIdx with
            | some cell =>
              if cell.type = .ash then
                let s := { s with plantRegistry :=
                    (alSet s.plantRegistry pid { st with indices := [] }) }
                initializePlantAt O s rootIdx cell.x cell.y cell.z cell.dnaHash none none
              else s
            | none => s
          else s
        else s
      else s) s

/-- The Fisher-Yates shuffle of `performTick`, `Garden.ts` lines 140-143. -/
def fisherYates (O : Oracles) : Nat → GardenState → List TipState → List TipState × GardenState
  | 0, s, arr => (arr, s)
  | j + 1, s, arr =>
    let (r, s) := draw O s
    let k := Int.toNat (Int.floor (r * ((j : ℚ) + 2)))
    let a := arr.getD (j + 1) { idx := 0, dir := (0, 0, 0), level := 0, length := 0, maxLength := 0 }
    let b := arr.getD k { idx := 0, dir := (0, 0, 0), level := 0, length := 0, maxLength := 0 }
    fisherYates O j s ((arr.set (j + 1) b).set k a)

/-- The simulated-clock advance opening each `performTick` iteration,
`Garden.ts` lines 105-109. -/
def tickSimAdvance (O : Oracles) (stepMs : ℚ) (s : GardenState) : GardenState :=
  match s.simulationTime with
  | some t =>
    { s with simulationTime := some (t + stepMs), sunPosition := O.sunFromTime (t + stepMs) }
  | none => s

/-- The spontaneous-seeding roll shared by `performTick` (lines 111-114) and
`update` (lines 365-368): only when `growthRate > 0` is a random value drawn
and compared against `SEED_CHANCE`. -/
def tickSeedRoll (O : Oracles) (s : GardenState) : GardenState :=
  if s.growthRate > 0 then
    let (r, s) := draw O s
    if r < SEED_CHANCE then spawnNewPlant O 10 s else s
  else s

/-- The growth and lifecycle tail of a `performTick` iteration, `Garden.ts`
lines 116-155: rebirth pass, Fisher-Yates shuffle of the tips, processing of
at most 60 of them, then the lifecycle pass. -/
def tickRest (O : Oracles) (s : GardenState) : GardenState :=
  let s := rebirthStep O s
  let tips0 := s.activeTips.map (fun e => e.2)
  let shuffled := if tips0.length > 0 then fisherYates O (tips0.length - 1) s tips0 else (tips0, s)
  let tips := shuffled.1
  let s := shuffled.2
  let processCount := min tips.length 60
  let s := (tips.take processCount).foldl (fun s tip =>
    if alHas s.activeTips tip.idx then processTip O s tip.idx else s) s
  updateLifecycle O s

/-- One iteration of the catch-up loop of `performTick`, `Garden.ts` lines
104-156. -/
def tickOnce (O : Oracles) (stepMs : ℚ) (s : GardenState) : GardenState :=
  tickRest O (tickSeedRoll O (tickSimAdvance O stepMs s))

/-- Batch ticking, `Garden.ts` lines 102-157 (`performTick`). -/
def performTick (O : Oracles) (stepMs : ℚ) : Nat → GardenState → GardenState
  | 0, s => s
  | n + 1, s => performTick O stepMs n (tickOnce O stepMs s)

/-- The public live tick, `Garden.ts` lines 361-411 (`update`): advance the
playback clock by `MS_PER_UPDATE` (the oracle `msPerUpdate`, since its exact
value `(2/(2π)) * 86400000` is irrational), then the same four phases as
`tickOnce`, with the tip array permuted by the random-comparator `sort`
(oracle `jsSortTips`).  Step 5 (persisting the advanced global tick time)
is an external DB write; the in-memory `globalLastTickTime` advance is kept. -/
def update (O : Oracles) (s : GardenState) : GardenState :=
  let s := { s with playbackTime := s.playbackTime + O.msPerUpdate }
  let s :=
    if s.growthRate > 0 then
      let (r, s) := draw O s
      if r < SEED_CHANCE then spawnNewPlant O 10 s else s
    else s
  let s := rebirthStep O s
  let tips := O.jsSortTips (s.activeTips.map (fun e => e.2))
  let processCount := min tips.length 60
  let s := (tips.take processCount).foldl (fun s tip =>
    if alHas s.activeTips tip.idx then processTip O s tip.idx else s) s
  let s := updateLifecycle O s
  if s.growthRate ≤ 1 ∧ ¬ s.globalLastTickTime = none ∧ ¬ s.isCatchingUp then
    { s with globalLastTickTime := s.globalLastTickTime.map (fun t => t + O.msPerUpdate) }
  else s

/-- Stable insertion of a cell into a list sorted by descending `y`,
modelling the stable `Array.sort` comparator `b.y - a.y` of
`reconstructTipsForGrowth` (`Garden.ts` line 937). -/
def cellInsertDescY (c : GridCell) : List GridCell → List GridCell
  | [] => [c]
  | e :: rest => if e.y > c.y then e :: cellInsertDescY c rest else c :: e :: rest

/-- Stable sort of cells by descending `y` (see `cellInsertDescY`). -/
def cellSortDescY : List GridCell → List GridCell
  | [] => []
  | c :: rest => cellInsertDescY c (cellSortDescY rest)

/-- The reactivation loop of `reconstructTipsForGrowth`, `Garden.ts` lines
942-972: give each chosen cell tip status and a starter energy buffer, and
register a tip whose direction is estimated from the root (the float
normalisation is the `vnorm` oracle). -/
def reactivateTips (O : Oracles) (rootIdx : Int) : List GridCell → GardenState → GardenState
  | [], s => s
  | tipCell :: rest, s =>
    let tipIdx := getIndex tipCell.x tipCell.y tipCell.z
    let s :=
      if ¬ alHas s.activeTips tipIdx then
        let s := match alGet s.grid tipIdx with
          | some c => { s with grid :=
              (gridSet s.grid tipIdx { c with isTip := true, energy := ENERGY_TO_GROW * 2 }) }
          | none => s
        let dir : ℚ × ℚ × ℚ :=
          match alGet s.grid rootIdx with
          | some rootCell =>
            if tipCell.y > rootCell.y then
              O.vnorm (((tipCell.x - rootCell.x : Int) : ℚ) / ((tipCell.y - rootCell.y + 1 : Int) : ℚ), 1,
                ((tipCell.z - rootCell.z : Int) : ℚ) / ((tipCell.y - rootCell.y + 1 : Int) : ℚ))
            else (0, 1, 0)
          | none => (0, 1, 0)
        let (r, s) := draw O s
        { s with activeTips := (alSet s.activeTips tipIdx
            { idx := tipIdx, dir := dir, level := 0, length := 0, maxLength := 40 + r * 50 }) }
      else s
    reactivateTips O rootIdx rest s

/-- Tip reconstruction after a DB load, `Garden.ts` lines 906-977
(`reconstructTipsForGrowth`): clear the plant's tips, find stem cells with no
own stem/flower/leaf directly above, reactivate up to five of the highest
ones, and demote stem-less Growing plants to Mature. -/
def reconstructTipsForGrowth (O : Oracles) (s : GardenState) (plantId : Nat) : GardenState :=
  match alGet s.plantRegistry plantId with
  | none => s
  | some plantState =>
    if ¬ plantState.phase = .growing then s
    else
      let s := { s with activeTips := s.activeTips.filter (fun e =>
          match alGet s.grid e.2.idx with
          | some cell => ¬ cell.plantId = some plantId
          | none => true) }
      let plantCells := plantState.indices.filterMap (fun idx =>
        match alGet s.grid idx with
        | some c => if c.type = .stem then some c else none
        | none => none)
      let potentialTips := plantCells.filter (fun cell =>
        match alGet s.grid (getIndex cell.x (cell.y + 1) cell.z) with
        | none => true
        | some nb =>
          (¬ nb.plantId = some plantId) ∨
          (¬ nb.type = .stem ∧ ¬ nb.type = .flower ∧ ¬ nb.type = .leaf))
      if ¬ potentialTips.isEmpty then
        let sortedTips := cellSortDescY potentialTips
        let n := min sortedTips.length 5
        reactivateTips O (plantState.indices.headD 0) (sortedTips.take n) s
      else if ¬ plantState.indices.isEmpty then
        { s with plantRegistry := (alSet s.plantRegistry plantId { plantState with phase := .mature }) }
      else s

/-- Ash-only placement for dissolved records, `Garden.ts` lines 1014-1020
(`spawnAshOnly`). -/
def spawnAshOnly (O : Oracles) (s : GardenState) (dna : String) (x z : Int)
    (birthTime : Option ℚ) : GardenState :=
  let idx := getIndex x 0 z
  if idx ≠ -1 ∧ ¬ alHas s.grid idx then
    createCell O s idx x 0 z .ash none dna (parseDNA dna) birthTime
  else s

/-- Entering catch-up mode, `Garden.ts` lines 852-854: simulated clock seeded
from the checkpoint, write-buffering on, and `growthRate` forced to `1.0`
(source comment on line 854: `Enable seeding during catch-up`). -/
def catchUpEnter (s : GardenState) (lt : ℚ) : GardenState :=
  { s with simulationTime := some lt, isCatchingUp := true, growthRate := 1 }

/-- Exiting catch-up mode, `Garden.ts` lines 858-871: restore live mode and
the saved sun, flush the buffers to the DB (external write; the buffers are
then empty), and persist the exactly-advanced global time. -/
def catchUpExit (s : GardenState) (savedSun : ℚ × ℚ × ℚ) (lt exact : ℚ) : GardenState :=
  let s := { s with isCatchingUp := false, simulationTime := none, sunPosition := savedSun }
  let s := { s with pendingPlants := [], pendingCells := [] }
  if exact > 0 then { s with globalLastTickTime := some (lt + exact) } else s

/-- The catch-up block of `loadFromDatabase`, `Garden.ts` lines 844-872: when
real time has passed the checkpoint, enter catch-up mode, run the missed
ticks, and exit back to live mode.  The source computes
`updates = floor(msPassed / msPerUpdate)` with the irrational `msPerUpdate`;
the tick count is therefore taken as the parameter `updates`, and
`exactMsAdvanced` is `updates * stepMs`. -/
def catchUpPhase (O : Oracles) (s : GardenState) (lastSavedTime : Option ℚ) (now : ℚ)
    (updates : Nat) (stepMs : ℚ) : GardenState :=
  match lastSavedTime with
  | none => s
  | some lt =>
    if now > lt then
      catchUpExit (performTick O stepMs updates (catchUpEnter s lt)) s.sunPosition lt
        ((updates : ℚ) * stepMs)
    else s

/-- State reconstruction, `Garden.ts` lines 768-876 (`loadFromDatabase`).
Timestamps arrive pre-parsed as milliseconds (the source parses ISO strings
with `Date`).  The registry pass registers live plants (computing the highest
seen id) and places Ash markers for dissolved ones; the hydration pass
recreates every cell (mapping legacy type 0 to Stem, and falling back to the
record's DNA or the all-zero genome for unregistered owners); tips are then
reconstructed for Growing plants and the catch-up block runs.  `minTime` of
the source is computed but never used and is not modelled. -/
def loadFromDatabase (O : Oracles) (s : GardenState) (records : List PlantRecord)
    (cells : List CellRecord) (globalLastTickTime : Option ℚ) (updates : Nat)
    (stepMs : ℚ) : GardenState :=
  if records.isEmpty then s
  else
    let originalGrowthRate := s.growthRate
    let s := { s with growthRate := 0 }
    let acc := records.foldl (fun (acc : GardenState × Nat) record =>
      let s := acc.1
      let idx := getIndex record.x 0 record.z
      if idx ≠ -1 then
        if ¬ record.isAsh then
          let s := registerPlant O s record.id (parseDNA record.dna) record.dna
          let s := { s with uniqueSpecies := addUnique s.uniqueSpecies record.dna }
          (s, max acc.2 record.id)
        else (spawnAshOnly O s record.dna record.x record.z (some record.created_at), acc.2)
      else acc) (s, 0)
    let s := acc.1
    let maxId := acc.2
    let inferredLastSavedTime := records.foldl (fun (t : Option ℚ) r =>
      match t with
      | none => some r.created_at
      | some t0 => if r.created_at > t0 then some r.created_at else some t0) none
    let lastSavedTime := match globalLastTickTime with
      | some t => some t
      | none => inferredLastSavedTime
    let s := { s with globalLastTickTime := lastSavedTime, plantCounter := maxId,
                      realPlantCount := records.length, playbackTime := O.dateNow + 5000 }
    let s := cells.foldl (fun s cd =>
      let idx := getIndex cd.x cd.y cd.z
      if idx ≠ -1 then
        let type := if cd.type = .empty then .stem else cd.type
        let pstate := match cd.plant_id with
          | some pid => alGet s.plantRegistry pid
          | none => none
        match pstate with
        | some p => createCellDirect s O idx cd.x cd.y cd.z type cd.plant_id p.dna p.genotype
            (some cd.created_at)
        | none =>
          let dna := ((records.find? (fun r => some r.id = cd.plant_id)).map
            (fun r => r.dna)).getD (String.mk ['0', 'x', '0', '0', '0', '0', '0', '0', '0', '0', '0', '0', '0', '0'])
          createCellDirect s O idx cd.x cd.y cd.z type cd.plant_id dna (parseDNA dna)
            (some cd.created_at)
      else s) s
    let s := (s.plantRegistry.map (fun e => e.1)).foldl (fun s pid =>
      match alGet s.plantRegistry pid with
      | some st => if st.phase = .growing then reconstructTipsForGrowth O s pid else s
      | none => s) s
    let s := catchUpPhase O s lastSavedTime O.dateNow updates stepMs
    { s with growthRate := originalGrowthRate }

/-- Stats snapshot shape, `src/types.ts` (`GardenStats`); `sunPosition` and
`virtualDays` are constantly `0` in `getStats`. -/
structure GardenStats where
  totalPlantsBorn : Nat
  activePlants : Nat
  uniqueSpecies : Nat
  cells : CellCounts
deriving DecidableEq

/-- Stats snapshot, `Garden.ts` lines 1023-1032 (`getStats`). -/
def getStats (s : GardenState) : GardenStats :=
  { totalPlantsBorn := s.realPlantCount,
    activePlants := s.plantRegistry.length,
    uniqueSpecies := s.uniqueSpecies.length,
    cells := s.cellCounts }

/-- A key currently holds a ground-level (`y = 0`) cell. -/
def groundIn (g : List (Int × GridCell)) (j : Int) : Bool :=
  match alGet g j with
  | some c => c.y = 0
  | none => false

/-- Position of a phase in the lifecycle order
`Growing, Mature, Crystallizing, Dissolving, Legacy`. -/
def phaseRank : Phase → Nat
  | .growing => 0
  | .mature => 1
  | .crystallizing => 2
  | .dissolving => 3
  | .legacy => 4

/-- Number of grid cells of a given type. -/
def countType (g : List (Int × GridCell)) (t : CellType) : Int :=
  ((g.filter (fun e => e.2.type = t)).length : Int)

/-- The per-type counts recomputed from the grid itself. -/
def actualCounts (g : List (Int × GridCell)) : CellCounts :=
  { stem := countType g .stem, leaf := countType g .leaf, flower := countType g .flower,
    crystal := countType g .crystal, ash := countType g .ash }

/-- Stats invariant: grid keys are duplicate-free and the counters reported by
`getStats` equal the actual per-type cell counts. -/
def statsInv (s : GardenState) : Prop :=
  (s.grid.map (fun e => e.1)).Nodup ∧ (getStats s).cells = actualCounts s.grid

/-- All registry ids are bounded by the plant counter (holds in every
reachable state: fresh ids come from the incremented counter, and forced ids
raise the counter to at least themselves). -/
def idsBounded (s : GardenState) : Prop :=
  ∀ pid ∈ s.plantRegistry.map (fun e => e.1), pid ≤ s.plantCounter

/-- Fresh state as built by the constructor, `Garden.ts` lines 68-76
(`playbackTime` is the construction-time `Date.now()`, here `t0`). -/
def initialState (t0 : ℚ) (growthRate : ℚ) : GardenState :=
  { grid := [], growthRate := growthRate, sunPosition := (50, 110, 50),
    playbackTime := t0, plantCounter := 0, realPlantCount := 0, activeTips := [],
    plantRegistry := [], uniqueSpecies := [], isCatchingUp := false,
    globalLastTickTime := none, pendingPlants := [], pendingCells := [],
    simulationTime := none,
    cellCounts := { stem := 0, leaf := 0, flower := 0, crystal := 0, ash := 0 },
    rngIdx := 0 }

/-- The all-zero genome string used in concrete test states. -/
def dna0 : String := "0x000000000000"

/-- Its decoded genotype. -/
def geno0 : Genotype := parseDNA dna0

/-- Concrete oracle bundle for the closed counterexamples and witnesses:
the random stream is constantly `0`, tropism always picks the first
candidate and points straight up, and the sun is fixed. -/
def oc : Oracles :=
  { rng := fun _ => 0, dateNow := 1000000,
    tropism := fun _ _ _ _ => ((0, 1, 0), 0),
    vnorm := fun v => v,
    sunFromTime := fun _ => (50, 110, 50),
    msPerUpdate := 1,
    jsSortTips := fun l => l }

/-- Cell fixture builder for concrete states. -/
def mkCell (t : CellType) (pid : Option Nat) (x y z : Int) (energy : ℚ) (tip : Bool) :
    GridCell :=
  { type := t, x := x, y := y, z := z, age := 0, maxAge := MAX_AGE_STEM,
    energy := energy, plantId := pid, dnaHash := dna0, genotype := geno0,
    isTip := tip, birthTime := 0 }

/-- Plant fixture builder for concrete states. -/
def mkPlant (id : Nat) (indices : List Int) (phase : Phase) : PlantState :=
  { id := id, indices := indices, phase := phase, individualMaxHeight := 32,
    crystallizationDelay := 40, vigor := 4/5, dna := dna0, genotype := geno0,
    center := (0, 0, 0), energy := 100, age := 0 }

/-- The 17 neighbor coordinates of `(1,1,1)` at height `≥ 1`: occupying all
of them blocks every growth candidate of a tip at `(1,1,1)`. -/
def blockerCoords : List (Int × Int × Int) :=
  [(0, 1, 0), (1, 1, 0), (2, 1, 0), (0, 1, 1), (2, 1, 1), (0, 1, 2), (1, 1, 2), (2, 1, 2),
   (0, 2, 0), (1, 2, 0), (2, 2, 0), (0, 2, 1), (1, 2, 1), (2, 2, 1), (0, 2, 2), (1, 2, 2),
   (2, 2, 2)]

/-- Tip fixture at `(1,1,1)` (grid key `10101`). -/
def tip3 : TipState :=
  { idx := 10101, dir := (0, 1, 0), level := 0, length := 0, maxLength := 40 }

/-- Concrete state for the blocked-tip scenario: organism 1 is Growing with a
ground stem at `(1,0,1)` and its only active tip at `(1,1,1)` with `20`
energy; organism 2 is Mature and its stems occupy all 17 candidate neighbors
of the tip. -/
def s3 : GardenState :=
  { grid := (10101, mkCell .stem (some 1) 1 1 1 20 true) ::
      (10001, mkCell .stem (some 1) 1 0 1 0 false) ::
      blockerCoords.map (fun c =>
        (getIndex c.1 c.2.1 c.2.2, mkCell .stem (some 2) c.1 c.2.1 c.2.2 0 false)),
    growthRate := 1, sunPosition := (50, 110, 50), playbackTime := 0,
    plantCounter := 2, realPlantCount := 2,
    activeTips := [(10101, tip3)],
    plantRegistry := [(1, mkPlant 1 [10001, 10101] .growing),
      (2, mkPlant 2 (blockerCoords.map (fun c => getIndex c.1 c.2.1 c.2.2)) .mature)],
    uniqueSpecies := [dna0], isCatchingUp := false, globalLastTickTime := none,
    pendingPlants := [], pendingCells := [], simulationTime := none,
    cellCounts := { stem := 19, leaf := 0, flower := 0, crystal := 0, ash := 0 },
    rngIdx := 0 }

/-- Persisted record fixture: one live plant born at time `0` at `(5, 0, 5)`. -/
def rec1 : PlantRecord :=
  { id := 1, created_at := 0, dna := dna0, x := 5, z := 5, isAsh := false }

/-- The result of loading that single record with no cells and catching up
one tick of missed time. -/
def cex2State : GardenState :=
  loadFromDatabase oc (initialState 0 1) [rec1] [] none 1 1

/-- A genotype differing from `geno0` only in `branchBias` (the maximal
value `0.5` instead of the minimal `0.2`). -/
def geno8 : Genotype := { geno0 with branchBias := 5/10 }

/-- Tip fixture for the branching scenario: trunk level, segment length 12. -/
def tip8 : TipState :=
  { idx := 10101, dir := (0, 1, 0), level := 0, length := 12, maxLength := 40 }

/-- Parent cell for the branching scenario, with selectable genotype. -/
def parent8 (g : Genotype) : GridCell :=
  { type := .stem, x := 1, y := 1, z := 1, age := 0, maxAge := MAX_AGE_STEM,
    energy := 0, plantId := some 1, dnaHash := dna0, genotype := g,
    isTip := true, birthTime := 0 }

/-- Concrete state for the branching scenario: organism 1 Growing, its tip at
`(1,1,1)` with every neighbor free. -/
def s8 (g : Genotype) : GardenState :=
  { grid := [(10101, parent8 g), (10001, mkCell .stem (some 1) 1 0 1 0 false)],
    growthRate := 1, sunPosition := (50, 110, 50), playbackTime := 0,
    plantCounter := 1, realPlantCount := 1,
    activeTips := [(10101, tip8)],
    plantRegistry := [(1, mkPlant 1 [10001, 10101] .growing)],
    uniqueSpecies := [dna0], isCatchingUp := false, globalLastTickTime := none,
    pendingPlants := [], pendingCells := [], simulationTime := none,
    cellCounts := { stem := 2, leaf := 0, flower := 0, crystal := 0, ash := 0 },
    rngIdx := 0 }

/-- Concrete state for the dissolution scenario: organism 1 Dissolving with
its germination stem at `(1,0,1)` and one stem above it at `(1,1,1)`. -/
def s4 : GardenState :=
  { grid := [(10001, mkCell .stem (some 1) 1 0 1 0 false),
             (10101, mkCell .stem (some 1) 1 1 1 0 false)],
    growthRate := 1, sunPosition := (50, 110, 50), playbackTime := 0,
    plantCounter := 1, realPlantCount := 1, activeTips := [],
    plantRegistry := [(1, mkPlant 1 [10001, 10101] .dissolving)],
    uniqueSpecies := [dna0], isCatchingUp := false, globalLastTickTime := none,
    pendingPlants := [], pendingCells := [], simulationTime := none,
    cellCounts := { stem := 2, leaf := 0, flower := 0, crystal := 0, ash := 0 },
    rngIdx := 0 }

/-- C4 counterexample state: organism 1 is Dissolving but its single owned
index points at nothing (the grid is empty), so the lifecycle pass takes the
empty-indices short-circuit straight to Legacy. -/
def s4c : GardenState :=
  { grid := [], growthRate := 1, sunPosition := (50, 110, 50), playbackTime := 0,
    plantCounter := 1, realPlantCount := 1, activeTips := [],
    plantRegistry := [(1, mkPlant 1 [10001] .dissolving)],
    uniqueSpecies := [dna0], isCatchingUp := false, globalLastTickTime := none,
    pendingPlants := [], pendingCells := [], simulationTime := none,
    cellCounts := { stem := 0, leaf := 0, flower := 0, crystal := 0, ash := 0 },
    rngIdx := 0 }

/-- Concrete state for the flowering scenario: organism 1 Growing, tip cell
at `(50,50,50)` (grid key `505050`). -/
def s9 : GardenState :=
  { grid := [(505050, mkCell .stem (some 1) 50 50 50 0 true)],
    growthRate := 1, sunPosition := (50, 110, 50), playbackTime := 0,
    plantCounter := 1, realPlantCount := 1,
    activeTips := [(505050, { idx := 505050, dir := (0, 1, 0), level := 0, length := 0, maxLength := 40 })],
    plantRegistry := [(1, mkPlant 1 [505050] .growing)],
    uniqueSpecies := [dna0], isCatchingUp := false, globalLastTickTime := none,
    pendingPlants := [], pendingCells := [], simulationTime := none,
    cellCounts := { stem := 1, leaf := 0, flower := 0, crystal := 0, ash := 0 },
    rngIdx := 0 }

/-- The tip cell of the flowering scenario `s9`. -/
def cell9 : GridCell :=
  mkCell .stem (some 1) 50 50 50 0 true

/-- The branch tip produced in the branching scenario under the all-zero
random stream: lateral vector `(-1, 0.5, -1)`, fresh segment, level 1. -/
def branchTipW : TipState :=
  { idx := 101, dir := (-1, 1/2, -1), level := 1, length := 0, maxLength := 15 }

/-- Tip fixture whose segment length has reached its randomized maximum. -/
def tip3c : TipState :=
  { idx := 10101, dir := (0, 1, 0), level := 0, length := 40, maxLength := 30 }

/-- The branching-scenario state with the exhausted tip `tip3c` instead. -/
def s3c : GardenState :=
  { s8 geno0 with activeTips := [(10101, tip3c)] }

/-- The phase recorded for organism id `q`, if registered. -/
def regPhase (s : GardenState) (q : Nat) : Option Phase :=
  (alGet s.plantRegistry q).map (fun p => p.phase)

/-- Forward order on optional phases: an unregistered id may appear (as a
newborn), a registered id may never disappear nor decrease in rank. -/
def phaseLe : Option Phase → Option Phase → Prop
  | none, _ => True
  | some _, none => False
  | some a, some b => phaseRank a ≤ phaseRank b

/-- One engine operation respects the lifecycle: the id counter never
decreases, id-boundedness is preserved, and every registered organism's
phase moves forward (never back to Growing) along the lifecycle order. -/
def stepOk (s s' : GardenState) : Prop :=
  s.plantCounter ≤ s'.plantCounter ∧
  (idsBounded s → idsBounded s') ∧
  (idsBounded s → ∀ q, phaseLe (regPhase s q) (regPhase s' q))

/-! ### Association-list lemmas -/

theorem alGet_nil {K V : Type} [DecidableEq K] (k : K) : alGet ([] : List (K × V)) k = none := rfl

theorem alGet_cons {K V : Type} [DecidableEq K] (e : K × V) (m : List (K × V)) (k : K) :
    alGet (e :: m) k = if e.1 = k then some e.2 else alGet m k := by
  by_cases h : e.1 = k <;> simp [alGet, List.find?, h]

theorem alGet_alSet {K V : Type} [DecidableEq K] (m : List (K × V)) (k k' : K) (v : V) :
    alGet (alSet m k v) k' = if k' = k then some v else alGet m k' := by
  induction m with
  | nil =>
    by_cases h : k' = k
    · subst h; simp [alSet, alGet_cons]
    · simp [alSet, alGet_cons, h, Ne.symm h, alGet_nil]
  | cons e rest ih =>
    by_cases he : e.1 = k
    · by_cases h : k' = k
      · subst h; simp [alSet, he, alGet_cons]
      · simp [alSet, he, alGet_cons, h, Ne.symm h]
    · by_cases h : k' = k
      · subst h; simp [alSet, he, alGet_cons, ih]
      · simp [alSet, he, alGet_cons, ih, h]

theorem alDelete_cons {K V : Type} [DecidableEq K] (e : K × V) (m : List (K × V)) (k : K) :
    alDelete (e :: m) k = if e.1 = k then alDelete m k else e :: alDelete m k := by
  by_cases h : e.1 = k <;> simp [alDelete, h]

theorem alGet_alDelete {K V : Type} [DecidableEq K] (m : List (K × V)) (k k' : K) :
    alGet (alDelete m k) k' = if k' = k then none else alGet m k' := by
  induction m with
  | nil => by_cases h : k' = k <;> simp [alDelete, alGet_nil, h]
  | cons e rest ih =>
    rw [alDelete_cons]
    by_cases he : e.1 = k
    · by_cases h : k' = k
      · subst h; simp [he, ih]
      · simp [he, ih, h, alGet_cons]
        rw [if_neg (fun hh => h hh.symm)]
    · by_cases h : k' = k
      · subst h; simp [he, ih, alGet_cons]
      · simp [he, ih, h, alGet_cons]

theorem alGet_gridSet (g : List (Int × GridCell)) (k k' : Int) (v : GridCell) :
    alGet (gridSet g k v) k' = if k' = k then some v else alGet g k' := by
  by_cases h : k' = k
  · subst h; simp [gridSet, alGet_cons]
  · simp [gridSet, alGet_cons, Ne.symm h, alGet_alDelete, h]

theorem alHas_iff (g : List (Int × GridCell)) (k : Int) :
    alHas g k = true ↔ ∃ c, alGet g k = some c := by
  simp [alHas, Option.isSome_iff_exists]

/-! ### Structural lemmas about `createCell` -/

theorem createCell_grid (O : Oracles) (s : GardenState) (idx x y z : Int) (t : CellType)
    (pid : Option Nat) (dna : String) (g : Genotype) (bt : Option ℚ) :
    (createCell O s idx x y z t pid dna g bt).grid =
      gridSet s.grid idx
        { type := t, x := x, y := y, z := z, plantId := pid, dnaHash := dna,
          genotype := g, age := 0, maxAge := MAX_AGE_STEM, energy := 0,
          isTip := false, birthTime := bt.getD (timeNow O s) } := by
  simp only [createCell]
  repeat' split <;> try rfl

theorem createCell_cellCounts (O : Oracles) (s : GardenState) (idx x y z : Int) (t : CellType)
    (pid : Option Nat) (dna : String) (g : Genotype) (bt : Option ℚ) :
    (createCell O s idx x y z t pid dna g bt).cellCounts =
      updateCellCount
        (match alGet s.grid idx with
          | some old => updateCellCount s.cellCounts old.type (-1)
          | none => s.cellCounts) t 1 := by
  simp only [createCell]
  repeat' split <;> try rfl

theorem createCell_plantCounter (O : Oracles) (s : GardenState) (idx x y z : Int)
    (t : CellType) (pid : Option Nat) (dna : String) (g : Genotype) (bt : Option ℚ) :
    (createCell O s idx x y z t pid dna g bt).plantCounter = s.plantCounter := by
  simp only [createCell]
  repeat' split <;> try rfl

theorem createCell_pendingPlants (O : Oracles) (s : GardenState) (idx x y z : Int)
    (t : CellType) (pid : Option Nat) (dna : String) (g : Genotype) (bt : Option ℚ) :
    (createCell O s idx x y z t pid dna g bt).pendingPlants = s.pendingPlants := by
  simp only [createCell]
  repeat' split <;> try rfl

theorem createCell_activeTips (O : Oracles) (s : GardenState) (idx x y z : Int)
    (t : CellType) (pid : Option Nat) (dna : String) (g : Genotype) (bt : Option ℚ) :
    (createCell O s idx x y z t pid dna g bt).activeTips = s.activeTips := by
  simp only [createCell]
  repeat' split <;> try rfl

theorem createCell_rngIdx (O : Oracles) (s : GardenState) (idx x y z : Int)
    (t : CellType) (pid : Option Nat) (dna : String) (g : Genotype) (bt : Option ℚ) :
    (createCell O s idx x y z t pid dna g bt).rngIdx = s.rngIdx := by
  simp only [createCell]
  repeat' split <;> try rfl

/-- `createCell` only ever extends organisms' owned lists: every organism's
phase is untouched, and the registry's keys are untouched. -/
theorem createCell_registry_phase (O : Oracles) (s : GardenState) (idx x y z : Int)
    (t : CellType) (pid : Option Nat) (dna : String) (g : Genotype) (bt : Option ℚ)
    (q : Nat) :
    ((alGet (createCell O s idx x y z t pid dna g bt).plantRegistry q).map
      (fun p => p.phase)) = (alGet s.plantRegistry q).map (fun p => p.phase) := by
  simp only [createCell]
  repeat' split <;> try rfl
  all_goals
    rename_i p hp
    simp only [alGet_alSet]
    by_cases hq : q = ‹Nat›
    all_goals simp_all

/-! ### Hex digit bounds -/

theorem hexDigitVal_le (c : Char) (v : Nat) (h : hexDigitVal c = some v) : v ≤ 15 := by
  unfold hexDigitVal at h
  split_ifs at h with h1 h2 h3 <;> simp only [Option.some.injEq] at h <;> subst h
  · obtain ⟨ha, hb⟩ := h1
    rw [Char.le_def, UInt32.le_def, BitVec.le_def] at ha hb
    simp only [Char.toNat, UInt32.toNat]
    simp only [show ('9').val.toBitVec.toNat = 57 from rfl,
      show ('0').val.toBitVec.toNat = 48 from rfl] at ha hb ⊢
    omega
  · obtain ⟨ha, hb⟩ := h2
    rw [Char.le_def, UInt32.le_def, BitVec.le_def] at ha hb
    simp only [Char.toNat, UInt32.toNat]
    simp only [show ('f').val.toBitVec.toNat = 102 from rfl,
      show ('a').val.toBitVec.toNat = 97 from rfl] at ha hb ⊢
    omega
  · obtain ⟨ha, hb⟩ := h3
    rw [Char.le_def, UInt32.le_def, BitVec.le_def] at ha hb
    simp only [Char.toNat, UInt32.toNat]
    simp only [show ('F').val.toBitVec.toNat = 70 from rfl,
      show ('A').val.toBitVec.toNat = 65 from rfl] at ha hb ⊢
    omega

theorem parseIntHex_pair_le (c1 c2 : Char) (h1 : (hexDigitVal c1).isSome = true)
    (h2 : (hexDigitVal c2).isSome = true) :
    (parseIntHex [c1, c2]).getD 0 ≤ 255 := by
  obtain ⟨v1, hv1⟩ := Option.isSome_iff_exists.mp h1
  obtain ⟨v2, hv2⟩ := Option.isSome_iff_exists.mp h2
  have b1 := hexDigitVal_le c1 v1 hv1
  have b2 := hexDigitVal_le c2 v2 hv2
  simp [parseIntHex, List.takeWhile, hv1, hv2, hexFold]
  omega

/-- The `i`-th hex pair of a well-formed genome string is a byte value. -/
theorem hexPair_le (s : String) (i : Nat) (hlen : (removeFirst0x s.toList).length = 12)
    (hhex : ∀ c ∈ removeFirst0x s.toList, (hexDigitVal c).isSome = true)
    (hi : i + 2 ≤ 12) :
    hexPair s i ≤ 255 := by
  have hlen2 : (removeFirst0x s.data).length = 12 := hlen
  have hdl : ((removeFirst0x s.toList).drop i).length = 12 - i := by simp [hlen2]
  have h2 : (((removeFirst0x s.toList).drop i).take 2).length = 2 := by
    simp [List.length_take, hdl, hlen2]
    omega
  match hm : ((removeFirst0x s.toList).drop i).take 2 with
  | [c1, c2] =>
    have hc1 : c1 ∈ removeFirst0x s.toList :=
      List.drop_subset _ _ (List.take_subset _ _ (by rw [hm]; simp))
    have hc2 : c2 ∈ removeFirst0x s.toList :=
      List.drop_subset _ _ (List.take_subset _ _ (by rw [hm]; simp))
    have hb := parseIntHex_pair_le c1 c2 (hhex c1 hc1) (hhex c2 hc2)
    unfold hexPair
    rw [hm]
    exact hb
  | [] => rw [hm] at h2; simp at h2
  | [c] => rw [hm] at h2; simp at h2
  | c1 :: c2 :: c3 :: rest => rw [hm] at h2; simp at h2

/-! ### Claim C7 -/

/-- C7 counterexample: the genome whose hex pair 6-7 is `FF` decodes to
`leafSize = 2 + floor((255/255) * 4) = 6`, outside the claimed set
`{2, 3, 4, 5}`. -/
theorem C7_counterexample :
    (parseDNA "0x000000FF0000").leafSize = 6 ∧
    ¬ (parseDNA "0x000000FF0000").leafSize ≤ 5 :=
  of_decide_eq_true (by with_unfolding_all rfl)

/-- C7 (amended): for every genome string of 12 hexadecimal digits, the
decoded traits satisfy `branchBias ∈ [0.2, 0.5]`, `sunSensitivity ∈ [0.3, 1]`,
`heightFactor ∈ [0.4, 1.8]`, `leafDensity ∈ [0.15, 0.4]`, and
`leafSize = 2 + floor((v/255) * 4) ∈ {2, 3, 4, 5, 6}` where `v` is the value
of hex pair 6-7 (`leafSize = 6` exactly when `v = 255`). -/
theorem C7_trait_ranges (s : String)
    (hlen : (removeFirst0x s.toList).length = 12)
    (hhex : ∀ c ∈ removeFirst0x s.toList, (hexDigitVal c).isSome = true) :
    2/10 ≤ (parseDNA s).branchBias ∧ (parseDNA s).branchBias ≤ 5/10 ∧
    3/10 ≤ (parseDNA s).sunSensitivity ∧ (parseDNA s).sunSensitivity ≤ 1 ∧
    4/10 ≤ (parseDNA s).maxHeight ∧ (parseDNA s).maxHeight ≤ 18/10 ∧
    15/100 ≤ (parseDNA s).leafDensity ∧ (parseDNA s).leafDensity ≤ 4/10 ∧
    2 ≤ (parseDNA s).leafSize ∧ (parseDNA s).leafSize ≤ 6 ∧
    (parseDNA s).leafSize = 2 + Int.floor (((hexPair s 6 : ℚ) / 255) * 4) := by
  have hq : ∀ i, i + 2 ≤ 12 → 0 ≤ ((hexPair s i : ℚ) / 255) ∧ ((hexPair s i : ℚ) / 255) ≤ 1 := by
    intro i hi
    constructor
    · positivity
    · rw [div_le_one (by norm_num)]
      exact_mod_cast hexPair_le s i hlen hhex hi
  obtain ⟨q0a, q0b⟩ := hq 0 (by norm_num)
  obtain ⟨q2a, q2b⟩ := hq 2 (by norm_num)
  obtain ⟨q4a, q4b⟩ := hq 4 (by norm_num)
  obtain ⟨q6a, q6b⟩ := hq 6 (by norm_num)
  have hbb : (parseDNA s).branchBias = 2/10 + ((hexPair s 0 : ℚ) / 255) * (3/10) := rfl
  have hss : (parseDNA s).sunSensitivity = 3/10 + ((hexPair s 2 : ℚ) / 255) * (7/10) := rfl
  have hmh : (parseDNA s).maxHeight = 4/10 + ((hexPair s 2 : ℚ) / 255) * (14/10) := rfl
  have hld : (parseDNA s).leafDensity = 15/100 + ((hexPair s 4 : ℚ) / 255) * (25/100) := rfl
  have hls : (parseDNA s).leafSize = 2 + Int.floor (((hexPair s 6 : ℚ) / 255) * 4) := rfl
  have hfl0 : (0 : Int) ≤ Int.floor (((hexPair s 6 : ℚ) / 255) * 4) := by
    rw [Int.le_floor]
    push_cast
    nlinarith
  have hfl4 : Int.floor (((hexPair s 6 : ℚ) / 255) * 4) ≤ 4 := by
    rw [Int.floor_le_iff]
    push_cast
    nlinarith
  refine ⟨?_, ?_, ?_, ?_, ?_, ?_, ?_, ?_, ?_, ?_, hls⟩ <;>
    first
      | (rw [hbb]; nlinarith)
      | (rw [hss]; nlinarith)
      | (rw [hmh]; nlinarith)
      | (rw [hld]; nlinarith)
      | (rw [hls]; omega)

/-- C7 witness: the example genome `0x0A1B2C3D4E5F` satisfies the amended
trait ranges. -/
theorem C7_trait_ranges_witness :
    2/10 ≤ (parseDNA "0x0A1B2C3D4E5F").branchBias ∧
    (parseDNA "0x0A1B2C3D4E5F").branchBias ≤ 5/10 ∧
    3/10 ≤ (parseDNA "0x0A1B2C3D4E5F").sunSensitivity ∧
    (parseDNA "0x0A1B2C3D4E5F").sunSensitivity ≤ 1 ∧
    4/10 ≤ (parseDNA "0x0A1B2C3D4E5F").maxHeight ∧
    (parseDNA "0x0A1B2C3D4E5F").maxHeight ≤ 18/10 ∧
    15/100 ≤ (parseDNA "0x0A1B2C3D4E5F").leafDensity ∧
    (parseDNA "0x0A1B2C3D4E5F").leafDensity ≤ 4/10 ∧
    2 ≤ (parseDNA "0x0A1B2C3D4E5F").leafSize ∧
    (parseDNA "0x0A1B2C3D4E5F").leafSize ≤ 6 ∧
    (parseDNA "0x0A1B2C3D4E5F").leafSize =
      2 + Int.floor (((hexPair "0x0A1B2C3D4E5F" 6 : ℚ) / 255) * 4) :=
  C7_trait_ranges "0x0A1B2C3D4E5F" (by with_unfolding_all rfl)
    (by decide)

/-! ### Claim C1 -/

/-- C1 (code bug): `registerPlant` computes the DNA-derived vigor multiplier
`0.5 + v/4095` (its comment announces `VIGOR: 0.5 to 1.5`) but never stores
it; the stored `vigor`, which `processTip` uses as `25 * vigor` for
growth-energy accrual, is the DNA-independent `0.8 + Math.random() * 0.4`.
For the genome `0x000000000FFF` the claimed multiplier is `1.5`, yet for
every random draw below `1` the stored vigor differs from it, so the accrual
is never `25 * 1.5`. -/
theorem C1_vigor_multiplier_unused (O : Oracles) (s : GardenState) (id : Nat) (g : Genotype)
    (h : O.rng (s.rngIdx + 2) < 1) :
    dnaVigorMultiplier "0x000000000FFF" = 3/2 ∧
    ((alGet (registerPlant O s id g "0x000000000FFF").plantRegistry id).map
      (fun p => p.vigor)) = some (8/10 + O.rng (s.rngIdx + 2) * (4/10)) ∧
    ((alGet (registerPlant O s id g "0x000000000FFF").plantRegistry id).map
      (fun p => decide (25 * p.vigor = 25 * dnaVigorMultiplier "0x000000000FFF")))
      = some false := by
  have hv : dnaVigorMultiplier "0x000000000FFF" = 3/2 := by with_unfolding_all rfl
  have hidx : s.rngIdx + 1 + 1 = s.rngIdx + 2 := by omega
  refine ⟨hv, ?_, ?_⟩
  · simp only [registerPlant, draw, alGet_alSet, hidx]
    simp
  · simp only [registerPlant, draw, alGet_alSet, hidx, hv]
    simp [decide_eq_false_iff_not]
    intro heq
    have hr := h
    nlinarith [heq, hr]

/-- C1 witness: with the all-zero random stream the registered plant's vigor
is `0.8`, not the DNA-derived `1.5`. -/
theorem C1_vigor_multiplier_unused_witness :
    dnaVigorMultiplier "0x000000000FFF" = 3/2 ∧
    ((alGet (registerPlant oc (initialState 0 1) 1 geno0 "0x000000000FFF").plantRegistry 1).map
      (fun p => p.vigor)) = some (8/10 + oc.rng ((initialState 0 1).rngIdx + 2) * (4/10)) ∧
    ((alGet (registerPlant oc (initialState 0 1) 1 geno0 "0x000000000FFF").plantRegistry 1).map
      (fun p => decide (25 * p.vigor = 25 * dnaVigorMultiplier "0x000000000FFF")))
      = some false :=
  C1_vigor_multiplier_unused oc (initialState 0 1) 1 geno0 (by norm_num [oc])

/-! ### Claim C6 -/

/-- C6: the coordinate encoding `x + y*W + z*W*H` is injective on in-bounds
coordinates and never collides with the `-1` out-of-bounds marker; a cell
created at `getIndex x y z` is stored under that key carrying exactly the
coordinates `(x, y, z)` and its type; overwriting an occupied key decrements
the old type's counter before incrementing the new one; and `spawnStem` (the
growth-path writer) never overwrites an occupied key. -/
theorem C6_grid_single_occupancy :
    (∀ x y z x' y' z' : Int,
      0 ≤ x ∧ x < GRID_WIDTH ∧ 0 ≤ y ∧ y < GRID_HEIGHT ∧ 0 ≤ z ∧ z < GRID_DEPTH →
      0 ≤ x' ∧ x' < GRID_WIDTH ∧ 0 ≤ y' ∧ y' < GRID_HEIGHT ∧ 0 ≤ z' ∧ z' < GRID_DEPTH →
      getIndex x y z = getIndex x' y' z' → x = x' ∧ y = y' ∧ z = z') ∧
    (∀ x y z : Int,
      0 ≤ x ∧ x < GRID_WIDTH ∧ 0 ≤ y ∧ y < GRID_HEIGHT ∧ 0 ≤ z ∧ z < GRID_DEPTH →
      ¬ getIndex x y z = -1) ∧
    (∀ (O : Oracles) (s : GardenState) (x y z : Int) (t : CellType) (pid : Option Nat)
      (dna : String) (g : Genotype) (bt : Option ℚ),
      ((alGet (createCell O s (getIndex x y z) x y z t pid dna g bt).grid
        (getIndex x y z)).map (fun c => (c.x, c.y, c.z, c.type))) = some (x, y, z, t)) ∧
    (∀ (O : Oracles) (s : GardenState) (idx x y z : Int) (t : CellType) (pid : Option Nat)
      (dna : String) (g : Genotype) (bt : Option ℚ) (old : GridCell),
      alGet s.grid idx = some old →
      (createCell O s idx x y z t pid dna g bt).cellCounts =
        updateCellCount (updateCellCount s.cellCounts old.type (-1)) t 1) ∧
    (∀ (O : Oracles) (s : GardenState) (idx x y z : Int) (parent : GridCell) (ts : TipState),
      alHas s.grid idx = true → spawnStem O s idx x y z parent ts = s) := by
  refine ⟨?_, ?_, ?_, ?_, ?_⟩
  · intro x y z x' y' z' hb hb' heq
    simp only [getIndex] at heq
    rw [if_neg (by simp only [GRID_WIDTH, GRID_HEIGHT, GRID_DEPTH] at hb ⊢; omega),
        if_neg (by simp only [GRID_WIDTH, GRID_HEIGHT, GRID_DEPTH] at hb' ⊢; omega)] at heq
    simp only [GRID_WIDTH, GRID_HEIGHT, GRID_DEPTH] at heq hb hb'
    omega
  · intro x y z hb
    simp only [getIndex]
    rw [if_neg (by simp only [GRID_WIDTH, GRID_HEIGHT, GRID_DEPTH] at hb ⊢; omega)]
    simp only [GRID_WIDTH, GRID_HEIGHT, GRID_DEPTH] at hb ⊢
    omega
  · intro O s x y z t pid dna g bt
    rw [createCell_grid, alGet_gridSet, if_pos rfl]
    rfl
  · intro O s idx x y z t pid dna g bt old hold
    rw [createCell_cellCounts, hold]
  · intro O s idx x y z parent ts hocc
    simp [spawnStem, hocc]

/-! ### Registry-phase preservation of the flowering path -/

theorem flowerLoop_registry_phase (O : Oracles) (center : Int × Int × Int)
    (pid : Option Nat) (dna : String) (g : Genotype) (ranges : Int × Int × Int)
    (target : Int) :
    ∀ (fuel : Nat) (s : GardenState) (openSet placed : List (Int × Int × Int)) (count : Int)
      (q : Nat),
    ((alGet (flowerLoop O center pid dna g ranges target fuel s openSet placed
        count).plantRegistry q).map (fun p => p.phase))
      = (alGet s.plantRegistry q).map (fun p => p.phase) := by
  intro fuel
  induction fuel with
  | zero => intro s o pl c q; rfl
  | succ n ih =>
    intro s o pl c q
    rw [flowerLoop]
    simp only [draw]
    repeat' split
    all_goals
      first
        | rfl
        | exact ih _ _ _ _ _
        | rw [ih, createCell_registry_phase]

theorem spawnOrganicFlower_registry_phase (O : Oracles) (s : GardenState) (cell : GridCell)
    (idx : Int) (q : Nat) :
    ((alGet (spawnOrganicFlower O s cell idx).plantRegistry q).map (fun p => p.phase))
      = (alGet s.plantRegistry q).map (fun p => p.phase) := by
  simp only [spawnOrganicFlower]
  split
  · rfl
  · rw [flowerLoop_registry_phase]
    rfl

theorem triggerMaturity_phase (s : GardenState) (pid : Nat)
    (h : (alGet s.plantRegistry pid).map (fun p => p.phase) = some Phase.growing) :
    ((alGet (triggerMaturity s pid).plantRegistry pid).map (fun p => p.phase))
      = some Phase.mature := by
  cases hm : alGet s.plantRegistry pid with
  | none => rw [hm] at h; simp at h
  | some plant =>
    rw [hm] at h
    simp at h
    simp [triggerMaturity, hm, h, alGet_alSet]

/-! ### Active-tip bookkeeping of the growth path -/

theorem leafLoop_activeTips (O : Oracles) (parent : GridCell) :
    ∀ (n : Nat) (s : GardenState), (leafLoop O parent n s).activeTips = s.activeTips := by
  intro n
  induction n with
  | zero => intro s; rfl
  | succ m ih =>
    intro s
    rw [leafLoop]
    simp only [draw]
    repeat' split
    all_goals rw [ih]
    all_goals simp [createCell_activeTips]

theorem spawnLeaf3D_activeTips (O : Oracles) (s : GardenState) (parent : GridCell) :
    (spawnLeaf3D O s parent).activeTips = s.activeTips :=
  leafLoop_activeTips O parent _ s

theorem markNotTip_activeTips (s : GardenState) (idx : Int) :
    (markNotTip s idx).activeTips = s.activeTips := by
  unfold markNotTip
  split <;> rfl

theorem alGet_alSet_cases {K V : Type} [DecidableEq K] {m : List (K × V)} {k k' : K}
    {v w : V} (h : alGet (alSet m k v) k' = some w) : w = v ∨ alGet m k' = some w := by
  rw [alGet_alSet] at h
  split_ifs at h
  · exact Or.inl (Option.some.inj h).symm
  · exact Or.inr h

theorem alGet_alDelete_cases {K V : Type} [DecidableEq K] {m : List (K × V)} {k k' : K}
    {w : V} (h : alGet (alDelete m k) k' = some w) : alGet m k' = some w := by
  rw [alGet_alDelete] at h
  split_ifs at h
  exact h

theorem spawnStem_activeTips (O : Oracles) (s : GardenState) (idx x y z : Int)
    (parent : GridCell) (ns : TipState) :
    (spawnStem O s idx x y z parent ns).activeTips =
      if alHas s.grid idx then s.activeTips
      else alSet s.activeTips idx { ns with idx := idx } := by
  simp only [spawnStem]
  split
  · rfl
  · split
    all_goals simp [createCell_activeTips]

/-- Every tip present after `spawnStem` is either the freshly registered tip
state (with its `idx` field overridden to the target key) or was already
present. -/
theorem spawnStem_activeTips_cases {O : Oracles} {s : GardenState} {idx x y z : Int}
    {parent : GridCell} {ns : TipState} {k : Int} {ts : TipState}
    (h : alGet (spawnStem O s idx x y z parent ns).activeTips k = some ts) :
    ts = { ns with idx := idx } ∨ alGet s.activeTips k = some ts := by
  rw [spawnStem_activeTips] at h
  split_ifs at h
  · exact Or.inr h
  · exact alGet_alSet_cases h

/-! ### Claim C3 -/

/-- C3 counterexample: in the concrete state `s3` organism 1 is Growing and
its one remaining tip at `(1,1,1)` has every candidate neighbor occupied;
processing the tip deletes it (the active-tip map becomes empty) yet the
organism remains in the Growing phase, contradicting the claim that it exits
the phase when its last tip is blocked. -/
theorem C3_counterexample :
    ((alGet (processTip oc s3 10101).plantRegistry 1).map (fun p => p.phase)
      = some Phase.growing) ∧
    (processTip oc s3 10101).activeTips = [] :=
  of_decide_eq_true (by with_unfolding_all rfl)

/-- C3 (amended): an organism exits the Growing phase when a processed tip
reaches the organism's height limit, or when it flowers on reaching its
randomized segment-length limit (or the world ceiling); a tip whose candidate
neighbors are all occupied or out of range is merely removed — the grid,
counters and every organism's registry entry (in particular its phase) are
left untouched, so a Growing organism whose last tip is blocked stays in the
Growing phase. -/
theorem C3_growing_exit :
    (∀ (O : Oracles) (s : GardenState) (parent : GridCell) (st : TipState) (limit : ℚ),
      (getNeighbors3D parent.x parent.y parent.z).filter
        (fun n => ¬ alHas s.grid n.idx ∧ n.y ≥ parent.y) = [] →
      grow3D O s parent st limit = { s with activeTips := alDelete s.activeTips st.idx }) ∧
    (∀ (O : Oracles) (s : GardenState) (idx : Int) (cell : GridCell) (ts : TipState)
      (pid : Nat) (plant : PlantState),
      alGet s.grid idx = some cell → idTruthy cell.plantId = true →
      cell.plantId = some pid → alGet s.activeTips idx = some ts →
      alGet s.plantRegistry pid = some plant → plant.phase = Phase.growing →
      (cell.y : ℚ) ≥ plant.individualMaxHeight →
      ((alGet (processTip O s idx).plantRegistry pid).map (fun p => p.phase))
        = some Phase.mature) ∧
    (∀ (O : Oracles) (s : GardenState) (idx : Int) (cell : GridCell) (ts : TipState)
      (pid : Nat) (plant : PlantState),
      alGet s.grid idx = some cell → idTruthy cell.plantId = true →
      cell.plantId = some pid → alGet s.activeTips idx = some ts →
      alGet s.plantRegistry pid = some plant → plant.phase = Phase.growing →
      ¬ (cell.y : ℚ) ≥ plant.individualMaxHeight →
      ((ts.length : ℚ) ≥ ts.maxLength ∨ cell.y ≥ GRID_HEIGHT - 5) →
      ((alGet (processTip O s idx).plantRegistry pid).map (fun p => p.phase))
        = some Phase.mature) := by
  refine ⟨?_, ?_, ?_⟩
  · intro O s parent st limit hempty
    simp only [grow3D, hempty]
    rfl
  · intro O s idx cell ts pid plant hcell hid hpid htip hreg hgrow hge
    have hidp : idTruthy (some pid) = true := by rw [← hpid]; exact hid
    have hred : processTip O s idx = triggerMaturity s pid := by
      simp [processTip, hcell, hid, hidp, htip, hpid, hreg, hge]
    rw [hred]
    exact triggerMaturity_phase s pid (by simp [hreg, hgrow])
  · intro O s idx cell ts pid plant hcell hid hpid htip hreg hgrow hlt hflower
    have hidp : idTruthy (some pid) = true := by rw [← hpid]; exact hid
    have hnle : ¬ plant.individualMaxHeight ≤ (cell.y : ℚ) := by
      intro hle
      exact hlt hle
    have hflower2 : ts.maxLength ≤ (ts.length : ℚ) ∨ GRID_HEIGHT ≤ cell.y + 5 := by
      rcases hflower with h | h
      · exact Or.inl h
      · right; omega
    rw [show processTip O s idx = triggerMaturity (spawnOrganicFlower O
        { s with grid := (gridSet s.grid idx { cell with age := cell.age + 1, energy := cell.energy + 25 * plant.vigor }) }
        { cell with age := cell.age + 1, energy := cell.energy + 25 * plant.vigor } idx) pid
      from by simp [processTip, hcell, hid, hidp, htip, hpid, hreg, hnle, hflower2]]
    apply triggerMaturity_phase
    rw [spawnOrganicFlower_registry_phase]
    simp [hreg, hgrow]

/-- C3 witness: the three exit behaviours at concrete states — a fully
blocked tip only deletes itself (state `s3`), a tip at the height limit
matures its organism (state `s9`), and an exhausted-segment tip flowers and
matures its organism (state `s3c`). -/
theorem C3_growing_exit_witness :
    (grow3D oc s3 (mkCell .stem (some 1) 1 1 1 20 true) tip3 32
      = { s3 with activeTips := alDelete s3.activeTips tip3.idx }) ∧
    ((alGet (processTip oc s9 505050).plantRegistry 1).map (fun p => p.phase)
      = some Phase.mature) ∧
    ((alGet (processTip oc s3c 10101).plantRegistry 1).map (fun p => p.phase)
      = some Phase.mature) :=
  ⟨C3_growing_exit.1 oc s3 (mkCell .stem (some 1) 1 1 1 20 true) tip3 32
      (by with_unfolding_all rfl),
    C3_growing_exit.2.1 oc s9 505050 (mkCell .stem (some 1) 50 50 50 0 true)
      { idx := 505050, dir := (0, 1, 0), level := 0, length := 0, maxLength := 40 }
      1 (mkPlant 1 [505050] .growing) (by with_unfolding_all rfl) (by with_unfolding_all rfl)
      (by with_unfolding_all rfl) (by with_unfolding_all rfl) (by with_unfolding_all rfl)
      (by with_unfolding_all rfl) (by norm_num [mkPlant, mkCell]),
    C3_growing_exit.2.2 oc s3c 10101 (parent8 geno0) tip3c 1 (mkPlant 1 [10001, 10101] .growing)
      (by with_unfolding_all rfl) (by with_unfolding_all rfl) (by with_unfolding_all rfl)
      (by with_unfolding_all rfl) (by with_unfolding_all rfl) (by with_unfolding_all rfl)
      (by norm_num [mkPlant, parent8]) (Or.inl (by norm_num [tip3c]))⟩

/-! ### Claim C8 -/

/-- C8 counterexample: with the identical random stream and tropism choice,
`grow3D` creates a branch tip (fresh segment length `0`, level `1`) for two
parent genotypes that differ only in `branchBias` (its extreme values `0.2`
and `0.5`): the branch decision `shouldBranch` never consults `branchBias`
or any random draw, so no branch probability is derived from it. -/
theorem C8_counterexample :
    ((alGet (grow3D oc (s8 geno0) (parent8 geno0) tip8 32).activeTips 101).map
      (fun t => (t.level, t.length)) = some (1, 0)) ∧
    ((alGet (grow3D oc (s8 geno8) (parent8 geno8) tip8 32).activeTips 101).map
      (fun t => (t.level, t.length)) = some (1, 0)) ∧
    ¬ geno0.branchBias = geno8.branchBias :=
  of_decide_eq_true (by with_unfolding_all rfl)

/-- C8 (amended): every active tip present after a `grow3D` step is an
untouched pre-existing tip, the continuation tip (same branch level, segment
length advanced by one, same segment limit), or a branch tip — and a branch
tip exists only when the stepped tip's level is below 2, its segment length
is a multiple of the interval (12 for trunk tips, 8 for branch tips) and
exceeds 5; a branch tip always starts with segment length 0 and branch level
one above its parent's.  Branching is deterministic in these conditions: no
probability is derived from `branchBias` (see the counterexample). -/
theorem C8_branching (O : Oracles) (s : GardenState) (parent : GridCell) (st : TipState)
    (limit : ℚ) (k : Int) (ts : TipState)
    (h : alGet (grow3D O s parent st limit).activeTips k = some ts) :
    alGet s.activeTips k = some ts ∨
    (ts.level = st.level ∧ ts.length = st.length + 1 ∧ ts.maxLength = st.maxLength) ∨
    ((st.level < 2 ∧ st.length % (if st.level = 0 then 12 else 8) = 0 ∧ st.length > 5) ∧
      ts.level = st.level + 1 ∧ ts.length = 0) := by
  simp only [grow3D, draw] at h
  split at h
  · exact Or.inl (alGet_alDelete_cases h)
  · by_cases hcond : st.level < 2 ∧ st.length % (if st.level = 0 then 12 else 8) = 0 ∧
        st.length > 5
    · rw [if_pos hcond] at h
      split at h
      · rcases spawnStem_activeTips_cases h with hts | h2
        · subst hts
          exact Or.inr (Or.inr ⟨hcond, rfl, rfl⟩)
        · rcases spawnStem_activeTips_cases h2 with hts | h3
          · subst hts
            exact Or.inr (Or.inl ⟨rfl, rfl, rfl⟩)
          · have h4 := alGet_alDelete_cases h3
            rw [markNotTip_activeTips, apply_ite GardenState.activeTips] at h4
            simp only [spawnLeaf3D_activeTips, ite_self] at h4
            exact Or.inl h4
      · rcases spawnStem_activeTips_cases h with hts | h3
        · subst hts
          exact Or.inr (Or.inl ⟨rfl, rfl, rfl⟩)
        · have h4 := alGet_alDelete_cases h3
          rw [markNotTip_activeTips, apply_ite GardenState.activeTips] at h4
          simp only [spawnLeaf3D_activeTips, ite_self] at h4
          exact Or.inl h4
    · rw [if_neg hcond] at h
      rcases spawnStem_activeTips_cases h with hts | h3
      · subst hts
        exact Or.inr (Or.inl ⟨rfl, rfl, rfl⟩)
      · have h4 := alGet_alDelete_cases h3
        rw [markNotTip_activeTips, apply_ite GardenState.activeTips] at h4
        simp only [spawnLeaf3D_activeTips, ite_self] at h4
        exact Or.inl h4

/-! ### Grid bookkeeping of the flower flood-fill -/

theorem alDelete_of_none {K V : Type} [DecidableEq K] {m : List (K × V)} {k : K}
    (h : alGet m k = none) : alDelete m k = m := by
  induction m with
  | nil => rfl
  | cons e rest ih =>
    rw [alGet_cons] at h
    rw [alDelete_cons]
    split_ifs with he
    · rw [if_pos he] at h
      simp at h
    · rw [if_neg he] at h
      rw [ih h]

theorem gridSet_length_le (g : List (Int × GridCell)) (k : Int) (v : GridCell) :
    (gridSet g k v).length ≤ g.length + 1 := by
  simp only [gridSet, alDelete, List.length_cons]
  have := List.length_filter_le (fun e => ¬ e.1 = k) g
  omega

theorem gridSet_length_of_none {g : List (Int × GridCell)} {k : Int} (v : GridCell)
    (h : alGet g k = none) : (gridSet g k v).length = g.length + 1 := by
  simp only [gridSet, alDelete_of_none h, List.length_cons]

/-- Bounds of one flower half-extent: `floor(2 + r*4) ∈ [2, 6)` for
`r ∈ [0, 1)`. -/
theorem flowerRange_bounds (r : ℚ) (h0 : 0 ≤ r) (h1 : r < 1) :
    2 ≤ flowerRange r ∧ flowerRange r < 6 := by
  constructor
  · rw [flowerRange, Int.le_floor]
    push_cast
    nlinarith
  · rw [flowerRange, Int.floor_lt]
    push_cast
    nlinarith

/-- Cells already on the grid survive the flower flood-fill untouched (it
writes only to empty keys). -/
theorem flowerLoop_grid_mono (O : Oracles) (center : Int × Int × Int) (pid : Option Nat)
    (dna : String) (g : Genotype) (ranges : Int × Int × Int) (target : Int) :
    ∀ (fuel : Nat) (s : GardenState) (openSet placed : List (Int × Int × Int)) (count : Int)
      (k : Int) (c : GridCell), alGet s.grid k = some c →
    alGet (flowerLoop O center pid dna g ranges target fuel s openSet placed
      count).grid k = some c := by
  intro fuel
  induction fuel with
  | zero => intro s o pl cnt k c hk; exact hk
  | succ n ih =>
    intro s o pl cnt k c hk
    rw [flowerLoop]
    simp only [draw]
    repeat' split
    all_goals first
      | exact hk
      | exact ih _ _ _ _ _ _ hk
      | (rename_i hcond2
         apply ih
         rw [createCell_grid, alGet_gridSet]
         split_ifs with hkk
         · subst hkk
           exact absurd ((alHas_iff _ _).mpr ⟨c, hk⟩) (by simpa using hcond2.2)
         · exact hk)

/-- Every cell present after the flower flood-fill was already present or is
a Flower cell within the per-axis half-extents of the centre. -/
theorem flowerLoop_grid_cases (O : Oracles) (center : Int × Int × Int) (pid : Option Nat)
    (dna : String) (g : Genotype) (rX rY rZ : Int) (target : Int) :
    ∀ (fuel : Nat) (s : GardenState) (openSet placed : List (Int × Int × Int)) (count : Int)
      (k : Int) (c : GridCell),
    alGet (flowerLoop O center pid dna g (rX, rY, rZ) target fuel s openSet placed
      count).grid k = some c →
    alGet s.grid k = some c ∨
      (c.type = .flower ∧ ((c.x - center.1).natAbs : Int) ≤ rX ∧
        ((c.y - center.2.1).natAbs : Int) ≤ rY ∧ ((c.z - center.2.2).natAbs : Int) ≤ rZ) := by
  intro fuel
  induction fuel with
  | zero => intro s o pl cnt k c hk; exact Or.inl hk
  | succ n ih =>
    intro s o pl cnt k c hk
    rw [flowerLoop] at hk
    simp only [draw] at hk
    split at hk
    · split at hk
      · have hrec := ih _ _ _ _ _ _ hk
        exact hrec
      · split at hk
        · have hrec := ih _ _ _ _ _ _ hk
          exact hrec
        · split at hk
          · rcases ih _ _ _ _ _ _ hk with hold | hfl
            · rw [createCell_grid, alGet_gridSet] at hold
              split_ifs at hold with hkk
              · rename_i hin hmem hfree
                simp only [not_or, not_lt] at hin
                cases hold
                refine Or.inr ⟨rfl, ?_, ?_, ?_⟩ <;> dsimp only <;> omega
              · exact Or.inl hold
            · exact Or.inr hfl
          · have hrec := ih _ _ _ _ _ _ hk
            exact hrec
    · exact Or.inl hk

/-- The flood-fill places at most `target - count` new cells. -/
theorem flowerLoop_grid_length (O : Oracles) (center : Int × Int × Int) (pid : Option Nat)
    (dna : String) (g : Genotype) (ranges : Int × Int × Int) (target : Int) :
    ∀ (fuel : Nat) (s : GardenState) (openSet placed : List (Int × Int × Int)) (count : Int),
    (flowerLoop O center pid dna g ranges target fuel s openSet placed count).grid.length ≤
      s.grid.length + (target - count).toNat := by
  intro fuel
  induction fuel with
  | zero =>
    intro s o pl cnt
    rw [flowerLoop]
    omega
  | succ n ih =>
    intro s o pl cnt
    rw [flowerLoop]
    simp only [draw]
    split
    · rename_i hrun
      split
      · exact le_trans (ih _ _ _ _) (Nat.le_refl _)
      · split
        · exact le_trans (ih _ _ _ _) (Nat.le_refl _)
        · split
          · rename_i hfree
            refine le_trans (ih _ _ _ _) ?_
            rw [createCell_grid]
            refine le_trans (Nat.add_le_add_right (gridSet_length_le _ _ _) _) ?_
            show s.grid.length + 1 + (target - (cnt + 1)).toNat ≤
              s.grid.length + (target - cnt).toNat
            have hcnt : cnt < target := hrun.1
            omega
          · exact le_trans (ih _ _ _ _) (Nat.le_refl _)
    · omega

/-- C8 witness: the branching scenario `s8`/`tip8` instantiates the amended
theorem; the tip found at grid key `101` after the step is the branch tip. -/
theorem C8_branching_witness :
    alGet (s8 geno0).activeTips 101 = some (branchTipW) ∨
    (branchTipW.level = tip8.level ∧ branchTipW.length = tip8.length + 1 ∧
      branchTipW.maxLength = tip8.maxLength) ∨
    ((tip8.level < 2 ∧ tip8.length % (if tip8.level = 0 then 12 else 8) = 0 ∧
      tip8.length > 5) ∧ branchTipW.level = tip8.level + 1 ∧ branchTipW.length = 0) :=
  C8_branching oc (s8 geno0) (parent8 geno0) tip8 32 101 branchTipW
    (by with_unfolding_all rfl)

/-- C6 witness: concrete in-bounds coordinates decode injectively, and a
concrete `createCell` stores the cell under its own coordinate key. -/
theorem C6_grid_single_occupancy_witness :
    ((0 : Int) ≤ 3 ∧ (3 : Int) < GRID_WIDTH ∧ (0 : Int) ≤ 4 ∧ (4 : Int) < GRID_HEIGHT ∧
      (0 : Int) ≤ 5 ∧ (5 : Int) < GRID_DEPTH) ∧
    ((3 : Int) = 3 ∧ (4 : Int) = 4 ∧ (5 : Int) = 5) ∧
    ¬ getIndex 3 4 5 = -1 ∧
    ((alGet (createCell oc (initialState 0 1) (getIndex 3 4 5) 3 4 5 .stem (some 1) dna0
      geno0 none).grid (getIndex 3 4 5)).map (fun c => (c.x, c.y, c.z, c.type)))
      = some (3, 4, 5, CellType.stem) ∧
    spawnStem oc s3 10101 1 1 1 (parent8 geno0) tip3 = s3 := by
  have hb : (0 : Int) ≤ 3 ∧ (3 : Int) < GRID_WIDTH ∧ (0 : Int) ≤ 4 ∧ (4 : Int) < GRID_HEIGHT ∧
      (0 : Int) ≤ 5 ∧ (5 : Int) < GRID_DEPTH := by
    refine ⟨by norm_num, ?_, by norm_num, ?_, by norm_num, ?_⟩ <;>
      simp [GRID_WIDTH, GRID_HEIGHT, GRID_DEPTH]
  refine ⟨hb,
    C6_grid_single_occupancy.1 3 4 5 3 4 5 hb hb rfl,
    C6_grid_single_occupancy.2.1 3 4 5 hb,
    C6_grid_single_occupancy.2.2.1 oc (initialState 0 1) 3 4 5 .stem (some 1) dna0 geno0 none,
    C6_grid_single_occupancy.2.2.2.2 oc s3 10101 1 1 1 (parent8 geno0) tip3
      (by with_unfolding_all rfl)⟩

/-- Unfolding of `spawnOrganicFlower` when the tip's owner is registered and
in the Growing phase: the guard passes, the tip cell is retyped to Flower,
the tip state is dropped, the three half-extent draws are consumed, and the
flood fill runs on the updated state with the 40% target volume and the
500-iteration cap. -/
theorem spawnOrganicFlower_eq_loop (O : Oracles) (s : GardenState) (cell : GridCell)
    (idx : Int) (pid : Nat) (p : PlantState) (hpid : cell.plantId = some pid)
    (hp : alGet s.plantRegistry pid = some p) (hph : p.phase = .growing) :
    spawnOrganicFlower O s cell idx =
      flowerLoop O (cell.x, cell.y, cell.z) cell.plantId cell.dnaHash cell.genotype
        (flowerRange (O.rng s.rngIdx), flowerRange (O.rng (s.rngIdx + 1)),
          flowerRange (O.rng (s.rngIdx + 1 + 1)))
        (Int.floor (((flowerRange (O.rng s.rngIdx) * flowerRange (O.rng (s.rngIdx + 1)) *
          flowerRange (O.rng (s.rngIdx + 1 + 1)) : Int) : ℚ) * (4/10)))
        500
        ({ s with
          cellCounts :=
            (updateCellCount (updateCellCount s.cellCounts cell.type (-1)) CellType.flower 1),
          grid := (gridSet s.grid idx { cell with type := CellType.flower, isTip := false }),
          activeTips := (alDelete s.activeTips idx),
          rngIdx := s.rngIdx + 1 + 1 + 1 })
        [(cell.x, cell.y, cell.z)] [(cell.x, cell.y, cell.z)] 0 := by
  rw [spawnOrganicFlower, hpid]
  simp only [hp, hph, draw]
  rw [if_neg (by simp)]

/-- C9: on a flowering trigger for a tip whose (truthy) owner is registered,
if the owner is not in the Growing phase then `spawnOrganicFlower` returns
the state unchanged; if it is Growing then each of the three drawn per-axis
half-extents lies in `[2, 6)`, the tip cell itself ends up on the grid as a
Flower cell, every cell of the resulting grid is either a pre-existing cell
or a Flower cell within the half-extents of the tip, and the grid grows by
at most `1 + floor(0.4 * rX * rY * rZ)` cells (the retyped tip plus the
flood-fill target volume, itself capped at 500 iterations of fuel). -/
theorem C9_flowering (O : Oracles) (s : GardenState) (cell : GridCell) (idx : Int)
    (pid : Nat) (p : PlantState) (hO : RngOk O) (hpid : cell.plantId = some pid)
    (hp0 : pid ≠ 0) (hp : alGet s.plantRegistry pid = some p) :
    (¬ p.phase = .growing → spawnOrganicFlower O s cell idx = s) ∧
    (p.phase = .growing →
      (2 ≤ flowerRange (O.rng s.rngIdx) ∧ flowerRange (O.rng s.rngIdx) < 6) ∧
      (2 ≤ flowerRange (O.rng (s.rngIdx + 1)) ∧ flowerRange (O.rng (s.rngIdx + 1)) < 6) ∧
      (2 ≤ flowerRange (O.rng (s.rngIdx + 1 + 1)) ∧
        flowerRange (O.rng (s.rngIdx + 1 + 1)) < 6) ∧
      alGet (spawnOrganicFlower O s cell idx).grid idx =
        some ({ cell with type := CellType.flower, isTip := false }) ∧
      (∀ k c, alGet (spawnOrganicFlower O s cell idx).grid k = some c →
        alGet s.grid k = some c ∨
          (c.type = CellType.flower ∧
            ((c.x - cell.x).natAbs : Int) ≤ flowerRange (O.rng s.rngIdx) ∧
            ((c.y - cell.y).natAbs : Int) ≤ flowerRange (O.rng (s.rngIdx + 1)) ∧
            ((c.z - cell.z).natAbs : Int) ≤ flowerRange (O.rng (s.rngIdx + 1 + 1)))) ∧
      (spawnOrganicFlower O s cell idx).grid.length ≤ s.grid.length + 1 +
        (Int.floor (((flowerRange (O.rng s.rngIdx) * flowerRange (O.rng (s.rngIdx + 1)) *
          flowerRange (O.rng (s.rngIdx + 1 + 1)) : Int) : ℚ) * (4/10))).toNat) := by
  constructor
  · intro hng
    rw [spawnOrganicFlower, hpid]
    simp [hp, hng, hp0]
  · intro hph
    have heq := spawnOrganicFlower_eq_loop O s cell idx pid p hpid hp hph
    obtain ⟨h1a, h1b⟩ := flowerRange_bounds _ (hO s.rngIdx).1 (hO s.rngIdx).2
    obtain ⟨h2a, h2b⟩ := flowerRange_bounds _ (hO (s.rngIdx + 1)).1 (hO (s.rngIdx + 1)).2
    obtain ⟨h3a, h3b⟩ :=
      flowerRange_bounds _ (hO (s.rngIdx + 1 + 1)).1 (hO (s.rngIdx + 1 + 1)).2
    refine ⟨⟨h1a, h1b⟩, ⟨h2a, h2b⟩, ⟨h3a, h3b⟩, ?_, ?_, ?_⟩
    · rw [heq]
      apply flowerLoop_grid_mono
      show alGet (gridSet s.grid idx ({ cell with type := CellType.flower, isTip := false }))
        idx = some ({ cell with type := CellType.flower, isTip := false })
      rw [alGet_gridSet, if_pos rfl]
    · intro k c hk
      rw [heq] at hk
      rcases flowerLoop_grid_cases _ _ _ _ _ _ _ _ _ _ _ _ _ _ _ _ hk with hold | hfl
      · have hold2 : alGet (gridSet s.grid idx
            ({ cell with type := CellType.flower, isTip := false })) k = some c := hold
        rw [alGet_gridSet] at hold2
        split_ifs at hold2 with hki
        · cases hold2
          refine Or.inr ⟨rfl, ?_, ?_, ?_⟩ <;> dsimp only <;> rw [sub_self] <;> omega
        · exact Or.inl hold2
      · exact Or.inr hfl
    · rw [heq]
      refine le_trans (flowerLoop_grid_length _ _ _ _ _ _ _ 500 _ _ _ _) ?_
      rw [Int.sub_zero]
      exact Nat.add_le_add_right (gridSet_length_le _ _ _) _

/-- C9 witness: with the all-zero random stream the flowering scenario `s9`
(tip `cell9` at key `505050`, organism 1 Growing) instantiates the theorem:
the drawn half-extent is 2, and the tip cell ends up a Flower cell. -/
theorem C9_flowering_witness :
    RngOk oc ∧ cell9.plantId = some 1 ∧ (1 : Nat) ≠ 0 ∧
    alGet s9.plantRegistry 1 = some (mkPlant 1 [505050] Phase.growing) ∧
    (2 ≤ flowerRange (oc.rng s9.rngIdx) ∧ flowerRange (oc.rng s9.rngIdx) < 6) ∧
    alGet (spawnOrganicFlower oc s9 cell9 505050).grid 505050 =
      some ({ cell9 with type := CellType.flower, isTip := false }) := by
  have hO : RngOk oc := fun n => ⟨le_refl 0, by norm_num [oc]⟩
  have hpid : cell9.plantId = some 1 := rfl
  have hp0 : (1 : Nat) ≠ 0 := by decide
  have hp : alGet s9.plantRegistry 1 = some (mkPlant 1 [505050] Phase.growing) := by
    with_unfolding_all rfl
  have h := (C9_flowering oc s9 cell9 505050 1 (mkPlant 1 [505050] Phase.growing)
    hO hpid hp0 hp).2 rfl
  exact ⟨hO, hpid, hp0, hp, h.1, h.2.2.2.1⟩

/-- C2 counterexample: loading a single persisted record and catching up one
missed tick under the all-zero random stream yields a SECOND registered
organism (id 2, phase Growing) that exists in no persisted record — a
spontaneously-seeded organism created during catch-up. -/
theorem C2_counterexample :
    [rec1].length = 1 ∧ cex2State.plantCounter = 2 ∧ cex2State.plantRegistry.length = 2 ∧
    (alGet cex2State.plantRegistry 2).map (fun p => p.phase) = some Phase.growing := by
  refine ⟨rfl, ?_, ?_, ?_⟩ <;> with_unfolding_all rfl

/-- C2 (amended): spontaneous seeding stays ENABLED during catch-up.  The
catch-up block runs `performTick` on a state put into catch-up mode by
`catchUpEnter`, which forces `growthRate` to `1` (and raises the catch-up
flag); and every tick whose state has positive `growthRate` rolls the seed
chance, spawning a new organism whenever the drawn value is below
`SEED_CHANCE`. -/
theorem C2_catchup_seeding_enabled (O : Oracles) (s s2 : GardenState) (lt now : ℚ)
    (updates : Nat) (stepMs : ℚ) (hnow : now > lt) (hg : s2.growthRate > 0)
    (hr : O.rng s2.rngIdx < SEED_CHANCE) :
    catchUpPhase O s (some lt) now updates stepMs =
      catchUpExit (performTick O stepMs updates (catchUpEnter s lt)) s.sunPosition lt
        ((updates : ℚ) * stepMs) ∧
    (catchUpEnter s lt).growthRate = 1 ∧
    (catchUpEnter s lt).isCatchingUp = true ∧
    tickSeedRoll O s2 = spawnNewPlant O 10 ({ s2 with rngIdx := s2.rngIdx + 1 }) := by
  refine ⟨?_, rfl, rfl, ?_⟩
  · simp only [catchUpPhase]
    rw [if_pos hnow]
  · rw [tickSeedRoll, if_pos hg]
    simp only [draw]
    rw [if_pos hr]

/-- C2 witness: a fresh live garden (growth rate 1) with the all-zero random
stream instantiates the amended theorem at one missed tick. -/
theorem C2_catchup_seeding_enabled_witness :
    (1 : ℚ) > 0 ∧ (initialState 0 1).growthRate > 0 ∧
    oc.rng (initialState 0 1).rngIdx < SEED_CHANCE ∧
    (catchUpEnter (initialState 0 1) 0).growthRate = 1 ∧
    tickSeedRoll oc (initialState 0 1) =
      spawnNewPlant oc 10 ({ initialState 0 1 with rngIdx := (initialState 0 1).rngIdx + 1 }) := by
  have hnow : (1 : ℚ) > 0 := by norm_num
  have hg : (initialState 0 1).growthRate > 0 := by norm_num [initialState]
  have hr : oc.rng (initialState 0 1).rngIdx < SEED_CHANCE := by
    norm_num [oc, SEED_CHANCE]
  have h := C2_catchup_seeding_enabled oc (initialState 0 1) (initialState 0 1) 0 1 1 1
    hnow hg hr
  exact ⟨hnow, hg, hr, h.2.1, h.2.2.2⟩

/-! ### Lifecycle-order lemmas -/

theorem mem_keys_of_alGet {K V : Type} [DecidableEq K] {m : List (K × V)} {k : K} {v : V}
    (h : alGet m k = some v) : k ∈ m.map (fun e => e.1) := by
  induction m with
  | nil => simp [alGet] at h
  | cons e rest ih =>
    rw [alGet_cons] at h
    split_ifs at h with he
    · simp [← he]
    · simp [ih h]

theorem alGet_of_mem_keys {K V : Type} [DecidableEq K] {m : List (K × V)} {k : K}
    (h : k ∈ m.map (fun e => e.1)) : ∃ v, alGet m k = some v := by
  induction m with
  | nil => simp at h
  | cons e rest ih =>
    rw [alGet_cons]
    by_cases he : e.1 = k
    · exact ⟨e.2, by rw [if_pos he]⟩
    · rw [if_neg he]
      apply ih
      simp only [List.map_cons, List.mem_cons] at h
      rcases h with h | h
      · exact absurd h.symm he
      · exact h

theorem mem_keys_alSet {K V : Type} [DecidableEq K] (m : List (K × V)) (k q : K) (v : V) :
    q ∈ (alSet m k v).map (fun e => e.1) ↔ q ∈ m.map (fun e => e.1) ∨ q = k := by
  induction m with
  | nil => simp [alSet]
  | cons e rest ih =>
    rw [alSet]
    split_ifs with he
    · subst he
      simp
      tauto
    · simp only [List.map_cons, List.mem_cons, ih]
      tauto

theorem phaseLe_refl (a : Option Phase) : phaseLe a a := by
  cases a <;> simp [phaseLe]

theorem phaseLe_trans (a b c : Option Phase) (h1 : phaseLe a b) (h2 : phaseLe b c) :
    phaseLe a c := by
  cases a <;> cases b <;> cases c <;> simp_all [phaseLe] <;> omega

theorem phaseRank_le_four (p : Phase) : phaseRank p ≤ 4 := by
  cases p <;> simp [phaseRank]

theorem phaseRank_eq_zero_iff (p : Phase) : phaseRank p = 0 ↔ p = .growing := by
  cases p <;> simp [phaseRank]

theorem stepOk_refl (s : GardenState) : stepOk s s :=
  ⟨le_refl _, fun h => h, fun _ q => phaseLe_refl _⟩

theorem stepOk_trans {s t u : GardenState} (h1 : stepOk s t) (h2 : stepOk t u) :
    stepOk s u :=
  ⟨le_trans h1.1 h2.1, fun hb => h2.2.1 (h1.2.1 hb),
   fun hb q => phaseLe_trans _ _ _ (h1.2.2 hb q) (h2.2.2 (h1.2.1 hb) q)⟩

theorem stepOk_of_phase_eq {s s' : GardenState} (hc : s'.plantCounter = s.plantCounter)
    (h : ∀ q, regPhase s' q = regPhase s q) : stepOk s s' := by
  refine ⟨le_of_eq hc.symm, ?_, ?_⟩
  · intro hb q hq
    obtain ⟨p, hp⟩ := alGet_of_mem_keys hq
    have h2 := h q
    rw [regPhase, hp] at h2
    cases hq0 : alGet s.plantRegistry q with
    | none => rw [regPhase, hq0] at h2; simp at h2
    | some p0 => rw [hc]; exact hb q (mem_keys_of_alGet hq0)
  · intro _ q
    rw [h q]
    exact phaseLe_refl _

theorem stepOk_foldl {α : Type} (f : GardenState → α → GardenState)
    (h : ∀ s x, stepOk s (f s x)) : ∀ (l : List α) (s : GardenState),
    stepOk s (l.foldl f s) := by
  intro l
  induction l with
  | nil => intro s; exact stepOk_refl s
  | cons x rest ih => intro s; exact stepOk_trans (h s x) (ih (f s x))

theorem stepOk_alSet_phase_le (s : GardenState) (pid : Nat) (st st' : PlantState)
    (hm : alGet s.plantRegistry pid = some st)
    (hrank : phaseRank st.phase ≤ phaseRank st'.phase) :
    stepOk s { s with plantRegistry := alSet s.plantRegistry pid st' } := by
  refine ⟨le_refl _, ?_, ?_⟩
  · intro hb q hq
    have hq2 : q ∈ (alSet s.plantRegistry pid st').map (fun e => e.1) := hq
    rcases (mem_keys_alSet _ _ _ _).mp hq2 with hin | hqp
    · exact hb q hin
    · subst hqp; exact hb q (mem_keys_of_alGet hm)
  · intro _ q
    by_cases hqp : q = pid
    · subst hqp
      simp only [regPhase, hm, alGet_alSet, if_pos rfl, Option.map_some]
      exact hrank
    · simp only [regPhase, alGet_alSet, if_neg hqp]
      exact phaseLe_refl _

theorem flowerLoop_plantCounter (O : Oracles) (center : Int × Int × Int)
    (pid : Option Nat) (dna : String) (g : Genotype) (ranges : Int × Int × Int)
    (target : Int) :
    ∀ (fuel : Nat) (s : GardenState) (openSet placed : List (Int × Int × Int)) (count : Int),
    (flowerLoop O center pid dna g ranges target fuel s openSet placed
      count).plantCounter = s.plantCounter := by
  intro fuel
  induction fuel with
  | zero => intro s o pl c; rfl
  | succ n ih =>
    intro s o pl c
    rw [flowerLoop]
    simp only [draw]
    repeat' split
    all_goals
      first
        | rfl
        | exact ih _ _ _ _
        | rw [ih, createCell_plantCounter]

theorem spawnOrganicFlower_plantCounter (O : Oracles) (s : GardenState) (cell : GridCell)
    (idx : Int) :
    (spawnOrganicFlower O s cell idx).plantCounter = s.plantCounter := by
  simp only [spawnOrganicFlower]
  split
  · rfl
  · rw [flowerLoop_plantCounter]
    rfl

theorem markNotTip_registry_phase (s : GardenState) (idx : Int) (q : Nat) :
    ((alGet (markNotTip s idx).plantRegistry q).map (fun p => p.phase))
      = (alGet s.plantRegistry q).map (fun p => p.phase) := by
  rw [markNotTip]
  split <;> rfl

theorem markNotTip_plantCounter (s : GardenState) (idx : Int) :
    (markNotTip s idx).plantCounter = s.plantCounter := by
  rw [markNotTip]
  split <;> rfl

theorem spawnStem_registry_phase (O : Oracles) (s : GardenState) (idx x y z : Int)
    (parent : GridCell) (st : TipState) (q : Nat) :
    ((alGet (spawnStem O s idx x y z parent st).plantRegistry q).map (fun p => p.phase))
      = (alGet s.plantRegistry q).map (fun p => p.phase) := by
  simp only [spawnStem]
  split
  · rfl
  · split <;>
      exact createCell_registry_phase O s idx x y z .stem parent.plantId parent.dnaHash
        parent.genotype none q

theorem spawnStem_plantCounter (O : Oracles) (s : GardenState) (idx x y z : Int)
    (parent : GridCell) (st : TipState) :
    (spawnStem O s idx x y z parent st).plantCounter = s.plantCounter := by
  simp only [spawnStem]
  split
  · rfl
  · split <;>
      exact createCell_plantCounter O s idx x y z .stem parent.plantId parent.dnaHash
        parent.genotype none

theorem leafLoop_registry_phase (O : Oracles) (parent : GridCell) :
    ∀ (n : Nat) (s : GardenState) (q : Nat),
    ((alGet (leafLoop O parent n s).plantRegistry q).map (fun p => p.phase))
      = (alGet s.plantRegistry q).map (fun p => p.phase) := by
  intro n
  induction n with
  | zero => intro s q; rfl
  | succ k ih =>
    intro s q
    rw [leafLoop]
    simp only [draw]
    repeat' split
    all_goals
      first
        | exact ih _ _
        | rw [ih, createCell_registry_phase]

theorem leafLoop_plantCounter (O : Oracles) (parent : GridCell) :
    ∀ (n : Nat) (s : GardenState),
    (leafLoop O parent n s).plantCounter = s.plantCounter := by
  intro n
  induction n with
  | zero => intro s; rfl
  | succ k ih =>
    intro s
    rw [leafLoop]
    simp only [draw]
    repeat' split
    all_goals
      first
        | exact ih _
        | rw [ih, createCell_plantCounter]

theorem spawnLeaf3D_registry_phase (O : Oracles) (s : GardenState) (parent : GridCell)
    (q : Nat) :
    ((alGet (spawnLeaf3D O s parent).plantRegistry q).map (fun p => p.phase))
      = (alGet s.plantRegistry q).map (fun p => p.phase) :=
  leafLoop_registry_phase O parent _ s q

theorem spawnLeaf3D_plantCounter (O : Oracles) (s : GardenState) (parent : GridCell) :
    (spawnLeaf3D O s parent).plantCounter = s.plantCounter :=
  leafLoop_plantCounter O parent _ s

theorem grow3D_registry_phase (O : Oracles) (s : GardenState) (parent : GridCell)
    (st : TipState) (limit : ℚ) (q : Nat) :
    ((alGet (grow3D O s parent st limit).plantRegistry q).map (fun p => p.phase))
      = (alGet s.plantRegistry q).map (fun p => p.phase) := by
  simp only [grow3D, draw]
  repeat' split
  all_goals
    repeat
      first
        | rw [spawnStem_registry_phase]
        | rw [markNotTip_registry_phase]
        | rw [spawnLeaf3D_registry_phase]
        | dsimp only
  all_goals rfl

theorem grow3D_plantCounter (O : Oracles) (s : GardenState) (parent : GridCell)
    (st : TipState) (limit : ℚ) :
    (grow3D O s parent st limit).plantCounter = s.plantCounter := by
  simp only [grow3D, draw]
  repeat' split
  all_goals
    repeat
      first
        | rw [spawnStem_plantCounter]
        | rw [markNotTip_plantCounter]
        | rw [spawnLeaf3D_plantCounter]
        | dsimp only
  all_goals rfl

theorem stepOk_grow3D (O : Oracles) (s : GardenState) (parent : GridCell) (st : TipState)
    (limit : ℚ) : stepOk s (grow3D O s parent st limit) :=
  stepOk_of_phase_eq (grow3D_plantCounter O s parent st limit)
    (fun q => grow3D_registry_phase O s parent st limit q)

theorem stepOk_spawnOrganicFlower (O : Oracles) (s : GardenState) (cell : GridCell)
    (idx : Int) : stepOk s (spawnOrganicFlower O s cell idx) :=
  stepOk_of_phase_eq (spawnOrganicFlower_plantCounter O s cell idx)
    (fun q => spawnOrganicFlower_registry_phase O s cell idx q)

theorem stepOk_triggerMaturity (s : GardenState) (pid : Nat) :
    stepOk s (triggerMaturity s pid) := by
  rw [triggerMaturity]
  split
  · exact stepOk_refl s
  · rename_i st hm
    split
    · rename_i hg
      refine stepOk_trans (stepOk_alSet_phase_le s pid st { st with phase := .mature } hm ?_)
        (stepOk_of_phase_eq rfl (fun q => rfl))
      rw [hg]
      simp [phaseRank]
    · exact stepOk_refl s

theorem stepOk_gridRecord (s : GardenState) (g : List (Int × GridCell)) :
    stepOk s { s with grid := g } :=
  stepOk_of_phase_eq rfl (fun q => rfl)

theorem stepOk_tipsRecord (s : GardenState) (tips : List (Int × TipState)) :
    stepOk s { s with activeTips := tips } :=
  stepOk_of_phase_eq rfl (fun q => rfl)

set_option maxHeartbeats 1000000 in
theorem stepOk_processTip (O : Oracles) (s : GardenState) (idx : Int) :
    stepOk s (processTip O s idx) := by
  cases hc : alGet s.grid idx with
  | none =>
    simp only [processTip, hc]
    exact stepOk_tipsRecord s _
  | some cell =>
    cases htip : alGet s.activeTips idx with
    | none =>
      simp only [processTip, hc, htip]
      split
      · exact stepOk_tipsRecord s _
      · exact stepOk_refl s
    | some tipState =>
      cases hpid : cell.plantId with
      | none =>
        simp only [processTip, hc, htip, hpid, idTruthy]
        exact stepOk_tipsRecord s _
      | some pid =>
        cases hreg : alGet s.plantRegistry pid with
        | none =>
          simp only [processTip, hc, htip, hpid, hreg]
          split
          · exact stepOk_tipsRecord s _
          · exact stepOk_refl s
        | some plantState =>
          simp only [processTip, hc, htip, hpid, hreg]
          split
          · exact stepOk_tipsRecord s _
          · split
            · exact stepOk_triggerMaturity s _
            · split
              · exact stepOk_trans (stepOk_trans (stepOk_gridRecord s _)
                  (stepOk_spawnOrganicFlower O _ _ _)) (stepOk_triggerMaturity _ _)
              · split
                · split
                  · exact stepOk_trans (stepOk_trans
                      (stepOk_gridRecord s _) (stepOk_grow3D O _ _ _ _))
                      (stepOk_gridRecord _ _)
                  · exact stepOk_trans (stepOk_gridRecord s _)
                      (stepOk_grow3D O _ _ _ _)
                · exact stepOk_gridRecord s _

theorem crystLoop_state (O : Oracles) : ∀ (n : Nat) (s : GardenState) (cands : List Int),
    (crystLoop O n s cands).1.plantRegistry = s.plantRegistry ∧
    (crystLoop O n s cands).1.plantCounter = s.plantCounter := by
  intro n
  induction n with
  | zero => intro s c; exact ⟨rfl, rfl⟩
  | succ k ih =>
    intro s c
    rw [crystLoop]
    simp only [draw]
    split
    all_goals exact ih _ _

theorem dissolveRemoveLoop_state : ∀ (n : Nat) (s : GardenState) (l acc : List Int),
    (dissolveRemoveLoop n s l acc).1.plantRegistry = s.plantRegistry ∧
    (dissolveRemoveLoop n s l acc).1.plantCounter = s.plantCounter := by
  intro n
  induction n with
  | zero => intro s l acc; exact ⟨rfl, rfl⟩
  | succ k ih =>
    intro s l acc
    cases l with
    | nil => exact ⟨rfl, rfl⟩
    | cons x rest =>
      rw [dissolveRemoveLoop]
      repeat' split
      all_goals exact ih _ _ _

theorem finalSweep_state : ∀ (l : List Int) (s : GardenState) (seedIdx : Option Int),
    (finalSweep s l seedIdx).1.plantRegistry = s.plantRegistry ∧
    (finalSweep s l seedIdx).1.plantCounter = s.plantCounter := by
  intro l
  induction l with
  | nil => intro s seed; exact ⟨rfl, rfl⟩
  | cons x rest ih =>
    intro s seed
    rw [finalSweep]
    repeat' split
    all_goals exact ih _ _

theorem stepOk_crystallizeStep (O : Oracles) (s : GardenState) (pid : Nat)
    (st st0 : PlantState) (hm : alGet s.plantRegistry pid = some st0)
    (hph : st.phase = st0.phase) (hcr : st0.phase = .crystallizing) :
    stepOk s (crystallizeStep O s pid st) := by
  simp only [crystallizeStep]
  split
  · exact stepOk_alSet_phase_le s pid st0 { st with phase := .dissolving } hm
      (by rw [hcr]; simp [phaseRank])
  · refine stepOk_trans (stepOk_of_phase_eq (crystLoop_state O _ s _).2
      (fun q => ?_)) (stepOk_alSet_phase_le _ pid st0 st ?_ (by simp [hph]))
    · rw [regPhase, regPhase, (crystLoop_state O _ s _).1]
    · rw [(crystLoop_state O _ s _).1]; exact hm

theorem stepOk_dissolveStep (O : Oracles) (s : GardenState) (pid : Nat)
    (st st0 : PlantState) (hm : alGet s.plantRegistry pid = some st0)
    (hph : st.phase = st0.phase) :
    stepOk s (dissolveStep O s pid st) := by
  simp only [dissolveStep]
  split
  · refine stepOk_trans (stepOk_of_phase_eq (dissolveRemoveLoop_state _ s _ _).2
      (fun q => ?_)) (stepOk_alSet_phase_le _ pid st0 _ ?_ (by simp [hph]))
    · rw [regPhase, regPhase, (dissolveRemoveLoop_state _ s _ _).1]
    · rw [(dissolveRemoveLoop_state _ s _ _).1]; exact hm
  · refine stepOk_trans (stepOk_of_phase_eq ?_ (fun q => ?_))
      (stepOk_alSet_phase_le _ pid st0 _ ?_ ?_)
    · rw [(finalSweep_state _ _ _).2, (dissolveRemoveLoop_state _ s _ _).2]
    · rw [regPhase, regPhase, (finalSweep_state _ _ _).1,
        (dissolveRemoveLoop_state _ s _ _).1]
    · rw [(finalSweep_state _ _ _).1, (dissolveRemoveLoop_state _ s _ _).1]; exact hm
    · have h4 := phaseRank_le_four st0.phase
      simpa [phaseRank] using h4

theorem stepOk_lifecycleStep (O : Oracles) (s : GardenState) (pid : Nat) :
    stepOk s (lifecycleStep O s pid) := by
  cases hm : alGet s.plantRegistry pid with
  | none => simp only [lifecycleStep, hm]; exact stepOk_refl s
  | some st =>
    simp only [lifecycleStep, hm]
    split
    · exact stepOk_refl s
    · split
      · rename_i hskip hmat
        split
        · exact stepOk_alSet_phase_le s pid st _ hm (by rw [hmat]; simp [phaseRank])
        · exact stepOk_alSet_phase_le s pid st _ hm (by simp)
      · split
        · exact stepOk_alSet_phase_le s pid st _ hm
            (by have h4 := phaseRank_le_four st.phase; simpa [phaseRank] using h4)
        · split
          · rename_i hskip hmat hne hcr
            exact stepOk_crystallizeStep O s pid _ st hm (by simp) hcr
          · exact stepOk_dissolveStep O s pid _ st hm (by simp)

theorem stepOk_updateLifecycle (O : Oracles) (s : GardenState) :
    stepOk s (updateLifecycle O s) :=
  stepOk_foldl (fun s pid => lifecycleStep O s pid)
    (fun s pid => stepOk_lifecycleStep O s pid) _ s

theorem stepOk_rngRecord (s : GardenState) (n : Nat) :
    stepOk s { s with rngIdx := n } :=
  stepOk_of_phase_eq rfl (fun q => rfl)

theorem stepOk_playbackRecord (s : GardenState) (t : ℚ) :
    stepOk s { s with playbackTime := t } :=
  stepOk_of_phase_eq rfl (fun q => rfl)

theorem stepOk_lastTickRecord (s : GardenState) (t : Option ℚ) :
    stepOk s { s with globalLastTickTime := t } :=
  stepOk_of_phase_eq rfl (fun q => rfl)

theorem stepOk_playRngRecord (s : GardenState) (t : ℚ) (n : Nat) :
    stepOk s { s with playbackTime := t, rngIdx := n } :=
  stepOk_of_phase_eq rfl (fun q => rfl)

theorem registerPlant_plantCounter (O : Oracles) (s : GardenState) (id : Nat)
    (g : Genotype) (dna : String) :
    (registerPlant O s id g dna).plantCounter = s.plantCounter := rfl

theorem registerPlant_registry_phase_ne (O : Oracles) (s : GardenState) (id : Nat)
    (g : Genotype) (dna : String) (q : Nat) (hq : ¬ q = id) :
    ((alGet (registerPlant O s id g dna).plantRegistry q).map (fun p => p.phase))
      = (alGet s.plantRegistry q).map (fun p => p.phase) := by
  simp only [registerPlant, draw]
  rw [alGet_alSet, if_neg hq]

theorem registerPlant_registry_phase_self (O : Oracles) (s : GardenState) (id : Nat)
    (g : Genotype) (dna : String) :
    ((alGet (registerPlant O s id g dna).plantRegistry id).map (fun p => p.phase))
      = some Phase.growing := by
  simp only [registerPlant, draw]
  rw [alGet_alSet, if_pos rfl]
  rfl

theorem initializePlantAt_plantCounter (O : Oracles) (s : GardenState) (index x y z : Int)
    (dna : String) (bt : Option ℚ) :
    (initializePlantAt O s index x y z dna bt none).plantCounter = s.plantCounter + 1 := by
  simp only [initializePlantAt, draw]
  repeat' split
  all_goals
    repeat
      first
        | rw [createCell_plantCounter]
        | rw [registerPlant_plantCounter]
        | dsimp only
  all_goals rfl

theorem initializePlantAt_registry_phase_ne (O : Oracles) (s : GardenState)
    (index x y z : Int) (dna : String) (bt : Option ℚ) (q : Nat)
    (hq : ¬ q = s.plantCounter + 1) :
    ((alGet (initializePlantAt O s index x y z dna bt none).plantRegistry q).map
        (fun p => p.phase))
      = (alGet s.plantRegistry q).map (fun p => p.phase) := by
  simp only [initializePlantAt, draw]
  repeat' split
  all_goals
    repeat
      first
        | rw [createCell_registry_phase]
        | rw [registerPlant_registry_phase_ne _ _ _ _ _ _ hq]
        | dsimp only
  all_goals rfl

theorem stepOk_initializePlantAt (O : Oracles) (s : GardenState) (index x y z : Int)
    (dna : String) (bt : Option ℚ) :
    stepOk s (initializePlantAt O s index x y z dna bt none) := by
  have hcnt := initializePlantAt_plantCounter O s index x y z dna bt
  refine ⟨?_, ?_, ?_⟩
  · rw [hcnt]; omega
  · intro hb q hq
    rw [hcnt]
    by_cases hqid : q = s.plantCounter + 1
    · omega
    · obtain ⟨p, hp⟩ := alGet_of_mem_keys hq
      have hph := initializePlantAt_registry_phase_ne O s index x y z dna bt q hqid
      rw [hp] at hph
      cases hq0 : alGet s.plantRegistry q with
      | none => rw [hq0] at hph; simp at hph
      | some p0 => exact le_trans (hb q (mem_keys_of_alGet hq0)) (by omega)
  · intro hb q
    by_cases hqid : q = s.plantCounter + 1
    · subst hqid
      have hnone : alGet s.plantRegistry (s.plantCounter + 1) = none := by
        cases hq0 : alGet s.plantRegistry (s.plantCounter + 1) with
        | none => rfl
        | some p0 =>
          have := hb _ (mem_keys_of_alGet hq0)
          omega
      rw [regPhase, hnone]
      trivial
    · have hph := initializePlantAt_registry_phase_ne O s index x y z dna bt q hqid
      rw [regPhase, regPhase, hph]
      exact phaseLe_refl _

theorem stepOk_spawnNewPlant (O : Oracles) : ∀ (n : Nat) (s : GardenState),
    stepOk s (spawnNewPlant O n s) := by
  intro n
  induction n with
  | zero => intro s; exact stepOk_refl s
  | succ k ih =>
    intro s
    rw [spawnNewPlant]
    simp only [draw, generateDNA]
    split
    · refine stepOk_trans ?_ (stepOk_initializePlantAt O _ _ _ _ _ _ _)
      exact stepOk_rngRecord s _
    · refine stepOk_trans ?_ (ih _)
      exact stepOk_rngRecord s _

theorem stepOk_rebirthBody (O : Oracles) (s : GardenState) (pid : Nat) :
    stepOk s (match alGet s.plantRegistry pid with
      | none => s
      | some st =>
        if st.phase = .legacy then
          if ¬ st.indices.isEmpty then
            let rs := draw O s
            let r := rs.1
            let s := rs.2
            if r < REBIRTH_CHANCE then
              let rootIdx := st.indices.headD 0
              match alGet s.grid rootIdx with
              | some cell =>
                if cell.type = .ash then
                  let s := { s with plantRegistry :=
                      (alSet s.plantRegistry pid { st with indices := [] }) }
                  initializePlantAt O s rootIdx cell.x cell.y cell.z cell.dnaHash none none
                else s
              | none => s
            else s
          else s
        else s) := by
  cases hm : alGet s.plantRegistry pid with
  | none => exact stepOk_refl s
  | some st =>
    simp only [draw]
    repeat' split
    all_goals
      first
        | exact stepOk_refl _
        | exact stepOk_rngRecord s _
        | (refine stepOk_trans ?_ (stepOk_initializePlantAt O _ _ _ _ _ _ _)
           refine stepOk_trans (stepOk_rngRecord s _)
             (stepOk_alSet_phase_le _ pid st _ hm (by simp)))

theorem stepOk_rebirthStep (O : Oracles) (s : GardenState) :
    stepOk s (rebirthStep O s) := by
  refine stepOk_foldl _ (fun s pid => ?_) _ s
  exact stepOk_rebirthBody O s pid

theorem fisherYates_state (O : Oracles) : ∀ (j : Nat) (s : GardenState)
    (arr : List TipState),
    (fisherYates O j s arr).2.plantRegistry = s.plantRegistry ∧
    (fisherYates O j s arr).2.plantCounter = s.plantCounter := by
  intro j
  induction j with
  | zero => intro s arr; exact ⟨rfl, rfl⟩
  | succ k ih =>
    intro s arr
    rw [fisherYates]
    simp only [draw]
    exact ih _ _

theorem stepOk_tipFold (O : Oracles) (s : GardenState) (tip : TipState) :
    stepOk s (if alHas s.activeTips tip.idx then processTip O s tip.idx else s) := by
  split
  · exact stepOk_processTip O s _
  · exact stepOk_refl s

theorem stepOk_tickSimAdvance (O : Oracles) (stepMs : ℚ) (s : GardenState) :
    stepOk s (tickSimAdvance O stepMs s) := by
  rw [tickSimAdvance]
  split
  · exact stepOk_of_phase_eq rfl (fun q => rfl)
  · exact stepOk_refl s

theorem stepOk_tickSeedRoll (O : Oracles) (s : GardenState) :
    stepOk s (tickSeedRoll O s) := by
  rw [tickSeedRoll]
  split
  · simp only [draw]
    split
    · refine stepOk_trans ?_ (stepOk_spawnNewPlant O 10 _)
      exact stepOk_rngRecord s _
    · exact stepOk_rngRecord s _
  · exact stepOk_refl s

theorem stepOk_tickRest (O : Oracles) (s : GardenState) :
    stepOk s (tickRest O s) := by
  simp only [tickRest]
  refine stepOk_trans ?_ (stepOk_updateLifecycle O _)
  refine stepOk_trans ?_ (stepOk_foldl _ (fun s tip => stepOk_tipFold O s tip) _ _)
  split
  · refine stepOk_trans (stepOk_rebirthStep O s) ?_
    refine stepOk_of_phase_eq (fisherYates_state O _ _ _).2 (fun q => ?_)
    rw [regPhase, regPhase, (fisherYates_state O _ _ _).1]
  · exact stepOk_rebirthStep O s

theorem stepOk_tickOnce (O : Oracles) (stepMs : ℚ) (s : GardenState) :
    stepOk s (tickOnce O stepMs s) :=
  stepOk_trans (stepOk_tickSimAdvance O stepMs s)
    (stepOk_trans (stepOk_tickSeedRoll O (tickSimAdvance O stepMs s))
      (stepOk_tickRest O (tickSeedRoll O (tickSimAdvance O stepMs s))))

theorem stepOk_performTick (O : Oracles) (stepMs : ℚ) :
    ∀ (n : Nat) (s : GardenState), stepOk s (performTick O stepMs n s) := by
  intro n
  induction n with
  | zero => intro s; exact stepOk_refl s
  | succ k ih =>
    intro s
    rw [performTick]
    exact stepOk_trans (stepOk_tickOnce O stepMs s) (ih _)

theorem stepOk_updateFinal (s : GardenState) (O : Oracles) :
    stepOk s (if s.growthRate ≤ 1 ∧ ¬ s.globalLastTickTime = none ∧ ¬ s.isCatchingUp then
      { s with globalLastTickTime := s.globalLastTickTime.map (fun t => t + O.msPerUpdate) }
      else s) := by
  split
  · exact stepOk_lastTickRecord s _
  · exact stepOk_refl s

set_option maxHeartbeats 4000000 in
theorem stepOk_update (O : Oracles) (s : GardenState) :
    stepOk s (update O s) := by
  simp only [update, draw]
  refine stepOk_trans ?_ (stepOk_updateFinal _ O)
  refine stepOk_trans ?_ (stepOk_updateLifecycle O _)
  refine stepOk_trans ?_ (stepOk_foldl _ (fun s tip => stepOk_tipFold O s tip) _ _)
  refine stepOk_trans ?_ (stepOk_rebirthStep O _)
  split
  · split
    · exact stepOk_trans (stepOk_playRngRecord s _ _) (stepOk_spawnNewPlant O 10 _)
    · exact stepOk_playRngRecord s _ _
  · exact stepOk_playbackRecord s _

/-- C5: across a public live tick (`update`) and any batch of catch-up ticks
(`performTick`), every registered organism's phase moves only forward along
the order Growing, Mature, Crystallizing, Dissolving, Legacy and no
registered entry ever disappears; id-boundedness is preserved, the id
`plantCounter + 1` used when rebirth or seeding registers an organism is
always brand new (unregistered), and no organism id whose phase has left
Growing is ever moved back to Growing. -/
theorem C5_phase_monotonic (O : Oracles) (s : GardenState) (n : Nat) (stepMs : ℚ)
    (hb : idsBounded s) :
    (∀ q, phaseLe (regPhase s q) (regPhase (update O s) q)) ∧
    idsBounded (update O s) ∧
    (∀ q, phaseLe (regPhase s q) (regPhase (performTick O stepMs n s) q)) ∧
    idsBounded (performTick O stepMs n s) ∧
    regPhase s (s.plantCounter + 1) = none ∧
    (∀ q px, regPhase s q = some px → ¬ px = Phase.growing →
      ¬ regPhase (update O s) q = some Phase.growing) := by
  have hu := stepOk_update O s
  have hp := stepOk_performTick O stepMs n s
  refine ⟨hu.2.2 hb, hu.2.1 hb, hp.2.2 hb, hp.2.1 hb, ?_, ?_⟩
  · cases hq0 : alGet s.plantRegistry (s.plantCounter + 1) with
    | none => simp [regPhase, hq0]
    | some p0 =>
      have hle := hb _ (mem_keys_of_alGet hq0)
      exact absurd hle (by omega)
  · intro q px hpx hng hcon
    have hle := hu.2.2 hb q
    rw [hpx, hcon] at hle
    have h0 : phaseRank px ≤ phaseRank Phase.growing := hle
    have hz : phaseRank px = 0 := by simpa [phaseRank] using h0
    exact hng ((phaseRank_eq_zero_iff px).mp hz)

/-- C5 witness: in the dissolution scenario `s4` (organism 1 Dissolving,
counter 1), id 2 is brand new and a live tick cannot return organism 1 to
the Growing phase. -/
theorem C5_phase_monotonic_witness :
    regPhase s4 (s4.plantCounter + 1) = none ∧
    regPhase s4 1 = some Phase.dissolving ∧
    ¬ regPhase (update oc s4) 1 = some Phase.growing := by
  have hb : idsBounded s4 := by
    intro q hq
    rw [show s4.plantRegistry.map (fun e => e.1) = [1] from rfl] at hq
    have hq1 : q = 1 := by simpa using hq
    subst hq1
    exact le_refl 1
  have h := C5_phase_monotonic oc s4 0 1 hb
  exact ⟨h.2.2.2.2.1, by with_unfolding_all rfl,
    h.2.2.2.2.2 1 Phase.dissolving (by with_unfolding_all rfl) (by decide)⟩

/-! ### Cell-count bookkeeping lemmas -/

theorem countType_nonneg (g : List (Int × GridCell)) (t : CellType) : 0 ≤ countType g t :=
  Int.natCast_nonneg _

theorem countType_cons (e : Int × GridCell) (m : List (Int × GridCell)) (t : CellType) :
    countType (e :: m) t = (if e.2.type = t then 1 else 0) + countType m t := by
  simp only [countType, List.filter_cons]
  split
  · simp only [List.length_cons]
    push_cast
    split
    · omega
    · rename_i hd hc
      simp at hd
      exact absurd hd hc
  · rename_i hd
    split
    · rename_i hc
      simp at hd
      exact absurd hc hd
    · omega

theorem alGet_none_of_not_mem_keys {K V : Type} [DecidableEq K] {m : List (K × V)} {k : K}
    (h : ¬ k ∈ m.map (fun e => e.1)) : alGet m k = none := by
  cases hq : alGet m k with
  | none => rfl
  | some v => exact absurd (mem_keys_of_alGet hq) h

theorem countType_alDelete_some : ∀ (g : List (Int × GridCell)) (k : Int) (c : GridCell)
    (t : CellType), (g.map (fun e => e.1)).Nodup → alGet g k = some c →
    countType (alDelete g k) t = countType g t - (if c.type = t then 1 else 0) := by
  intro g
  induction g with
  | nil => intro k c t _ h; simp [alGet] at h
  | cons e rest ih =>
    intro k c t hn h
    rw [alGet_cons] at h
    simp only [List.map_cons, List.nodup_cons] at hn
    simp only [alDelete, List.filter_cons]
    split_ifs at h with he
    · simp only [Option.some.injEq] at h
      subst h
      have hres : alGet rest k = none := by
        apply alGet_none_of_not_mem_keys
        rw [← he]
        exact hn.1
      rw [if_neg (by simpa using he)]
      rw [show rest.filter (fun e => decide ¬ e.1 = k) = alDelete rest k from rfl,
        alDelete_of_none hres, countType_cons]
      omega
    · rw [if_pos (by simpa using he), countType_cons,
        show rest.filter (fun e => decide ¬ e.1 = k) = alDelete rest k from rfl,
        ih k c t hn.2 h, countType_cons]
      omega

theorem countType_gridSet_none (g : List (Int × GridCell)) (k : Int) (v : GridCell)
    (t : CellType) (h : alGet g k = none) :
    countType (gridSet g k v) t = countType g t + (if v.type = t then 1 else 0) := by
  rw [gridSet, alDelete_of_none h, countType_cons]
  split_ifs <;> omega

theorem countType_gridSet_some (g : List (Int × GridCell)) (k : Int) (v c : GridCell)
    (t : CellType) (hn : (g.map (fun e => e.1)).Nodup) (h : alGet g k = some c) :
    countType (gridSet g k v) t =
      countType g t - (if c.type = t then 1 else 0) + (if v.type = t then 1 else 0) := by
  rw [gridSet, countType_cons, countType_alDelete_some g k c t hn h]
  split_ifs <;> omega

theorem keys_alDelete (g : List (Int × GridCell)) (k : Int) :
    (alDelete g k).map (fun e => e.1) = (g.map (fun e => e.1)).filter (fun x => ¬ x = k) := by
  induction g with
  | nil => rfl
  | cons e rest ih =>
    rw [show alDelete (e :: rest) k
        = List.filter (fun x => decide ¬ x.1 = k) (e :: rest) from rfl]
    rw [List.filter_cons, List.map_cons, List.filter_cons]
    by_cases he : e.1 = k
    · rw [if_neg (by simp [he]), if_neg (by simp [he])]
      exact ih
    · rw [if_pos (by simp [he]), if_pos (by simp [he]), List.map_cons,
        show List.filter (fun x => decide ¬ x.1 = k) rest = alDelete rest k from rfl, ih]

theorem nodup_keys_alDelete (g : List (Int × GridCell)) (k : Int)
    (h : (g.map (fun e => e.1)).Nodup) : ((alDelete g k).map (fun e => e.1)).Nodup := by
  rw [keys_alDelete]
  exact h.filter _

theorem nodup_keys_gridSet (g : List (Int × GridCell)) (k : Int) (v : GridCell)
    (h : (g.map (fun e => e.1)).Nodup) : ((gridSet g k v).map (fun e => e.1)).Nodup := by
  rw [gridSet, List.map_cons, List.nodup_cons]
  constructor
  · rw [keys_alDelete]
    intro hmem
    simp at hmem
  · exact nodup_keys_alDelete g k h

theorem countType_pos_of_alGet (g : List (Int × GridCell)) (k : Int) (c : GridCell)
    (t : CellType) (hn : (g.map (fun e => e.1)).Nodup) (h : alGet g k = some c)
    (ht : c.type = t) : 1 ≤ countType g t := by
  have hd := countType_alDelete_some g k c t hn h
  have h0 := countType_nonneg (alDelete g k) t
  rw [if_pos ht] at hd
  omega

theorem updateCellCount_inc_actual (g : List (Int × GridCell)) (k : Int) (v : GridCell)
    (h : alGet g k = none) :
    updateCellCount (actualCounts g) v.type 1 = actualCounts (gridSet g k v) := by
  have h0 := countType_nonneg g CellType.ash
  have e1 := countType_gridSet_none g k v CellType.stem h
  have e2 := countType_gridSet_none g k v CellType.leaf h
  have e3 := countType_gridSet_none g k v CellType.flower h
  have e4 := countType_gridSet_none g k v CellType.crystal h
  have e5 := countType_gridSet_none g k v CellType.ash h
  cases hv : v.type <;>
    rw [hv] at e1 e2 e3 e4 e5 <;>
    simp at e1 e2 e3 e4 e5 <;>
    simp only [updateCellCount, actualCounts, CellCounts.mk.injEq] <;>
    refine ⟨?_, ?_, ?_, ?_, ?_⟩ <;> omega

theorem updateCellCount_dec_actual (g : List (Int × GridCell)) (k : Int) (c : GridCell)
    (hn : (g.map (fun e => e.1)).Nodup) (h : alGet g k = some c) :
    updateCellCount (actualCounts g) c.type (-1) = actualCounts (alDelete g k) := by
  have e1 := countType_alDelete_some g k c CellType.stem hn h
  have e2 := countType_alDelete_some g k c CellType.leaf hn h
  have e3 := countType_alDelete_some g k c CellType.flower hn h
  have e4 := countType_alDelete_some g k c CellType.crystal hn h
  have e5 := countType_alDelete_some g k c CellType.ash hn h
  have h1 : c.type = c.type := rfl
  have hp := countType_pos_of_alGet g k c c.type hn h rfl
  cases hv : c.type <;>
    rw [hv] at e1 e2 e3 e4 e5 hp <;>
    simp at e1 e2 e3 e4 e5 <;>
    simp only [updateCellCount, actualCounts, CellCounts.mk.injEq] <;>
    refine ⟨?_, ?_, ?_, ?_, ?_⟩ <;> omega

theorem gridSet_alDelete_self (g : List (Int × GridCell)) (k : Int) (v : GridCell) :
    gridSet (alDelete g k) k v = gridSet g k v := by
  rw [gridSet, gridSet, alDelete_of_none]
  rw [alGet_alDelete, if_pos rfl]

theorem updateCellCount_repl_actual (g : List (Int × GridCell)) (k : Int) (v c : GridCell)
    (hn : (g.map (fun e => e.1)).Nodup) (h : alGet g k = some c) :
    updateCellCount (updateCellCount (actualCounts g) c.type (-1)) v.type 1
      = actualCounts (gridSet g k v) := by
  rw [updateCellCount_dec_actual g k c hn h]
  rw [← gridSet_alDelete_self g k v]
  exact updateCellCount_inc_actual (alDelete g k) k v (by rw [alGet_alDelete, if_pos rfl])

theorem statsInv_of_eq {s s' : GardenState} (hg : s'.grid = s.grid)
    (hcc : s'.cellCounts = s.cellCounts) (h : statsInv s) : statsInv s' := by
  obtain ⟨hn, hcnt⟩ := h
  refine ⟨?_, ?_⟩
  · rw [hg]; exact hn
  · show s'.cellCounts = actualCounts s'.grid
    rw [hg, hcc]
    exact hcnt

theorem statsInv_foldl {α : Type} (f : GardenState → α → GardenState)
    (h : ∀ s x, statsInv s → statsInv (f s x)) : ∀ (l : List α) (s : GardenState),
    statsInv s → statsInv (l.foldl f s) := by
  intro l
  induction l with
  | nil => intro s hs; exact hs
  | cons x rest ih => intro s hs; exact ih (f s x) (h s x hs)

theorem statsInv_createCell (O : Oracles) (s : GardenState) (index x y z : Int)
    (t : CellType) (pid : Option Nat) (dna : String) (gg : Genotype) (bt : Option ℚ)
    (h : statsInv s) : statsInv (createCell O s index x y z t pid dna gg bt) := by
  obtain ⟨hn, hcnt⟩ := h
  refine ⟨?_, ?_⟩
  · rw [createCell_grid]
    exact nodup_keys_gridSet _ _ _ hn
  · show (createCell O s index x y z t pid dna gg bt).cellCounts
      = actualCounts (createCell O s index x y z t pid dna gg bt).grid
    rw [createCell_cellCounts, createCell_grid]
    have hc' : s.cellCounts = actualCounts s.grid := hcnt
    cases hold : alGet s.grid index with
    | none =>
      rw [hc']
      have hres := updateCellCount_inc_actual s.grid index
        ({ type := t, x := x, y := y, z := z, plantId := pid, dnaHash := dna, genotype := gg, age := 0, maxAge := MAX_AGE_STEM, energy := 0, isTip := false, birthTime := bt.getD (timeNow O s) }) hold
      exact hres
    | some old =>
      rw [hc']
      have hres := updateCellCount_repl_actual s.grid index
        ({ type := t, x := x, y := y, z := z, plantId := pid, dnaHash := dna, genotype := gg, age := 0, maxAge := MAX_AGE_STEM, energy := 0, isTip := false, birthTime := bt.getD (timeNow O s) }) old hn hold
      exact hres

theorem createCellDirect_grid (s : GardenState) (O : Oracles) (idx x y z : Int)
    (t : CellType) (pid : Option Nat) (dna : String) (g : Genotype) (bt : Option ℚ) :
    (createCellDirect s O idx x y z t pid dna g bt).grid =
      gridSet s.grid idx
        { type := t, x := x, y := y, z := z, plantId := pid, dnaHash := dna,
          genotype := g, age := 0, maxAge := MAX_AGE_STEM, energy := 0,
          isTip := false, birthTime := bt.getD (timeNow O s) } := by
  simp only [createCellDirect]
  repeat' split <;> try rfl

theorem createCellDirect_cellCounts (s : GardenState) (O : Oracles) (idx x y z : Int)
    (t : CellType) (pid : Option Nat) (dna : String) (g : Genotype) (bt : Option ℚ) :
    (createCellDirect s O idx x y z t pid dna g bt).cellCounts =
      updateCellCount
        (match alGet s.grid idx with
          | some old => updateCellCount s.cellCounts old.type (-1)
          | none => s.cellCounts) t 1 := by
  simp only [createCellDirect]
  repeat' split <;> try rfl

theorem statsInv_createCellDirect (s : GardenState) (O : Oracles) (index x y z : Int)
    (t : CellType) (pid : Option Nat) (dna : String) (gg : Genotype) (bt : Option ℚ)
    (h : statsInv s) : statsInv (createCellDirect s O index x y z t pid dna gg bt) := by
  obtain ⟨hn, hcnt⟩ := h
  refine ⟨?_, ?_⟩
  · rw [createCellDirect_grid]
    exact nodup_keys_gridSet _ _ _ hn
  · show (createCellDirect s O index x y z t pid dna gg bt).cellCounts
      = actualCounts (createCellDirect s O index x y z t pid dna gg bt).grid
    rw [createCellDirect_cellCounts, createCellDirect_grid]
    have hc' : s.cellCounts = actualCounts s.grid := hcnt
    cases hold : alGet s.grid index with
    | none =>
      rw [hc']
      have hres := updateCellCount_inc_actual s.grid index
        ({ type := t, x := x, y := y, z := z, plantId := pid, dnaHash := dna, genotype := gg, age := 0, maxAge := MAX_AGE_STEM, energy := 0, isTip := false, birthTime := bt.getD (timeNow O s) }) hold
      exact hres
    | some old =>
      rw [hc']
      have hres := updateCellCount_repl_actual s.grid index
        ({ type := t, x := x, y := y, z := z, plantId := pid, dnaHash := dna, genotype := gg, age := 0, maxAge := MAX_AGE_STEM, energy := 0, isTip := false, birthTime := bt.getD (timeNow O s) }) old hn hold
      exact hres

theorem statsInv_gridSet_same_type (s : GardenState) (idx : Int) (c v : GridCell)
    (hsome : alGet s.grid idx = some c) (ht : v.type = c.type) (h : statsInv s) :
    statsInv { s with grid := gridSet s.grid idx v } := by
  obtain ⟨hn, hcnt⟩ := h
  refine ⟨nodup_keys_gridSet _ _ _ hn, ?_⟩
  show s.cellCounts = actualCounts (gridSet s.grid idx v)
  rw [show s.cellCounts = actualCounts s.grid from hcnt]
  simp only [actualCounts, CellCounts.mk.injEq]
  refine ⟨?_, ?_, ?_, ?_, ?_⟩ <;>
    rw [countType_gridSet_some s.grid idx v c _ hn hsome, ht] <;>
    split_ifs <;> omega

theorem statsInv_rngRecord (s : GardenState) (n : Nat) (h : statsInv s) :
    statsInv { s with rngIdx := n } :=
  statsInv_of_eq rfl rfl h

theorem statsInv_tipsRecord (s : GardenState) (tips : List (Int × TipState))
    (h : statsInv s) : statsInv { s with activeTips := tips } :=
  statsInv_of_eq rfl rfl h

theorem statsInv_flowerLoop (O : Oracles) (center : Int × Int × Int) (pid : Option Nat)
    (dna : String) (g : Genotype) (ranges : Int × Int × Int) (target : Int) :
    ∀ (fuel : Nat) (s : GardenState) (openSet placed : List (Int × Int × Int)) (count : Int),
    statsInv s →
    statsInv (flowerLoop O center pid dna g ranges target fuel s openSet placed count) := by
  intro fuel
  induction fuel with
  | zero => intro s o pl c hs; exact hs
  | succ n ih =>
    intro s o pl c hs
    rw [flowerLoop]
    simp only [draw]
    repeat' split
    all_goals
      first
        | exact hs
        | exact ih _ _ _ _ (statsInv_of_eq rfl rfl hs)
        | exact ih _ _ _ _ (statsInv_createCell O _ _ _ _ _ _ _ _ _ _
            (statsInv_of_eq rfl rfl hs))

theorem statsInv_spawnOrganicFlower (O : Oracles) (s : GardenState) (cell : GridCell)
    (idx : Int) (hsome : alGet s.grid idx = some cell) (hs : statsInv s) :
    statsInv (spawnOrganicFlower O s cell idx) := by
  simp only [spawnOrganicFlower, draw]
  split
  · exact hs
  · apply statsInv_flowerLoop
    refine statsInv_of_eq rfl rfl ?_
    refine ⟨nodup_keys_gridSet _ _ _ hs.1, ?_⟩
    show updateCellCount (updateCellCount s.cellCounts cell.type (-1)) CellType.flower 1
      = actualCounts (gridSet s.grid idx ({ cell with type := CellType.flower, isTip := false }))
    rw [show s.cellCounts = actualCounts s.grid from hs.2]
    exact updateCellCount_repl_actual s.grid idx
      ({ cell with type := CellType.flower, isTip := false }) cell hs.1 hsome

theorem statsInv_markNotTip (s : GardenState) (idx : Int) (h : statsInv s) :
    statsInv (markNotTip s idx) := by
  rw [markNotTip]
  split
  · rename_i pc hpc
    exact statsInv_gridSet_same_type s idx pc _ hpc rfl h
  · exact h

theorem statsInv_spawnStem (O : Oracles) (s : GardenState) (idx x y z : Int)
    (parent : GridCell) (st : TipState) (h : statsInv s) :
    statsInv (spawnStem O s idx x y z parent st) := by
  simp only [spawnStem]
  split
  · exact h
  · have h1 := statsInv_createCell O s idx x y z .stem parent.plantId parent.dnaHash
      parent.genotype none h
    split
    · rename_i cell2 hcell2
      exact statsInv_of_eq rfl rfl (statsInv_gridSet_same_type _ idx cell2 _ hcell2 rfl h1)
    · exact statsInv_of_eq rfl rfl h1

theorem statsInv_leafLoop (O : Oracles) (parent : GridCell) :
    ∀ (n : Nat) (s : GardenState), statsInv s → statsInv (leafLoop O parent n s) := by
  intro n
  induction n with
  | zero => intro s hs; exact hs
  | succ k ih =>
    intro s hs
    rw [leafLoop]
    simp only [draw]
    repeat' split
    all_goals
      first
        | exact ih _ (statsInv_of_eq rfl rfl hs)
        | exact ih _ (statsInv_createCell O _ _ _ _ _ _ _ _ _ _
            (statsInv_of_eq rfl rfl hs))

theorem statsInv_spawnLeaf3D (O : Oracles) (s : GardenState) (parent : GridCell)
    (h : statsInv s) : statsInv (spawnLeaf3D O s parent) :=
  statsInv_leafLoop O parent _ s h

set_option maxHeartbeats 2000000 in
theorem statsInv_grow3D (O : Oracles) (s : GardenState) (parent : GridCell) (st : TipState)
    (limit : ℚ) (h : statsInv s) : statsInv (grow3D O s parent st limit) := by
  simp only [grow3D, draw]
  repeat' split
  all_goals
    first
      | exact statsInv_tipsRecord s _ h
      | exact statsInv_spawnStem O _ _ _ _ _ _ _ (statsInv_rngRecord _ _ (statsInv_rngRecord _ _
          (statsInv_rngRecord _ _ (statsInv_rngRecord _ _ (statsInv_spawnStem O _ _ _ _ _ _ _
          (statsInv_tipsRecord _ _ (statsInv_markNotTip _ _ (statsInv_spawnLeaf3D O _ _
          (statsInv_rngRecord _ _ h)))))))))
      | exact statsInv_spawnStem O _ _ _ _ _ _ _ (statsInv_rngRecord _ _ (statsInv_rngRecord _ _
          (statsInv_rngRecord _ _ (statsInv_rngRecord _ _ (statsInv_spawnStem O _ _ _ _ _ _ _
          (statsInv_tipsRecord _ _ (statsInv_markNotTip _ _
          (statsInv_rngRecord _ _ h))))))))
      | exact statsInv_rngRecord _ _ (statsInv_rngRecord _ _ (statsInv_spawnStem O _ _ _ _ _ _ _
          (statsInv_tipsRecord _ _ (statsInv_markNotTip _ _ (statsInv_spawnLeaf3D O _ _
          (statsInv_rngRecord _ _ h))))))
      | exact statsInv_rngRecord _ _ (statsInv_rngRecord _ _ (statsInv_spawnStem O _ _ _ _ _ _ _
          (statsInv_tipsRecord _ _ (statsInv_markNotTip _ _
          (statsInv_rngRecord _ _ h)))))
      | exact statsInv_spawnStem O _ _ _ _ _ _ _ (statsInv_tipsRecord _ _ (statsInv_markNotTip _ _
          (statsInv_spawnLeaf3D O _ _ (statsInv_rngRecord _ _ h))))
      | exact statsInv_spawnStem O _ _ _ _ _ _ _ (statsInv_tipsRecord _ _ (statsInv_markNotTip _ _
          (statsInv_rngRecord _ _ h)))

theorem statsInv_triggerMaturity (s : GardenState) (pid : Nat) (h : statsInv s) :
    statsInv (triggerMaturity s pid) := by
  rw [triggerMaturity]
  repeat' split
  all_goals first | exact h | exact statsInv_of_eq rfl rfl h

theorem statsInv_processTip (O : Oracles) (s : GardenState) (idx : Int) (h : statsInv s) :
    statsInv (processTip O s idx) := by
  cases hc : alGet s.grid idx with
  | none =>
    simp only [processTip, hc]
    exact statsInv_of_eq rfl rfl h
  | some cell =>
    cases htip : alGet s.activeTips idx with
    | none =>
      simp only [processTip, hc, htip]
      split
      · exact statsInv_of_eq rfl rfl h
      · exact h
    | some tipState =>
      cases hpid : cell.plantId with
      | none =>
        simp only [processTip, hc, htip, hpid, idTruthy]
        exact statsInv_of_eq rfl rfl h
      | some pid =>
        cases hreg : alGet s.plantRegistry pid with
        | none =>
          simp only [processTip, hc, htip, hpid, hreg]
          split
          · exact statsInv_of_eq rfl rfl h
          · exact h
        | some plantState =>
          simp only [processTip, hc, htip, hpid, hreg]
          split
          · exact statsInv_of_eq rfl rfl h
          · split
            · exact statsInv_triggerMaturity s _ h
            · split
              · apply statsInv_triggerMaturity
                refine statsInv_spawnOrganicFlower O _ _ idx ?_ ?_
                · show alGet (gridSet s.grid idx _) idx = some _
                  rw [alGet_gridSet, if_pos rfl]
                · exact statsInv_gridSet_same_type s idx cell _ hc rfl h
              · split
                · split
                  · rename_i c2 hc2
                    exact statsInv_gridSet_same_type _ idx c2 _ hc2 rfl
                      (statsInv_grow3D O _ _ tipState plantState.individualMaxHeight
                        (statsInv_gridSet_same_type s idx cell _ hc rfl h))
                  · exact statsInv_grow3D O _ _ tipState plantState.individualMaxHeight
                      (statsInv_gridSet_same_type s idx cell _ hc rfl h)
                · exact statsInv_gridSet_same_type s idx cell _ hc rfl h

theorem statsInv_crystLoop (O : Oracles) : ∀ (n : Nat) (s : GardenState) (cands : List Int),
    statsInv s → statsInv (crystLoop O n s cands).1 := by
  intro n
  induction n with
  | zero => intro s c hs; exact hs
  | succ k ih =>
    intro s c hs
    rw [crystLoop]
    simp only [draw]
    split
    · rename_i cell hcell
      refine ih _ _ ⟨nodup_keys_gridSet _ _ _ hs.1, ?_⟩
      show updateCellCount (updateCellCount s.cellCounts cell.type (-1)) CellType.crystal 1
        = actualCounts (gridSet s.grid _ ({ cell with type := CellType.crystal }))
      rw [show s.cellCounts = actualCounts s.grid from hs.2]
      exact updateCellCount_repl_actual s.grid _ ({ cell with type := CellType.crystal })
        cell hs.1 hcell
    · exact ih _ _ (statsInv_rngRecord _ _ hs)

theorem statsInv_crystallizeStep (O : Oracles) (s : GardenState) (pid : Nat)
    (st : PlantState) (hs : statsInv s) : statsInv (crystallizeStep O s pid st) := by
  simp only [crystallizeStep]
  split
  · exact statsInv_of_eq rfl rfl hs
  · exact statsInv_of_eq rfl rfl (statsInv_crystLoop O _ s _ hs)

theorem statsInv_dissolveRemoveLoop : ∀ (n : Nat) (s : GardenState) (l acc : List Int),
    statsInv s → statsInv (dissolveRemoveLoop n s l acc).1 := by
  intro n
  induction n with
  | zero => intro s l acc hs; exact hs
  | succ k ih =>
    intro s l acc hs
    cases l with
    | nil => exact hs
    | cons x rest =>
      rw [dissolveRemoveLoop]
      split
      · rename_i cell hcell
        split
        · refine ih _ _ _ ⟨nodup_keys_alDelete _ _ hs.1, ?_⟩
          show updateCellCount s.cellCounts cell.type (-1) = actualCounts (alDelete s.grid x)
          rw [show s.cellCounts = actualCounts s.grid from hs.2]
          exact updateCellCount_dec_actual s.grid x cell hs.1 hcell
        · split
          · refine ih _ _ _ ⟨nodup_keys_gridSet _ _ _ hs.1, ?_⟩
            show updateCellCount (updateCellCount s.cellCounts cell.type (-1)) CellType.ash 1
              = actualCounts (gridSet s.grid x ({ cell with type := CellType.ash }))
            rw [show s.cellCounts = actualCounts s.grid from hs.2]
            exact updateCellCount_repl_actual s.grid x ({ cell with type := CellType.ash })
              cell hs.1 hcell
          · exact ih _ _ _ hs
      · exact ih _ _ _ hs

theorem statsInv_finalSweep : ∀ (l : List Int) (s : GardenState) (seedIdx : Option Int),
    statsInv s → statsInv (finalSweep s l seedIdx).1 := by
  intro l
  induction l with
  | nil => intro s seed hs; exact hs
  | cons x rest ih =>
    intro s seed hs
    rw [finalSweep]
    split
    · exact ih _ _ hs
    · rename_i cell hcell
      split
      · split
        · split
          · refine ih _ _ ⟨nodup_keys_gridSet _ _ _ hs.1, ?_⟩
            show updateCellCount (updateCellCount s.cellCounts cell.type (-1)) CellType.ash 1
              = actualCounts (gridSet s.grid x ({ cell with type := CellType.ash }))
            rw [show s.cellCounts = actualCounts s.grid from hs.2]
            exact updateCellCount_repl_actual s.grid x ({ cell with type := CellType.ash })
              cell hs.1 hcell
          · exact ih _ _ hs
        · refine ih _ _ ⟨nodup_keys_alDelete _ _ hs.1, ?_⟩
          show updateCellCount s.cellCounts cell.type (-1) = actualCounts (alDelete s.grid x)
          rw [show s.cellCounts = actualCounts s.grid from hs.2]
          exact updateCellCount_dec_actual s.grid x cell hs.1 hcell
      · refine ih _ _ ⟨nodup_keys_alDelete _ _ hs.1, ?_⟩
        show updateCellCount s.cellCounts cell.type (-1) = actualCounts (alDelete s.grid x)
        rw [show s.cellCounts = actualCounts s.grid from hs.2]
        exact updateCellCount_dec_actual s.grid x cell hs.1 hcell

theorem statsInv_dissolveStep (O : Oracles) (s : GardenState) (pid : Nat)
    (st : PlantState) (hs : statsInv s) : statsInv (dissolveStep O s pid st) := by
  simp only [dissolveStep]
  split
  · exact statsInv_of_eq rfl rfl (statsInv_dissolveRemoveLoop _ _ _ _ hs)
  · exact statsInv_of_eq rfl rfl
      (statsInv_finalSweep _ _ _ (statsInv_dissolveRemoveLoop _ _ _ _ hs))

theorem statsInv_lifecycleStep (O : Oracles) (s : GardenState) (pid : Nat)
    (hs : statsInv s) : statsInv (lifecycleStep O s pid) := by
  simp only [lifecycleStep]
  repeat' split
  all_goals
    first
      | exact hs
      | exact statsInv_of_eq rfl rfl hs
      | exact statsInv_crystallizeStep O s pid _ hs
      | exact statsInv_dissolveStep O s pid _ hs

theorem statsInv_updateLifecycle (O : Oracles) (s : GardenState) (hs : statsInv s) :
    statsInv (updateLifecycle O s) :=
  statsInv_foldl (fun s pid => lifecycleStep O s pid)
    (fun s pid hs => statsInv_lifecycleStep O s pid hs) _ s hs

theorem statsInv_registerPlant (O : Oracles) (s : GardenState) (id : Nat) (g : Genotype)
    (dna : String) (hs : statsInv s) : statsInv (registerPlant O s id g dna) :=
  statsInv_of_eq rfl rfl hs

theorem statsInv_tipsRngRecord (s : GardenState) (n : Nat) (tips : List (Int × TipState))
    (h : statsInv s) : statsInv { s with rngIdx := n, activeTips := tips } :=
  statsInv_of_eq rfl rfl h

theorem statsInv_tipWriteAll (C : GardenState) (index : Int) (v c : GridCell) (n : Nat)
    (tips : List (Int × TipState)) (hsome : alGet C.grid index = some c)
    (ht : v.type = c.type) (h : statsInv C) :
    statsInv { C with
      grid := (gridSet C.grid index v), rngIdx := n, activeTips := tips } := by
  refine ⟨nodup_keys_gridSet _ _ _ h.1, ?_⟩
  show C.cellCounts = actualCounts (gridSet C.grid index v)
  exact (statsInv_gridSet_same_type C index c v hsome ht h).2

theorem registerPlant_isCatchingUp (O : Oracles) (s : GardenState) (id : Nat)
    (g : Genotype) (dna : String) :
    (registerPlant O s id g dna).isCatchingUp = s.isCatchingUp := rfl

theorem statsInv_initializePlantAt (O : Oracles) (s : GardenState) (index x y z : Int)
    (dna : String) (bt : Option ℚ) (fid : Option Nat) (hs : statsInv s) :
    statsInv (initializePlantAt O s index x y z dna bt fid) := by
  cases fid with
  | none =>
    by_cases hcu : s.isCatchingUp = true
    all_goals
      simp only [initializePlantAt, draw, registerPlant_isCatchingUp, hcu,
        eq_self_iff_true, if_true, if_false]
    all_goals split
    all_goals
      first
        | (rename_i cell hcell
           refine statsInv_tipWriteAll _ index _ cell _ _ hcell ?_ ?_
           · rfl
           · refine statsInv_createCell O _ _ _ _ _ _ _ _ _ _ ?_
             exact statsInv_of_eq rfl rfl hs)
        | (refine statsInv_tipsRngRecord _ _ _ ?_
           refine statsInv_createCell O _ _ _ _ _ _ _ _ _ _ ?_
           exact statsInv_of_eq rfl rfl hs)
  | some fid2 =>
    simp only [initializePlantAt, draw]
    split
    all_goals
      first
        | (rename_i cell hcell
           refine statsInv_tipWriteAll _ index _ cell _ _ hcell ?_ ?_
           · rfl
           · refine statsInv_createCell O _ _ _ _ _ _ _ _ _ _ ?_
             exact statsInv_of_eq rfl rfl hs)
        | (refine statsInv_tipsRngRecord _ _ _ ?_
           refine statsInv_createCell O _ _ _ _ _ _ _ _ _ _ ?_
           exact statsInv_of_eq rfl rfl hs)

theorem statsInv_spawnNewPlant (O : Oracles) : ∀ (n : Nat) (s : GardenState),
    statsInv s → statsInv (spawnNewPlant O n s) := by
  intro n
  induction n with
  | zero => intro s hs; exact hs
  | succ k ih =>
    intro s hs
    rw [spawnNewPlant]
    simp only [draw, generateDNA]
    split
    · exact statsInv_initializePlantAt O _ _ _ _ _ _ _ _ (statsInv_rngRecord _ _
        (statsInv_rngRecord _ _ (statsInv_rngRecord _ _ (statsInv_rngRecord _ _ hs))))
    · exact ih _ (statsInv_rngRecord _ _ (statsInv_rngRecord _ _ hs))

theorem statsInv_seed (O : Oracles) : ∀ (n : Nat) (s : GardenState),
    statsInv s → statsInv (seed O n s) := by
  intro n
  induction n with
  | zero => intro s hs; exact hs
  | succ k ih =>
    intro s hs
    rw [seed]
    exact ih _ (statsInv_spawnNewPlant O 10 s hs)

theorem statsInv_rebirthStep (O : Oracles) (s : GardenState) (hs : statsInv s) :
    statsInv (rebirthStep O s) := by
  refine statsInv_foldl _ (fun s pid hs => ?_) _ s hs
  cases hm : alGet s.plantRegistry pid with
  | none => simp only [hm]; exact hs
  | some st =>
    simp only [hm, draw]
    repeat' split
    all_goals
      first
        | exact hs
        | exact statsInv_rngRecord _ _ hs
        | exact statsInv_initializePlantAt O _ _ _ _ _ _ _ _ (statsInv_of_eq rfl rfl hs)

theorem fisherYates_gc (O : Oracles) : ∀ (j : Nat) (s : GardenState) (arr : List TipState),
    (fisherYates O j s arr).2.grid = s.grid ∧
    (fisherYates O j s arr).2.cellCounts = s.cellCounts := by
  intro j
  induction j with
  | zero => intro s arr; exact ⟨rfl, rfl⟩
  | succ k ih =>
    intro s arr
    rw [fisherYates]
    simp only [draw]
    exact ih _ _

theorem statsInv_tipFold (O : Oracles) (s : GardenState) (tip : TipState)
    (hs : statsInv s) :
    statsInv (if alHas s.activeTips tip.idx then processTip O s tip.idx else s) := by
  split
  · exact statsInv_processTip O s _ hs
  · exact hs

theorem statsInv_tickSimAdvance (O : Oracles) (stepMs : ℚ) (s : GardenState)
    (hs : statsInv s) : statsInv (tickSimAdvance O stepMs s) := by
  rw [tickSimAdvance]
  split
  · exact statsInv_of_eq rfl rfl hs
  · exact hs

theorem statsInv_tickSeedRoll (O : Oracles) (s : GardenState) (hs : statsInv s) :
    statsInv (tickSeedRoll O s) := by
  rw [tickSeedRoll]
  split
  · simp only [draw]
    split
    · exact statsInv_spawnNewPlant O 10 _ (statsInv_rngRecord _ _ hs)
    · exact statsInv_rngRecord _ _ hs
  · exact hs

theorem statsInv_tickRest (O : Oracles) (s : GardenState) (hs : statsInv s) :
    statsInv (tickRest O s) := by
  simp only [tickRest]
  refine statsInv_updateLifecycle O _ ?_
  refine statsInv_foldl _ (fun s tip hs => statsInv_tipFold O s tip hs) _ _ ?_
  split
  · exact statsInv_of_eq (fisherYates_gc O _ _ _).1 (fisherYates_gc O _ _ _).2
      (statsInv_rebirthStep O _ hs)
  · exact statsInv_rebirthStep O _ hs

theorem statsInv_tickOnce (O : Oracles) (stepMs : ℚ) (s : GardenState) (hs : statsInv s) :
    statsInv (tickOnce O stepMs s) :=
  statsInv_tickRest O _ (statsInv_tickSeedRoll O _ (statsInv_tickSimAdvance O stepMs s hs))

theorem statsInv_performTick (O : Oracles) (stepMs : ℚ) : ∀ (n : Nat) (s : GardenState),
    statsInv s → statsInv (performTick O stepMs n s) := by
  intro n
  induction n with
  | zero => intro s hs; exact hs
  | succ k ih =>
    intro s hs
    rw [performTick]
    exact ih _ (statsInv_tickOnce O stepMs s hs)

theorem statsInv_updateFinal (s : GardenState) (O : Oracles) (hs : statsInv s) :
    statsInv (if s.growthRate ≤ 1 ∧ ¬ s.globalLastTickTime = none ∧ ¬ s.isCatchingUp then
      { s with globalLastTickTime := s.globalLastTickTime.map (fun t => t + O.msPerUpdate) }
      else s) := by
  split
  · exact statsInv_of_eq rfl rfl hs
  · exact hs

set_option maxHeartbeats 2000000 in
theorem statsInv_update (O : Oracles) (s : GardenState) (hs : statsInv s) :
    statsInv (update O s) := by
  simp only [update, draw]
  refine statsInv_updateFinal _ O ?_
  refine statsInv_updateLifecycle O _ ?_
  refine statsInv_foldl _ (fun s tip hs => statsInv_tipFold O s tip hs) _ _ ?_
  refine statsInv_rebirthStep O _ ?_
  split
  · split
    · exact statsInv_spawnNewPlant O 10 _ (statsInv_of_eq rfl rfl hs)
    · exact statsInv_of_eq rfl rfl hs
  · exact statsInv_of_eq rfl rfl hs

theorem statsInv_spawnAshOnly (O : Oracles) (s : GardenState) (dna : String) (x z : Int)
    (bt : Option ℚ) (hs : statsInv s) : statsInv (spawnAshOnly O s dna x z bt) := by
  rw [spawnAshOnly]
  split
  · exact statsInv_createCell O _ _ _ _ _ _ _ _ _ _ hs
  · exact hs

theorem statsInv_reactivateTips (O : Oracles) (rootIdx : Int) :
    ∀ (l : List GridCell) (s : GardenState), statsInv s →
    statsInv (reactivateTips O rootIdx l s) := by
  intro l
  induction l with
  | nil => intro s hs; exact hs
  | cons tc rest ih =>
    intro s hs
    rw [reactivateTips]
    refine ih _ ?_
    simp only [draw]
    split
    · split
      · rename_i c hc
        refine statsInv_tipWriteAll _ _ _ c _ _ hc ?_ ?_
        · rfl
        · exact hs
      · exact statsInv_tipsRngRecord _ _ _ hs
    · exact hs

theorem statsInv_reconstructTipsForGrowth (O : Oracles) (s : GardenState) (plantId : Nat)
    (hs : statsInv s) : statsInv (reconstructTipsForGrowth O s plantId) := by
  simp only [reconstructTipsForGrowth]
  repeat' split
  all_goals
    first
      | exact hs
      | exact statsInv_of_eq rfl rfl hs
      | (refine statsInv_reactivateTips O _ _ _ ?_
         exact statsInv_of_eq rfl rfl hs)

theorem statsInv_catchUpEnter (s : GardenState) (lt : ℚ) (hs : statsInv s) :
    statsInv (catchUpEnter s lt) :=
  statsInv_of_eq rfl rfl hs

theorem statsInv_catchUpExit (s : GardenState) (savedSun : ℚ × ℚ × ℚ) (lt ex : ℚ)
    (hs : statsInv s) : statsInv (catchUpExit s savedSun lt ex) := by
  simp only [catchUpExit]
  split <;> exact statsInv_of_eq rfl rfl hs

theorem statsInv_catchUpPhase (O : Oracles) (s : GardenState) (lastSavedTime : Option ℚ)
    (now : ℚ) (updates : Nat) (stepMs : ℚ) (hs : statsInv s) :
    statsInv (catchUpPhase O s lastSavedTime now updates stepMs) := by
  cases lastSavedTime with
  | none => exact hs
  | some lt =>
    simp only [catchUpPhase]
    split
    · exact statsInv_catchUpExit _ _ _ _
        (statsInv_performTick O stepMs updates _ (statsInv_catchUpEnter s _ hs))
    · exact hs

theorem statsInv_foldl_pair {α β : Type} (f : GardenState × β → α → GardenState × β)
    (h : ∀ p x, statsInv p.1 → statsInv (f p x).1) : ∀ (l : List α) (p : GardenState × β),
    statsInv p.1 → statsInv (l.foldl f p).1 := by
  intro l
  induction l with
  | nil => intro p hp; exact hp
  | cons x rest ih => intro p hp; exact ih (f p x) (h p x hp)

theorem statsInv_speciesRecord (s : GardenState) (u : List String) (h : statsInv s) :
    statsInv { s with uniqueSpecies := u } :=
  statsInv_of_eq rfl rfl h

theorem statsInv_growthRecord (s : GardenState) (g : ℚ) (h : statsInv s) :
    statsInv { s with growthRate := g } :=
  statsInv_of_eq rfl rfl h

theorem statsInv_loadMidRecord (s : GardenState) (a : Option ℚ) (b c : Nat) (d : ℚ)
    (h : statsInv s) :
    statsInv { s with
      globalLastTickTime := a, plantCounter := b, realPlantCount := c,
      playbackTime := d } :=
  statsInv_of_eq rfl rfl h

theorem statsInv_loadFromDatabase (O : Oracles) (s : GardenState)
    (records : List PlantRecord) (cells : List CellRecord) (glt : Option ℚ)
    (updates : Nat) (stepMs : ℚ) (hs : statsInv s) :
    statsInv (loadFromDatabase O s records cells glt updates stepMs) := by
  rw [loadFromDatabase]
  split
  · exact hs
  · refine statsInv_growthRecord _ _ ?_
    refine statsInv_catchUpPhase O _ _ _ _ _ ?_
    refine statsInv_foldl _ ?_ _ _ ?_
    · intro s2 pid hs2
      dsimp only
      split
      · split
        · exact statsInv_reconstructTipsForGrowth O s2 _ hs2
        · exact hs2
      · exact hs2
    · refine statsInv_foldl _ ?_ _ _ ?_
      · intro s2 cd hs2
        dsimp only
        split
        · split
          · exact statsInv_createCellDirect _ O _ _ _ _ _ _ _ _ _ hs2
          · exact statsInv_createCellDirect _ O _ _ _ _ _ _ _ _ _ hs2
        · exact hs2
      · refine statsInv_loadMidRecord _ _ _ _ _ ?_
        refine statsInv_foldl_pair _ ?_ _ _ ?_
        · intro p record hp
          dsimp only
          split
          · split
            · refine statsInv_speciesRecord _ _ ?_
              exact statsInv_registerPlant O _ _ _ _ hp
            · exact statsInv_spawnAshOnly O _ _ _ _ _ hp
          · exact hp
        · exact statsInv_growthRecord _ _ hs

/-- C10: the stats invariant - duplicate-free grid keys and per-type cell
counters (as exposed through `getStats`) equal to the actual number of grid
cells of each type - holds in a fresh garden and is preserved by each public
operation: `seed`, `update` and `loadFromDatabase` (including its catch-up
replay). -/
theorem C10_counts_consistent (O : Oracles) (s : GardenState) (n : Nat)
    (records : List PlantRecord) (cells : List CellRecord) (glt : Option ℚ)
    (updates : Nat) (stepMs : ℚ) (t0 gr : ℚ) (hs : statsInv s) :
    statsInv (initialState t0 gr) ∧
    statsInv (seed O n s) ∧
    statsInv (update O s) ∧
    statsInv (loadFromDatabase O s records cells glt updates stepMs) :=
  ⟨⟨List.nodup_nil, by with_unfolding_all rfl⟩,
   statsInv_seed O n s hs,
   statsInv_update O s hs,
   statsInv_loadFromDatabase O s records cells glt updates stepMs hs⟩

/-- C10 witness: the flowering scenario state `s9` satisfies the invariant,
and so do a public seed, a live tick, and a database load with catch-up run
from it. -/
theorem C10_counts_consistent_witness :
    statsInv s9 ∧ statsInv (initialState 0 1) ∧ statsInv (seed oc 1 s9) ∧
    statsInv (update oc s9) ∧ statsInv (loadFromDatabase oc s9 [rec1] [] none 1 1) := by
  have hs : statsInv s9 := ⟨by decide, by with_unfolding_all rfl⟩
  have h := C10_counts_consistent oc s9 1 [rec1] [] none 1 1 0 1 hs
  exact ⟨hs, h.1, h.2.1, h.2.2.1, h.2.2.2⟩


/-! ### The dissolving final sweep (for C4) -/

theorem finalSweep_grid_none (l : List Int) :
    ∀ (s : GardenState) (seedIdx : Option Int) (j : Int),
      alGet s.grid j = none → alGet (finalSweep s l seedIdx).1.grid j = none := by
  induction l with
  | nil => intro s seedIdx j h; exact h
  | cons idx rest ih =>
    intro s seedIdx j h
    cases hx : alGet s.grid idx with
    | none =>
      simp only [finalSweep, hx]
      exact ih s seedIdx j h
    | some cell =>
      have hne : ¬ j = idx := by intro he; rw [he, hx] at h; exact Option.noConfusion h
      have hdel : alGet (alDelete s.grid idx) j = none := by
        rw [alGet_alDelete, if_neg hne]; exact h
      cases seedIdx with
      | none =>
        simp only [finalSweep, hx]
        by_cases hy : cell.y = 0
        · rw [if_pos hy]
          split
          · refine ih _ _ j ?_
            dsimp only
            rw [alGet_gridSet, if_neg hne]
            exact h
          · exact ih _ _ j h
        · rw [if_neg hy]
          exact ih _ _ j hdel
      | some i0 =>
        simp only [finalSweep, hx]
        by_cases hy : cell.y = 0
        · rw [if_pos hy]
          exact ih _ _ j hdel
        · rw [if_neg hy]
          exact ih _ _ j hdel

theorem finalSweep_some_spec (l : List Int) :
    ∀ (s : GardenState) (i0 : Int) (c0 : GridCell), ¬ i0 ∈ l →
      alGet s.grid i0 = some c0 →
      (finalSweep s l (some i0)).2 = some i0 ∧
      alGet (finalSweep s l (some i0)).1.grid i0 = some c0 ∧
      ∀ j, j ∈ l → alGet (finalSweep s l (some i0)).1.grid j = none := by
  induction l with
  | nil =>
    intro s i0 c0 _ h0
    exact ⟨rfl, h0, fun j hj => absurd hj (List.not_mem_nil j)⟩
  | cons idx rest ih =>
    intro s i0 c0 hnin h0
    rw [List.mem_cons, not_or] at hnin
    cases hx : alGet s.grid idx with
    | none =>
      simp only [finalSweep, hx]
      obtain ⟨e1, e2, e3⟩ := ih s i0 c0 hnin.2 h0
      refine ⟨e1, e2, ?_⟩
      intro j hj
      rcases List.mem_cons.mp hj with rfl | hj2
      · exact finalSweep_grid_none rest s (some i0) j hx
      · exact e3 j hj2
    | some cell =>
      have hdi0 : alGet (alDelete s.grid idx) i0 = some c0 := by
        rw [alGet_alDelete, if_neg hnin.1]; exact h0
      have hdidx : alGet (alDelete s.grid idx) idx = none := by
        rw [alGet_alDelete, if_pos rfl]
      simp only [finalSweep, hx]
      by_cases hy : cell.y = 0
      · rw [if_pos hy]
        obtain ⟨e1, e2, e3⟩ := ih { s with cellCounts := updateCellCount s.cellCounts cell.type (-1), grid := alDelete s.grid idx } i0 c0 hnin.2 hdi0
        refine ⟨e1, e2, ?_⟩
        intro j hj
        rcases List.mem_cons.mp hj with hj1 | hj2
        · rw [hj1]
          exact finalSweep_grid_none rest { s with cellCounts := updateCellCount s.cellCounts cell.type (-1), grid := alDelete s.grid idx } (some i0) idx hdidx
        · exact e3 j hj2
      · rw [if_neg hy]
        obtain ⟨e1, e2, e3⟩ := ih { s with cellCounts := updateCellCount s.cellCounts cell.type (-1), grid := alDelete s.grid idx } i0 c0 hnin.2 hdi0
        refine ⟨e1, e2, ?_⟩
        intro j hj
        rcases List.mem_cons.mp hj with hj1 | hj2
        · rw [hj1]
          exact finalSweep_grid_none rest { s with cellCounts := updateCellCount s.cellCounts cell.type (-1), grid := alDelete s.grid idx } (some i0) idx hdidx
        · exact e3 j hj2

theorem finalSweep_none_spec (l : List Int) :
    ∀ s : GardenState, l.Nodup →
      ((finalSweep s l none).2 = none ∧
        ∀ j, j ∈ l → alGet (finalSweep s l none).1.grid j = none) ∨
      (∃ i c0, (finalSweep s l none).2 = some i ∧ i ∈ l ∧
        alGet (finalSweep s l none).1.grid i = some c0 ∧
        c0.type = CellType.ash ∧ c0.y = 0 ∧
        ∀ j, j ∈ l → ¬ j = i → alGet (finalSweep s l none).1.grid j = none) := by
  induction l with
  | nil =>
    intro s _
    exact Or.inl ⟨rfl, fun j hj => absurd hj (List.not_mem_nil j)⟩
  | cons idx rest ih =>
    intro s hnd
    rw [List.nodup_cons] at hnd
    cases hx : alGet s.grid idx with
    | none =>
      simp only [finalSweep, hx]
      rcases ih s hnd.2 with ⟨e1, e2⟩ | ⟨i, c0, e1, hmem, e2, ht, hy0, e3⟩
      · refine Or.inl ⟨e1, ?_⟩
        intro j hj
        rcases List.mem_cons.mp hj with rfl | hj2
        · exact finalSweep_grid_none rest s none j hx
        · exact e2 j hj2
      · refine Or.inr ⟨i, c0, e1, List.mem_cons_of_mem idx hmem, e2, ht, hy0, ?_⟩
        intro j hj hji
        rcases List.mem_cons.mp hj with rfl | hj2
        · exact finalSweep_grid_none rest s none j hx
        · exact e3 j hj2 hji
    | some cell =>
      have hdidx : alGet (alDelete s.grid idx) idx = none := by
        rw [alGet_alDelete, if_pos rfl]
      simp only [finalSweep, hx]
      by_cases hy : cell.y = 0
      · rw [if_pos hy]
        by_cases ha : cell.type = CellType.ash
        · rw [if_neg (not_not_intro ha)]
          obtain ⟨e1, e2, e3⟩ := finalSweep_some_spec rest s idx cell hnd.1 hx
          refine Or.inr ⟨idx, cell, e1, List.mem_cons_self idx rest, e2, ha, hy, ?_⟩
          intro j hj hji
          rcases List.mem_cons.mp hj with rfl | hj2
          · exact absurd rfl hji
          · exact e3 j hj2
        · rw [if_pos ha]
          have hgs : alGet (gridSet s.grid idx { cell with type := CellType.ash }) idx = some { cell with type := CellType.ash } := by
            rw [alGet_gridSet, if_pos rfl]
          obtain ⟨e1, e2, e3⟩ := finalSweep_some_spec rest { s with cellCounts := updateCellCount (updateCellCount s.cellCounts cell.type (-1)) CellType.ash 1, grid := gridSet s.grid idx { cell with type := CellType.ash } } idx { cell with type := CellType.ash } hnd.1 hgs
          refine Or.inr ⟨idx, { cell with type := CellType.ash }, e1, List.mem_cons_self idx rest, e2, rfl, hy, ?_⟩
          intro j hj hji
          rcases List.mem_cons.mp hj with rfl | hj2
          · exact absurd rfl hji
          · exact e3 j hj2
      · rw [if_neg hy]
        rcases ih { s with cellCounts := updateCellCount s.cellCounts cell.type (-1), grid := alDelete s.grid idx } hnd.2 with ⟨e1, e2⟩ | ⟨i, c0, e1, hmem, e2, ht, hy0, e3⟩
        · refine Or.inl ⟨e1, ?_⟩
          intro j hj
          rcases List.mem_cons.mp hj with hj1 | hj2
          · rw [hj1]
            exact finalSweep_grid_none rest { s with cellCounts := updateCellCount s.cellCounts cell.type (-1), grid := alDelete s.grid idx } none idx hdidx
          · exact e2 j hj2
        · refine Or.inr ⟨i, c0, e1, List.mem_cons_of_mem idx hmem, e2, ht, hy0, ?_⟩
          intro j hj hji
          rcases List.mem_cons.mp hj with hj1 | hj2
          · rw [hj1]
            exact finalSweep_grid_none rest { s with cellCounts := updateCellCount s.cellCounts cell.type (-1), grid := alDelete s.grid idx } none idx hdidx
          · exact e3 j hj2 hji

theorem dissolveInsert_perm (g : List (Int × GridCell)) (x : Int) :
    ∀ l : List Int, (dissolveInsert g x l).Perm (x :: l) := by
  intro l
  induction l with
  | nil => exact List.Perm.refl _
  | cons e rest ih =>
    rw [dissolveInsert]
    split
    · split
      · exact (List.Perm.cons e ih).trans (List.Perm.swap x e rest)
      · exact List.Perm.refl _
    · exact List.Perm.refl _

theorem dissolveSort_perm (g : List (Int × GridCell)) :
    ∀ l : List Int, (dissolveSort g l).Perm l := by
  intro l
  induction l with
  | nil => exact List.Perm.refl _
  | cons x rest ih =>
    rw [dissolveSort]
    exact (dissolveInsert_perm g x (dissolveSort g rest)).trans (List.Perm.cons x ih)

/-- C4 counterexample: a Dissolving organism whose owned indices all point at
absent grid cells completes dissolution to Legacy through the empty-indices
short-circuit of the lifecycle pass with an EMPTY owned-cell list and ZERO Ash
cells on the grid, contradicting "exactly one Ash cell remains ... and the
organism's owned-cell list has length exactly 1". -/
theorem C4_counterexample :
    (alGet s4c.plantRegistry 1).map (fun p => p.phase) = some Phase.dissolving ∧
    (alGet (lifecycleStep oc s4c 1).plantRegistry 1).map
        (fun p => (p.phase, p.indices)) = some (Phase.legacy, ([] : List Int)) ∧
    countType (lifecycleStep oc s4c 1).grid CellType.ash = 0 :=
  of_decide_eq_true (by with_unfolding_all rfl)

/-- C4 (amended): when a Dissolving organism's dissolve step runs on a
duplicate-free owned list, either the organism is still mid-dissolve (its
phase is unchanged), or it completes to Legacy with owned-cell list of length
exactly one, the surviving owned cell being an Ash cell at ground level
(`y = 0`) — the first surviving ground cell, not necessarily the germination
coordinate — or it completes to Legacy with an EMPTY owned list when no owned
ground cell survives. -/
theorem C4_dissolution (O : Oracles) (s : GardenState) (pid : Nat) (st : PlantState)
    (hnd : st.indices.Nodup) :
    ((alGet (dissolveStep O s pid st).plantRegistry pid).map (fun p => p.phase)
        = some st.phase) ∨
    (∃ i c, alGet (dissolveStep O s pid st).plantRegistry pid
        = some { st with indices := [i], phase := Phase.legacy } ∧
      alGet (dissolveStep O s pid st).grid i = some c ∧
      c.type = CellType.ash ∧ c.y = 0) ∨
    (alGet (dissolveStep O s pid st).plantRegistry pid
        = some { st with indices := [], phase := Phase.legacy }) := by
  have hsortnd : (dissolveSort s.grid st.indices).Nodup :=
    ((dissolveSort_perm s.grid st.indices).nodup_iff).mpr hnd
  simp only [dissolveStep]
  generalize hL0 : dissolveSort s.grid st.indices = sorted0
  rw [hL0] at hsortnd
  generalize hR0 : dissolveRemoveLoop (max 1 (Int.toNat (Int.ceil ((sorted0.length : ℚ) * (25/100))))) s sorted0 [] = res0
  generalize hF0 : sorted0.filter (fun idx => ¬ idx ∈ res0.2) = L0
  have hLnd : L0.Nodup := by rw [← hF0]; exact hsortnd.filter _
  split
  · left
    dsimp only
    rw [alGet_alSet, if_pos rfl]
    rfl
  · split
    · rename_i i heq
      rcases finalSweep_none_spec L0 res0.1 hLnd with ⟨e1, _⟩ | ⟨i2, c0, e1, _, e2, ht, hy0, _⟩
      · rw [e1] at heq
        exact Option.noConfusion heq
      · rw [e1] at heq
        have hii := Option.some.inj heq
        subst hii
        refine Or.inr (Or.inl ⟨i2, c0, ?_, ?_, ht, hy0⟩)
        · dsimp only
          rw [alGet_alSet, if_pos rfl]
        · dsimp only
          exact e2
    · right
      right
      dsimp only
      rw [alGet_alSet, if_pos rfl]

theorem C4_dissolution_witness :
    (mkPlant 1 [10001, 10101] Phase.dissolving).indices.Nodup ∧
    (alGet (dissolveStep oc s4 1 (mkPlant 1 [10001, 10101] Phase.dissolving)).plantRegistry 1).map
        (fun p => (p.phase, p.indices)) = some (Phase.legacy, ([10001] : List Int)) ∧
    (alGet (dissolveStep oc s4 1 (mkPlant 1 [10001, 10101] Phase.dissolving)).grid 10001).map
        (fun c => (c.type, c.y)) = some (CellType.ash, (0 : Int)) := by
  have hnd : (mkPlant 1 [10001, 10101] Phase.dissolving).indices.Nodup := by decide
  rcases C4_dissolution oc s4 1 (mkPlant 1 [10001, 10101] Phase.dissolving) hnd with
      h1 | ⟨i, c, h2a, h2b, h2c, h2d⟩ | h3
  · have hc : (alGet (dissolveStep oc s4 1 (mkPlant 1 [10001, 10101] Phase.dissolving)).plantRegistry 1).map
        (fun p => p.phase) = some Phase.legacy := by with_unfolding_all rfl
    rw [h1] at hc
    exact absurd (Option.some.inj hc) (by decide)
  · have hidx : (alGet (dissolveStep oc s4 1 (mkPlant 1 [10001, 10101] Phase.dissolving)).plantRegistry 1).map
        (fun p => p.indices) = some ([10001] : List Int) := by with_unfolding_all rfl
    rw [h2a] at hidx
    simp at hidx
    subst hidx
    refine ⟨hnd, ?_, ?_⟩
    · rw [h2a]
      rfl
    · rw [h2b]
      show some (c.type, c.y) = some (CellType.ash, (0 : Int))
      rw [h2c, h2d]
  · have hidx : (alGet (dissolveStep oc s4 1 (mkPlant 1 [10001, 10101] Phase.dissolving)).plantRegistry 1).map
        (fun p => p.indices) = some ([10001] : List Int) := by with_unfolding_all rfl
    rw [h3] at hidx
    simp at hidx


end Chrono
